import Mathlib

/-!
# GraphUserAdmin: resource clients, license-error rewriting and config validation

A shallow embedding of the Go packages `internal/users`, `internal/groups`,
`internal/licenses` and `internal/config`.

* A Go `string` is a sequence of bytes: `GoString := List Nat`.
* A Go `error` is represented by its text; `nil` is `none`.
* A Go function returning `(T, error)` returns a pair here, so that a result
  accompanying an error stays visible.
* `net/http`, `encoding/json` and `os` are library code: they enter as the
  fields of `Env`. The transport is a function from the request to the
  response or a transport error; a request is what the code passes to
  `http.NewRequest` and sets on the headers.
* Two library functions are embedded instead, because the command layer
  depends on which texts they accept: `fmt.Scanln` with one string operand
  and `json.Unmarshal` into an `interface{}`.
* Every operation also yields the list of requests it handed to the
  transport, in order.
* The loop of the paginated operations takes a bound on its iterations and
  returns `none` when the bound is used up; a panic is `none` as well.
-/

namespace GraphUserAdmin

/-- A Go string: its bytes, in order. -/
abbrev GoString := List Nat

/-- The bytes of an ASCII string literal of the source. -/
def lit (s : String) : GoString := s.data.map Char.toNat

/-- The verb `%d` of `fmt` applied to an `int`: an optional minus sign and the decimal digits. -/
def fmtD (n : Int) : GoString :=
  if n < 0 then 45 :: (Nat.toDigits 10 n.natAbs).map Char.toNat
  else (Nat.toDigits 10 n.natAbs).map Char.toNat

/-! ## `internal/licenses`: the substring helper -/

/-- Source `toLower`: `if c >= 'A' && c <= 'Z' { return c + 32 }; return c`, on a byte. -/
def toLower (c : Nat) : Nat :=
  if c ≥ 65 ∧ c ≤ 90 then (c + 32) % 256 else c

/-- The loop of `matchAt`, started at index `i` with `n` iterations left.
`none` is the run-time panic of an index out of range. -/
def matchAtLoop (s substr : GoString) (pos : Nat) : Nat → Nat → Option Bool
  | _, 0 => some true
  | i, n + 1 =>
    match s[pos + i]?, substr[i]? with
    | some a, some b =>
      if toLower a ≠ toLower b then some false
      else matchAtLoop s substr pos (i + 1) n
    | _, _ => none

/-- Source `matchAt`: `for i := 0; i < len(substr); i++`. -/
def matchAt (s substr : GoString) (pos : Nat) : Option Bool :=
  matchAtLoop s substr pos 0 substr.length

/-- The loop of `findSubstring`, at index `i` with `n` iterations left. -/
def findSubstringLoop (s substr : GoString) : Nat → Nat → Option Bool
  | _, 0 => some false
  | i, n + 1 =>
    match matchAt s substr i with
    | none => none
    | some true => some true
    | some false => findSubstringLoop s substr (i + 1) n

/-- Source `findSubstring`: `for i := 0; i <= len(s)-len(substr); i++`; the body runs
for `i = 0, ..., len(s)-len(substr)`, that is `len(s) + 1 - len(substr)` times, and not
at all when `substr` is the longer one. -/
def findSubstring (s substr : GoString) : Option Bool :=
  findSubstringLoop s substr 0 (s.length + 1 - substr.length)

/-- Source `contains`, with the short-circuit evaluation of `&&` and `||`. -/
def contains (s substr : GoString) : Option Bool :=
  if s.length ≥ substr.length then
    if s = substr then some true
    else if substr.length = 0 then some true
    else if s.length > 0 ∧ substr.length > 0 then findSubstring s substr
    else some false
  else some false

/-- Equality of two byte strings up to the case of ASCII letters. -/
def SameFold (a b : GoString) : Prop :=
  a.map (fun c => if 65 ≤ c ∧ c ≤ 90 then c + 32 else c)
    = b.map (fun c => if 65 ≤ c ∧ c ≤ 90 then c + 32 else c)

/-- The string `s` has a substring equal to `sub` up to the case of ASCII letters. -/
def ContainsFold (s sub : GoString) : Prop :=
  ∃ pre mid post, s = pre ++ mid ++ post ∧ SameFold mid sub

/-! ## The library boundary: `net/http`, `encoding/json`, `os` -/

/-- What an operation passes to `http.NewRequest` and sets on the request before
`client.Do`: method, URL string, the two headers and the body, if any. -/
structure Request where
  Method : GoString
  URL : GoString
  Authorization : GoString
  ContentType : GoString
  Body : Option GoString
  deriving DecidableEq

/-- What `client.Do` followed by `io.ReadAll(resp.Body)` delivers: the status code, the
bytes read, and the error of the read, if any. -/
structure Response where
  StatusCode : Int
  Body : GoString
  ReadErr : Option GoString
  deriving DecidableEq

/-- A value decoded by `encoding/json` into `interface{}`; a number keeps its text. -/
inductive JValue where
  | null : JValue
  | bool : Bool → JValue
  | number : GoString → JValue
  | str : GoString → JValue
  | arr : List JValue → JValue
  | obj : List (GoString × JValue) → JValue

/-- Source `users.User`. -/
structure User where
  ID : GoString
  DisplayName : GoString
  UserPrincipalName : GoString
  Mail : GoString
  MailNickname : GoString
  AccountEnabled : Bool
  deriving DecidableEq

/-- Source `users.UserResponse`. -/
structure UserResponse where
  Value : List User
  NextLink : GoString
  deriving DecidableEq

/-- Source `users.PasswordProfile`. -/
structure PasswordProfile where
  ForceChangePasswordNextSignIn : Bool
  Password : GoString
  deriving DecidableEq

/-- Source `users.CreateUserRequest`. -/
structure CreateUserRequest where
  AccountEnabled : Bool
  DisplayName : GoString
  MailNickname : GoString
  UserPrincipalName : GoString
  PasswordProfile : PasswordProfile
  deriving DecidableEq

/-- Source `groups.Group`. -/
structure Group where
  ID : GoString
  DisplayName : GoString
  Description : GoString
  deriving DecidableEq

/-- Source `groups.GroupResponse`. -/
structure GroupResponse where
  Value : List Group
  NextLink : GoString
  deriving DecidableEq

/-- Source `licenses.PrepaidUnits`. -/
structure PrepaidUnits where
  Enabled : Int
  Suspended : Int
  Warning : Int
  deriving DecidableEq

/-- Source `licenses.SubscribedSku`. -/
structure SubscribedSku where
  ID : GoString
  SkuID : GoString
  SkuPartNumber : GoString
  ConsumedUnits : Int
  PrepaidUnits : PrepaidUnits
  deriving DecidableEq

/-- Source `licenses.SkuResponse`. -/
structure SkuResponse where
  Value : List SubscribedSku
  NextLink : GoString
  deriving DecidableEq

/-- Source `licenses.LicenseDetail`. -/
structure LicenseDetail where
  ID : GoString
  SkuID : GoString
  SkuPartNumber : GoString
  deriving DecidableEq

/-- Source `licenses.LicenseDetailResponse`: it has no field for `@odata.nextLink`. -/
structure LicenseDetailResponse where
  Value : List LicenseDetail
  deriving DecidableEq

/-- Source `licenses.AddLicense`. -/
structure AddLicense where
  SkuID : GoString
  deriving DecidableEq

/-- Source `licenses.AssignLicenseRequest`. -/
structure AssignLicenseRequest where
  AddLicenses : List AddLicense
  RemoveLicenses : List GoString
  deriving DecidableEq

/-- Source `config.Config`. -/
structure Config where
  TenantID : GoString
  ClientID : GoString
  ClientSecret : GoString
  deriving DecidableEq

/-- The values the operations pass to `json.Marshal`. -/
inductive Payload where
  | createUser : CreateUserRequest → Payload
  | properties : List (GoString × JValue) → Payload
  | assignLicense : AssignLicenseRequest → Payload
  | memberRef : List (GoString × GoString) → Payload

/-- The library functions the packages call. An `Except` carries the text of the
library error on the left. -/
structure Env where
  /-- The error of `http.NewRequest(method, url, body)`, `none` when the request is built. -/
  newRequestErr : GoString → GoString → Option GoString
  /-- The transport: `client.Do(req)` and the read of the response body. -/
  roundTrip : Request → Except GoString Response
  /-- The function `json.Marshal`. -/
  marshal : Payload → Except GoString GoString
  /-- The function `json.Unmarshal` into a `users.UserResponse`. -/
  unmarshalUserResponse : GoString → Except GoString UserResponse
  /-- The function `json.Unmarshal` into a `users.User`. -/
  unmarshalUser : GoString → Except GoString User
  /-- The function `json.Unmarshal` into a `groups.GroupResponse`. -/
  unmarshalGroupResponse : GoString → Except GoString GroupResponse
  /-- The function `json.Unmarshal` into a `licenses.SkuResponse`. -/
  unmarshalSkuResponse : GoString → Except GoString SkuResponse
  /-- The function `json.Unmarshal` into a `licenses.LicenseDetailResponse`. -/
  unmarshalLicenseDetailResponse : GoString → Except GoString LicenseDetailResponse
  /-- The function `json.Unmarshal` into a `map[string]interface{}`, as the list of its members. -/
  unmarshalMap : GoString → Except GoString (List (GoString × JValue))
  /-- The function `json.Unmarshal` into a `config.Config`. -/
  unmarshalConfig : GoString → Except GoString Config
  /-- Whether `os.Stat(path)` fails with an error for which `os.IsNotExist` holds. -/
  statIsNotExist : GoString → Bool
  /-- The function `os.ReadFile`. -/
  readFile : GoString → Except GoString GoString

/-- The return values of a call together with the requests it handed to the
transport, in the order of the calls of `client.Do`. -/
structure Ran (α : Type) where
  ret : α
  sent : List Request
  deriving DecidableEq

/-- The constant `baseURL` of the three resource packages. -/
def baseURL : GoString := lit "https://graph.microsoft.com/v1.0"

/-- The request the operations build: `http.NewRequest(method, url, body)` followed by
the two calls of `req.Header.Set`. -/
def mkRequest (method url accessToken : GoString) (body : Option GoString) : Request :=
  { Method := method, URL := url, Authorization := lit "Bearer " ++ accessToken,
    ContentType := lit "application/json", Body := body }

/-- Indexing a decoded `map[string]interface{}` by a key. -/
def mapIndex (m : List (GoString × JValue)) (key : GoString) : Option JValue :=
  (m.find? (fun kv => decide (kv.1 = key))).map Prod.snd

/-! ## The paginated list operations -/

/-- The loop `for url != "" { ... }` shared, up to the error label and the response
type, by `ListUsers`, `ListGroups`, `GetUserGroups` and `GetSubscribedSkus`.
`label` is the text after `failed to ` in the two operation-specific errors,
`unmarshal` decodes a page into its `Value` and `NextLink`. The first argument bounds
the number of iterations; `none` means the bound was reached with `url` still
non-empty. -/
def pagedLoop {α : Type} (env : Env) (label : GoString)
    (unmarshal : GoString → Except GoString (List α × GoString)) (accessToken : GoString)
    (fuel : Nat) (url : GoString) (all : List α) (sent : List Request) :
    Option (Ran (List α × Option GoString)) :=
  if url = [] then some ⟨(all, none), sent⟩
  else
    match fuel with
    | 0 => none
    | fuel + 1 =>
      match env.newRequestErr (lit "GET") url with
      | some err => some ⟨([], some (lit "failed to create request: " ++ err)), sent⟩
      | none =>
        let req := mkRequest (lit "GET") url accessToken none
        match env.roundTrip req with
        | .error err =>
          some ⟨([], some (lit "failed to " ++ label ++ lit ": " ++ err)), sent ++ [req]⟩
        | .ok resp =>
          match resp.ReadErr with
          | some err =>
            some ⟨([], some (lit "failed to read response: " ++ err)), sent ++ [req]⟩
          | none =>
            if resp.StatusCode ≠ 200 then
              some ⟨([], some (lit "failed to " ++ label ++ lit " (status "
                ++ fmtD resp.StatusCode ++ lit "): " ++ resp.Body)), sent ++ [req]⟩
            else
              match unmarshal resp.Body with
              | .error err =>
                some ⟨([], some (lit "failed to parse response: " ++ err)), sent ++ [req]⟩
              | .ok (value, nextLink) =>
                pagedLoop env label unmarshal accessToken fuel nextLink (all ++ value)
                  (sent ++ [req])

/-- Decoding a page of users into its `Value` and `NextLink`. -/
def userPage (env : Env) (body : GoString) : Except GoString (List User × GoString) :=
  (env.unmarshalUserResponse body).map fun r => (r.Value, r.NextLink)

/-- Decoding a page of groups into its `Value` and `NextLink`. -/
def groupPage (env : Env) (body : GoString) : Except GoString (List Group × GoString) :=
  (env.unmarshalGroupResponse body).map fun r => (r.Value, r.NextLink)

/-- Decoding a page of SKUs into its `Value` and `NextLink`. -/
def skuPage (env : Env) (body : GoString) : Except GoString (List SubscribedSku × GoString) :=
  (env.unmarshalSkuResponse body).map fun r => (r.Value, r.NextLink)

/-- The start URL of `ListUsers`. -/
def listUsersURL (filter : GoString) : GoString :=
  if filter ≠ [] then baseURL ++ lit "/users" ++ (lit "?$filter=" ++ filter)
  else baseURL ++ lit "/users"

/-- Source `users.ListUsers`, with a bound on the number of pages fetched. -/
def ListUsers (env : Env) (fuel : Nat) (accessToken filter : GoString) :
    Option (Ran (List User × Option GoString)) :=
  pagedLoop env (lit "get users") (userPage env) accessToken fuel (listUsersURL filter) [] []

/-- Source `groups.ListGroups`, with a bound on the number of pages fetched. -/
def ListGroups (env : Env) (fuel : Nat) (accessToken : GoString) :
    Option (Ran (List Group × Option GoString)) :=
  pagedLoop env (lit "get groups") (groupPage env) accessToken fuel (baseURL ++ lit "/groups") [] []

/-- Source `groups.GetUserGroups`, with a bound on the number of pages fetched. -/
def GetUserGroups (env : Env) (fuel : Nat) (accessToken userPrincipalName : GoString) :
    Option (Ran (List Group × Option GoString)) :=
  pagedLoop env (lit "get user groups") (groupPage env) accessToken fuel (baseURL ++ lit "/users/" ++ userPrincipalName ++ lit "/memberOf") [] []

/-- Source `licenses.GetSubscribedSkus`, with a bound on the number of pages fetched. -/
def GetSubscribedSkus (env : Env) (fuel : Nat) (accessToken : GoString) :
    Option (Ran (List SubscribedSku × Option GoString)) :=
  pagedLoop env (lit "get SKUs") (skuPage env) accessToken fuel (baseURL ++ lit "/subscribedSkus") [] []

/-! ## `internal/users`: single-resource operations -/

/-- Source `users.GetUser`. -/
def GetUser (env : Env) (accessToken userPrincipalName : GoString) :
    Ran (Option User × Option GoString) :=
  let url := baseURL ++ lit "/users/" ++ userPrincipalName
  match env.newRequestErr (lit "GET") url with
  | some err => ⟨(none, some (lit "failed to create request: " ++ err)), []⟩
  | none =>
    let req := mkRequest (lit "GET") url accessToken none
    match env.roundTrip req with
    | .error err => ⟨(none, some (lit "failed to get user: " ++ err)), [req]⟩
    | .ok resp =>
      match resp.ReadErr with
      | some err => ⟨(none, some (lit "failed to read response: " ++ err)), [req]⟩
      | none =>
        if resp.StatusCode ≠ 200 then
          ⟨(none, some (lit "failed to get user (status " ++ fmtD resp.StatusCode
            ++ lit "): " ++ resp.Body)), [req]⟩
        else
          match env.unmarshalUser resp.Body with
          | .error err => ⟨(none, some (lit "failed to parse response: " ++ err)), [req]⟩
          | .ok user => ⟨(some user, none), [req]⟩

/-- Source `users.CreateUser`. -/
def CreateUser (env : Env)
    (accessToken displayName userPrincipalName mailNickname password : GoString)
    (forceChange : Bool) : Ran (Option User × Option GoString) :=
  let url := baseURL ++ lit "/users"
  let createReq : CreateUserRequest :=
    { AccountEnabled := true, DisplayName := displayName, MailNickname := mailNickname,
      UserPrincipalName := userPrincipalName,
      PasswordProfile :=
        { ForceChangePasswordNextSignIn := forceChange, Password := password } }
  match env.marshal (.createUser createReq) with
  | .error err => ⟨(none, some (lit "failed to marshal request: " ++ err)), []⟩
  | .ok jsonData =>
    match env.newRequestErr (lit "POST") url with
    | some err => ⟨(none, some (lit "failed to create request: " ++ err)), []⟩
    | none =>
      let req := mkRequest (lit "POST") url accessToken (some jsonData)
      match env.roundTrip req with
      | .error err => ⟨(none, some (lit "failed to create user: " ++ err)), [req]⟩
      | .ok resp =>
        match resp.ReadErr with
        | some err => ⟨(none, some (lit "failed to read response: " ++ err)), [req]⟩
        | none =>
          if resp.StatusCode ≠ 201 then
            ⟨(none, some (lit "failed to create user (status " ++ fmtD resp.StatusCode
              ++ lit "): " ++ resp.Body)), [req]⟩
          else
            match env.unmarshalUser resp.Body with
            | .error err => ⟨(none, some (lit "failed to parse response: " ++ err)), [req]⟩
            | .ok user => ⟨(some user, none), [req]⟩

/-- Source `users.UpdateUser`. The error of `io.ReadAll` is dropped (`body, _ :=`). -/
def UpdateUser (env : Env) (accessToken userPrincipalName : GoString)
    (properties : List (GoString × JValue)) : Ran (Option GoString) :=
  let url := baseURL ++ lit "/users/" ++ userPrincipalName
  match env.marshal (.properties properties) with
  | .error err => ⟨some (lit "failed to marshal request: " ++ err), []⟩
  | .ok jsonData =>
    match env.newRequestErr (lit "PATCH") url with
    | some err => ⟨some (lit "failed to create request: " ++ err), []⟩
    | none =>
      let req := mkRequest (lit "PATCH") url accessToken (some jsonData)
      match env.roundTrip req with
      | .error err => ⟨some (lit "failed to update user: " ++ err), [req]⟩
      | .ok resp =>
        if resp.StatusCode ≠ 204 then
          ⟨some (lit "failed to update user (status " ++ fmtD resp.StatusCode
            ++ lit "): " ++ resp.Body), [req]⟩
        else ⟨none, [req]⟩

/-- Source `users.DeleteUser`. -/
def DeleteUser (env : Env) (accessToken userPrincipalName : GoString) :
    Ran (Option GoString) :=
  let url := baseURL ++ lit "/users/" ++ userPrincipalName
  match env.newRequestErr (lit "DELETE") url with
  | some err => ⟨some (lit "failed to create request: " ++ err), []⟩
  | none =>
    let req := mkRequest (lit "DELETE") url accessToken none
    match env.roundTrip req with
    | .error err => ⟨some (lit "failed to delete user: " ++ err), [req]⟩
    | .ok resp =>
      if resp.StatusCode ≠ 204 then
        ⟨some (lit "failed to delete user (status " ++ fmtD resp.StatusCode
          ++ lit "): " ++ resp.Body), [req]⟩
      else ⟨none, [req]⟩

/-! ## `internal/groups`: membership -/

/-- Source `groups.AddMemberToGroup`. -/
def AddMemberToGroup (env : Env) (accessToken groupID userID : GoString) :
    Ran (Option GoString) :=
  let url := baseURL ++ lit "/groups/" ++ groupID ++ lit "/members/$ref"
  let requestBody : List (GoString × GoString) :=
    [(lit "@odata.id", lit "https://graph.microsoft.com/v1.0/directoryObjects/" ++ userID)]
  match env.marshal (.memberRef requestBody) with
  | .error err => ⟨some (lit "failed to marshal request: " ++ err), []⟩
  | .ok jsonData =>
    match env.newRequestErr (lit "POST") url with
    | some err => ⟨some (lit "failed to create request: " ++ err), []⟩
    | none =>
      let req := mkRequest (lit "POST") url accessToken (some jsonData)
      match env.roundTrip req with
      | .error err => ⟨some (lit "failed to add member to group: " ++ err), [req]⟩
      | .ok resp =>
        if resp.StatusCode ≠ 204 then
          ⟨some (lit "failed to add member to group (status " ++ fmtD resp.StatusCode
            ++ lit "): " ++ resp.Body), [req]⟩
        else ⟨none, [req]⟩

/-- Source `groups.RemoveMemberFromGroup`. -/
def RemoveMemberFromGroup (env : Env) (accessToken groupID userID : GoString) :
    Ran (Option GoString) :=
  let url := baseURL ++ lit "/groups/" ++ groupID ++ lit "/members/" ++ userID ++ lit "/$ref"
  match env.newRequestErr (lit "DELETE") url with
  | some err => ⟨some (lit "failed to create request: " ++ err), []⟩
  | none =>
    let req := mkRequest (lit "DELETE") url accessToken none
    match env.roundTrip req with
    | .error err => ⟨some (lit "failed to remove member from group: " ++ err), [req]⟩
    | .ok resp =>
      if resp.StatusCode ≠ 204 then
        ⟨some (lit "failed to remove member from group (status " ++ fmtD resp.StatusCode
          ++ lit "): " ++ resp.Body), [req]⟩
      else ⟨none, [req]⟩

/-! ## `internal/licenses`: license details and assignment -/

/-- Source `licenses.GetUserLicenses`. -/
def GetUserLicenses (env : Env) (accessToken userPrincipalName : GoString) :
    Ran (List LicenseDetail × Option GoString) :=
  let url := baseURL ++ lit "/users/" ++ userPrincipalName ++ lit "/licenseDetails"
  match env.newRequestErr (lit "GET") url with
  | some err => ⟨([], some (lit "failed to create request: " ++ err)), []⟩
  | none =>
    let req := mkRequest (lit "GET") url accessToken none
    match env.roundTrip req with
    | .error err => ⟨([], some (lit "failed to get user licenses: " ++ err)), [req]⟩
    | .ok resp =>
      match resp.ReadErr with
      | some err => ⟨([], some (lit "failed to read response: " ++ err)), [req]⟩
      | none =>
        if resp.StatusCode ≠ 200 then
          ⟨([], some (lit "failed to get user licenses (status " ++ fmtD resp.StatusCode
            ++ lit "): " ++ resp.Body)), [req]⟩
        else
          match env.unmarshalLicenseDetailResponse resp.Body with
          | .error err => ⟨([], some (lit "failed to parse response: " ++ err)), [req]⟩
          | .ok licenseResponse => ⟨(licenseResponse.Value, none), [req]⟩

/-- Source `licenses.GetGroupLicenses`. -/
def GetGroupLicenses (env : Env) (accessToken groupID : GoString) :
    Ran (List LicenseDetail × Option GoString) :=
  let url := baseURL ++ lit "/groups/" ++ groupID ++ lit "/assignedLicenses"
  match env.newRequestErr (lit "GET") url with
  | some err => ⟨([], some (lit "failed to create request: " ++ err)), []⟩
  | none =>
    let req := mkRequest (lit "GET") url accessToken none
    match env.roundTrip req with
    | .error err => ⟨([], some (lit "failed to get group licenses: " ++ err)), [req]⟩
    | .ok resp =>
      match resp.ReadErr with
      | some err => ⟨([], some (lit "failed to read response: " ++ err)), [req]⟩
      | none =>
        if resp.StatusCode ≠ 200 then
          ⟨([], some (lit "failed to get group licenses (status " ++ fmtD resp.StatusCode
            ++ lit "): " ++ resp.Body)), [req]⟩
        else
          match env.unmarshalLicenseDetailResponse resp.Body with
          | .error err => ⟨([], some (lit "failed to parse response: " ++ err)), [req]⟩
          | .ok licenseResponse => ⟨(licenseResponse.Value, none), [req]⟩

/-- The remediation text `AssignLicense` appends for the license class. -/
def userLicenseAdvice : GoString :=
  lit "\n\nPossible causes:\n  - Not enough available licenses (check with 'gua licenses list-skus')\n  - User doesn't have usageLocation set (use 'gua users update <UPN> usageLocation US')"

/-- The remediation text `AssignLicense` appends for the usage-location class. -/
def userUsageLocationAdvice : GoString :=
  lit "\n\nUser must have a usageLocation set. Use:\n  gua users update <UPN> usageLocation <country-code>\n  Example: gua users update user@example.com usageLocation US"

/-- The remediation text `AssignGroupLicense` appends for the license class. -/
def groupLicenseAdvice : GoString :=
  lit "\n\nPossible causes:\n  - Not enough available licenses (check with 'gua licenses list-skus')\n  - Group members don't have usageLocation set"

/-- The block `if resp.StatusCode != http.StatusOK { ... }` of `AssignLicense`: the text
of the error it returns. `none` is a panic inside `contains`. -/
def assignLicenseFailure (env : Env) (resp : Response) : Option GoString :=
  let fallback : GoString :=
    lit "failed to assign license (status " ++ fmtD resp.StatusCode ++ lit "): " ++ resp.Body
  match env.unmarshalMap resp.Body with
  | .error _ => some fallback
  | .ok errorResponse =>
    match mapIndex errorResponse (lit "error") with
    | some (.obj errorObj) =>
      match mapIndex errorObj (lit "message") with
      | some (.str message) =>
        (contains message (lit "No available licenses")).bind fun c1 =>
        (if c1 then some true else contains message (lit "license")).bind fun c2 =>
        if c2 then
          some (lit "license assignment failed: " ++ message ++ userLicenseAdvice)
        else
          (contains message (lit "usageLocation")).bind fun c3 =>
          if c3 then
            some (lit "license assignment failed: " ++ message ++ userUsageLocationAdvice)
          else
            some (lit "license assignment failed: " ++ message)
      | _ => some fallback
    | _ => some fallback

/-- Source `licenses.AssignLicense`. `none` is a panic inside `contains`. -/
def AssignLicense (env : Env) (accessToken userPrincipalName : GoString)
    (addLicenses removeLicenses : List GoString) : Option (Ran (Option GoString)) :=
  let url := baseURL ++ lit "/users/" ++ userPrincipalName ++ lit "/assignLicense"
  let addLicenseObjs : List AddLicense := addLicenses.map fun skuID => { SkuID := skuID }
  let assignReq : AssignLicenseRequest :=
    { AddLicenses := addLicenseObjs, RemoveLicenses := removeLicenses }
  match env.marshal (.assignLicense assignReq) with
  | .error err => some ⟨some (lit "failed to marshal request: " ++ err), []⟩
  | .ok jsonData =>
    match env.newRequestErr (lit "POST") url with
    | some err => some ⟨some (lit "failed to create request: " ++ err), []⟩
    | none =>
      let req := mkRequest (lit "POST") url accessToken (some jsonData)
      match env.roundTrip req with
      | .error err => some ⟨some (lit "failed to assign license: " ++ err), [req]⟩
      | .ok resp =>
        if resp.StatusCode ≠ 200 then
          (assignLicenseFailure env resp).map fun text => ⟨some text, [req]⟩
        else some ⟨none, [req]⟩

/-- The block `if resp.StatusCode != http.StatusOK { ... }` of `AssignGroupLicense`: the
text of the error it returns. `none` is a panic inside `contains`. -/
def assignGroupLicenseFailure (env : Env) (resp : Response) : Option GoString :=
  let fallback : GoString :=
    lit "failed to assign group license (status " ++ fmtD resp.StatusCode ++ lit "): "
      ++ resp.Body
  match env.unmarshalMap resp.Body with
  | .error _ => some fallback
  | .ok errorResponse =>
    match mapIndex errorResponse (lit "error") with
    | some (.obj errorObj) =>
      match mapIndex errorObj (lit "message") with
      | some (.str message) =>
        (contains message (lit "No available licenses")).bind fun c1 =>
        (if c1 then some true else contains message (lit "license")).bind fun c2 =>
        if c2 then
          some (lit "group license assignment failed: " ++ message ++ groupLicenseAdvice)
        else
          some (lit "group license assignment failed: " ++ message)
      | _ => some fallback
    | _ => some fallback

/-- Source `licenses.AssignGroupLicense`. `none` is a panic inside `contains`. -/
def AssignGroupLicense (env : Env) (accessToken groupID : GoString)
    (addLicenses removeLicenses : List GoString) : Option (Ran (Option GoString)) :=
  let url := baseURL ++ lit "/groups/" ++ groupID ++ lit "/assignLicense"
  let addLicenseObjs : List AddLicense := addLicenses.map fun skuID => { SkuID := skuID }
  let assignReq : AssignLicenseRequest :=
    { AddLicenses := addLicenseObjs, RemoveLicenses := removeLicenses }
  match env.marshal (.assignLicense assignReq) with
  | .error err => some ⟨some (lit "failed to marshal request: " ++ err), []⟩
  | .ok jsonData =>
    match env.newRequestErr (lit "POST") url with
    | some err => some ⟨some (lit "failed to create request: " ++ err), []⟩
    | none =>
      let req := mkRequest (lit "POST") url accessToken (some jsonData)
      match env.roundTrip req with
      | .error err => some ⟨some (lit "failed to assign group license: " ++ err), [req]⟩
      | .ok resp =>
        if resp.StatusCode ≠ 200 then
          (assignGroupLicenseFailure env resp).map fun text => ⟨some text, [req]⟩
        else some ⟨none, [req]⟩

/-! ## `internal/config` -/

/-- The verb `%v` of `fmt` applied to a `[]string`: the elements separated by one
space, in square brackets. -/
def fmtV (xs : List GoString) : GoString :=
  lit "[" ++ List.intercalate (lit " ") xs ++ lit "]"

/-- The slice `missingFields` that `LoadConfig` builds with its three `append`s. -/
def missingFields (cfg : Config) : List GoString :=
  let m0 : List GoString := []
  let m1 := if cfg.TenantID = [] then m0 ++ [lit "tenantId"] else m0
  let m2 := if cfg.ClientID = [] then m1 ++ [lit "clientId"] else m1
  let m3 := if cfg.ClientSecret = [] then m2 ++ [lit "clientSecret"] else m2
  m3

/-- Source `config.LoadConfig`. -/
def LoadConfig (env : Env) (path : GoString) : Option Config × Option GoString :=
  if env.statIsNotExist path then
    (none, some (lit "config file not found: " ++ path
      ++ lit "\n\nPlease create a config.json file with your Azure AD credentials.\nSee config.json.example for the required format"))
  else
    match env.readFile path with
    | .error err => (none, some (lit "failed to read config file: " ++ err))
    | .ok data =>
      match env.unmarshalConfig data with
      | .error err =>
        (none, some (lit "failed to parse config file: " ++ err
          ++ lit "\n\nEnsure the file contains valid JSON"))
      | .ok cfg =>
        if (missingFields cfg).length > 0 then
          (none, some (lit "config file is missing required fields: "
            ++ fmtV (missingFields cfg)
            ++ lit "\n\nSee config.json.example for the required format"))
        else (some cfg, none)

/-! ## Hypotheses on the server -/

/-- The GET of `url` with the given token is built, answered by the transport with
`resp`, and the body of `resp` is read to its end. -/
def Serves (env : Env) (accessToken url : GoString) (resp : Response) : Prop :=
  env.newRequestErr (lit "GET") url = none ∧
  env.roundTrip (mkRequest (lit "GET") url accessToken none) = .ok resp ∧
  resp.ReadErr = none

/-- The GET of `url` is answered with status 200 and a body that decodes to the page
with items `value` and continuation link `next`. -/
def ServesPage {α : Type} (env : Env)
    (unmarshal : GoString → Except GoString (List α × GoString))
    (accessToken url : GoString) (value : List α) (next : GoString) : Prop :=
  ∃ resp, Serves env accessToken url resp ∧ resp.StatusCode = 200 ∧
    unmarshal resp.Body = .ok (value, next)

/-- A finite chain of pages: from `url` on, the server answers with the listed pages,
every page except the last carries a non-empty continuation link, which is the URL of
the next page, and the last page carries none. -/
def PageChain {α : Type} (env : Env)
    (unmarshal : GoString → Except GoString (List α × GoString)) (accessToken : GoString) :
    GoString → List (List α × GoString) → Prop
  | _, [] => False
  | url, [(value, next)] => ServesPage env unmarshal accessToken url value next ∧ next = []
  | url, (value, next) :: p :: rest =>
    ServesPage env unmarshal accessToken url value next ∧ next ≠ [] ∧
      PageChain env unmarshal accessToken next (p :: rest)

/-- The start of a chain: from `url` on, the server answers with the listed pages, each
carrying a non-empty continuation link, and the link of the last of them is `stop`
(`stop` is `url` itself when no page is listed). -/
def PagePrefix {α : Type} (env : Env)
    (unmarshal : GoString → Except GoString (List α × GoString)) (accessToken : GoString) :
    GoString → List (List α × GoString) → GoString → Prop
  | url, [], stop => stop = url
  | url, (value, next) :: rest, stop =>
    ServesPage env unmarshal accessToken url value next ∧ next ≠ [] ∧
      PagePrefix env unmarshal accessToken next rest stop

/-- The items of a list of pages, concatenated in page order. -/
def allItems {α : Type} (pages : List (List α × GoString)) : List α :=
  (pages.map Prod.fst).flatten

/-- The GET requests for a list of URLs. -/
def getRequests (accessToken : GoString) (urls : List GoString) : List Request :=
  urls.map fun url => mkRequest (lit "GET") url accessToken none

/-! ## Concrete servers -/

/-- A user with the given display name and empty remaining fields. -/
def userNamed (name : GoString) : User :=
  { ID := [], DisplayName := name, UserPrincipalName := [], Mail := [], MailNickname := [],
    AccountEnabled := false }

/-- A group with the given display name. -/
def groupNamed (name : GoString) : Group :=
  { ID := [], DisplayName := name, Description := [] }

/-- A SKU with the given part number. -/
def skuNamed (name : GoString) : SubscribedSku :=
  { ID := [], SkuID := [], SkuPartNumber := name, ConsumedUnits := 0,
    PrepaidUnits := { Enabled := 0, Suspended := 0, Warning := 0 } }

/-- A library environment without network and files: requests are built and marshalled
(to an empty body, which no operation inspects), the transport refuses the connection,
no body decodes and no file exists. The concrete servers below override the fields they
serve. -/
def offlineEnv : Env :=
  { newRequestErr := fun _ _ => none
    roundTrip := fun _ => .error (lit "connection refused")
    marshal := fun _ => .ok []
    unmarshalUserResponse := fun _ => .error (lit "unexpected end of JSON input")
    unmarshalUser := fun _ => .error (lit "unexpected end of JSON input")
    unmarshalGroupResponse := fun _ => .error (lit "unexpected end of JSON input")
    unmarshalSkuResponse := fun _ => .error (lit "unexpected end of JSON input")
    unmarshalLicenseDetailResponse := fun _ => .error (lit "unexpected end of JSON input")
    unmarshalMap := fun _ => .error (lit "unexpected end of JSON input")
    unmarshalConfig := fun _ => .error (lit "unexpected end of JSON input")
    statIsNotExist := fun _ => true
    readFile := fun _ => .error (lit "no such file or directory") }

/-- A server with two pages per collection: the URL `page2` is answered with the body
`last`, every other URL with the body `first`; `first` decodes to a page of one item
with the continuation link `page2`, `last` to a page of one item without a link. -/
def twoPageEnv : Env :=
  { offlineEnv with
    roundTrip := fun req =>
      if req.URL = lit "page2" then .ok ⟨200, lit "last", none⟩
      else .ok ⟨200, lit "first", none⟩
    unmarshalUserResponse := fun body =>
      if body = lit "first" then .ok ⟨[userNamed (lit "alice")], lit "page2"⟩
      else .ok ⟨[userNamed (lit "bob")], []⟩
    unmarshalGroupResponse := fun body =>
      if body = lit "first" then .ok ⟨[groupNamed (lit "admins")], lit "page2"⟩
      else .ok ⟨[groupNamed (lit "staff")], []⟩
    unmarshalSkuResponse := fun body =>
      if body = lit "first" then .ok ⟨[skuNamed (lit "E3")], lit "page2"⟩
      else .ok ⟨[skuNamed (lit "E5")], []⟩ }

/-- The server `twoPageEnv`, except that the URL `page2` is answered with status 503
and the body `busy`. -/
def brokenSecondPageEnv : Env :=
  { twoPageEnv with
    roundTrip := fun req =>
      if req.URL = lit "page2" then .ok ⟨503, lit "busy", none⟩
      else .ok ⟨200, lit "first", none⟩ }

/-! ## Outcomes of the paginated operations -/

/-- The operation returned an error with an empty result after handing `count` requests
to the transport, the last of them `failing`; the error text contains the decimal status
code and the body of `resp`. -/
def AbortsAt {α : Type} (result : Option (Ran (List α × Option GoString))) (count : Nat)
    (failing : Request) (resp : Response) : Prop :=
  ∃ text sent, result = some ⟨([], some text), sent⟩ ∧
    fmtD resp.StatusCode <:+: text ∧ resp.Body <:+: text ∧
    sent.length = count ∧ sent.getLast? = some failing

/-- The operation returned after handing to the transport exactly one GET per page: the
first for `start`, and request `k + 1` for the continuation link of page `k`. -/
def FetchesChain {α : Type} (result : Option (Ran (List α × Option GoString)))
    (accessToken start : GoString) (pages : List (List α × GoString)) : Prop :=
  ∃ ret sent, result = some ⟨ret, sent⟩ ∧
    sent = getRequests accessToken (start :: pages.dropLast.map Prod.snd) ∧
    sent.length = pages.length ∧
    sent.head? = some (mkRequest (lit "GET") start accessToken none) ∧
    ∀ k, k + 1 < pages.length → (sent[k + 1]?).map Request.URL = (pages[k]?).map Prod.snd

/-! ## Hypotheses on the answer to a license assignment -/

/-- The body decodes to a JSON object whose member `error` is an object whose member
`message` is the string `message`. -/
def ErrorEnvelope (env : Env) (body message : GoString) : Prop :=
  ∃ errorResponse errorObj, env.unmarshalMap body = .ok errorResponse ∧
    mapIndex errorResponse (lit "error") = some (.obj errorObj) ∧
    mapIndex errorObj (lit "message") = some (.str message)

/-- The body yields no message: it does not decode to a JSON object, or the object has
no member `error` that is an object, or that object has no member `message` that is a
string. -/
def NoMessage (env : Env) (body : GoString) : Prop :=
  (∃ err, env.unmarshalMap body = .error err) ∨
  (∃ errorResponse, env.unmarshalMap body = .ok errorResponse ∧
    ∀ errorObj, mapIndex errorResponse (lit "error") ≠ some (.obj errorObj)) ∨
  (∃ errorResponse errorObj, env.unmarshalMap body = .ok errorResponse ∧
    mapIndex errorResponse (lit "error") = some (.obj errorObj) ∧
    ∀ message, mapIndex errorObj (lit "message") ≠ some (.str message))

/-- The assignment of `addLicenses` and `removeLicenses` is marshalled, the POST to
`url` is built, and the transport answers it with `resp`. -/
def AssignAnswered (env : Env) (accessToken url : GoString)
    (addLicenses removeLicenses : List GoString) (resp : Response) : Prop :=
  ∃ jsonData,
    env.marshal (.assignLicense
      { AddLicenses := addLicenses.map fun skuID => { SkuID := skuID },
        RemoveLicenses := removeLicenses }) = .ok jsonData ∧
    env.newRequestErr (lit "POST") url = none ∧
    env.roundTrip (mkRequest (lit "POST") url accessToken (some jsonData)) = .ok resp

/-- The JSON text of an error envelope around `message`. -/
def envelopeOf (message : GoString) : GoString :=
  lit "\x7b\"error\":\x7b\"message\":\"" ++ message ++ lit "\"\x7d\x7d"

/-- A decoder for the bodies `envelopeOf message` in which `message` consists of
printable ASCII characters other than the double quote and the backslash; on these it
returns what `encoding/json` returns. Every other body is rejected. -/
def decodeEnvelope (body : GoString) : Except GoString (List (GoString × JValue)) :=
  let opening := lit "\x7b\"error\":\x7b\"message\":\""
  let closing := lit "\"\x7d\x7d"
  let message := (body.drop opening.length).take (body.length - opening.length - closing.length)
  if body = opening ++ message ++ closing ∧
      message.all (fun c => decide (32 ≤ c ∧ c < 127 ∧ c ≠ 34 ∧ c ≠ 92)) = true then
    .ok [(lit "error", .obj [(lit "message", .str message)])]
  else .error (lit "invalid character")

/-- A server that answers every request with the given status and body; error bodies
are decoded by `decodeEnvelope`. -/
def replyEnv (status : Int) (body : GoString) : Env :=
  { offlineEnv with
    roundTrip := fun _ => .ok ⟨status, body, none⟩
    unmarshalMap := decodeEnvelope }

/-! ## Hypotheses and outcomes of the single-resource operations -/

/-- The request with the given method, URL and body is built, and the transport answers
it with `resp`. -/
def Answered (env : Env) (method url accessToken : GoString) (body : Option GoString)
    (resp : Response) : Prop :=
  env.newRequestErr method url = none ∧
  env.roundTrip (mkRequest method url accessToken body) = .ok resp

/-- The returned error is non-nil and its text contains the decimal status code and the
body of `resp`. -/
def FailsWith (err : Option GoString) (resp : Response) : Prop :=
  ∃ text, err = some text ∧ fmtD resp.StatusCode <:+: text ∧ resp.Body <:+: text

/-- A file system with one readable file, which decodes to the given configuration. -/
def configEnv (cfg : Config) : Env :=
  { offlineEnv with
    statIsNotExist := fun _ => false
    readFile := fun _ => .ok (lit "config")
    unmarshalConfig := fun _ => .ok cfg }

/-! ## The substring helper, stated on positions -/

/-- The ASCII-lowercased byte: a letter `A`..`Z` moves to `a`..`z`, every other byte
stays. -/
def asciiLower (c : Nat) : Nat :=
  if 65 ≤ c ∧ c ≤ 90 then c + 32 else c

/-- At offset `i` of `s` the bytes of `substr` follow, up to the case of ASCII letters:
for every `j < len(substr)` the lowercased byte `s[i+j]` is the lowercased byte
`substr[j]`. -/
def MatchesAt (s substr : GoString) (i : Nat) : Prop :=
  ∀ j, j < substr.length → (s[i + j]?).map asciiLower = (substr[j]?).map asciiLower

/-! ## More concrete servers -/

/-- The server `twoPageEnv`, except that the URL `page2` is answered with status 206;
its body `last` still decodes to a page. -/
def partialContentEnv : Env :=
  { twoPageEnv with
    roundTrip := fun req =>
      if req.URL = lit "page2" then .ok ⟨206, lit "last", none⟩
      else .ok ⟨200, lit "first", none⟩ }

/-- A license detail with the given part number. -/
def licenseNamed (name : GoString) : LicenseDetail :=
  { ID := [], SkuID := [], SkuPartNumber := name }

/-- The server `twoPageEnv` for license details: the body `first`, which the page
decoders read as a page with the continuation link `page2`, decodes to one license
detail, the body `last` to another. -/
def licensePagesEnv : Env :=
  { twoPageEnv with
    unmarshalLicenseDetailResponse := fun body =>
      if body = lit "first" then .ok ⟨[licenseNamed (lit "E3")]⟩
      else .ok ⟨[licenseNamed (lit "E5")]⟩ }

/-- A server that answers every request with the given status and the body `alice`,
which decodes to a user. -/
def aliceEnv (status : Int) : Env :=
  { replyEnv status (lit "alice") with
    unmarshalUser := fun _ => .ok (userNamed (lit "alice")) }

/-! ## Library functions embedded for the command layer: `unicode/utf8`, `fmt.Scanln`

The command layer depends on which texts `fmt.Scanln` and `json.Unmarshal` accept, so
these two library functions are embedded rather than taken as fields of `Env`. -/

/-- The function `utf8.AppendRune`: the UTF-8 bytes of a rune; a surrogate or a value
above `0x10FFFF` is written as `U+FFFD`. -/
def encodeRune (r : Nat) : GoString :=
  if r < 128 then [r]
  else if r < 2048 then [192 + r / 64, 128 + r % 64]
  else if (55296 ≤ r ∧ r < 57344) ∨ 1114111 < r then [239, 191, 189]
  else if r < 65536 then [224 + r / 4096, 128 + r / 64 % 64, 128 + r % 64]
  else [240 + r / 262144, 128 + r / 4096 % 64, 128 + r / 64 % 64, 128 + r % 64]

/-- A continuation byte of UTF-8. -/
def isCont (b : Nat) : Bool := decide (128 ≤ b ∧ b ≤ 191)

/-- The lowest second byte `utf8.DecodeRune` accepts after the first byte `b0`. -/
def secondLo (b0 : Nat) : Nat :=
  if b0 = 224 then 160 else if b0 = 240 then 144 else 128

/-- The highest second byte `utf8.DecodeRune` accepts after the first byte `b0`. -/
def secondHi (b0 : Nat) : Nat :=
  if b0 = 237 then 159 else if b0 = 244 then 143 else 191

/-- The function `utf8.DecodeRune`: the first rune of a non-empty byte sequence and the
number of bytes it takes; `U+FFFD` and one byte when no valid encoding starts there. -/
def decodeRune (s : List Nat) : Nat × Nat :=
  match s with
  | [] => (65533, 0)
  | b0 :: tl =>
    if b0 < 128 then (b0, 1)
    else if 194 ≤ b0 ∧ b0 ≤ 223 then
      match tl with
      | b1 :: _ => if isCont b1 then ((b0 % 32) * 64 + b1 % 64, 2) else (65533, 1)
      | _ => (65533, 1)
    else if 224 ≤ b0 ∧ b0 ≤ 239 then
      match tl with
      | b1 :: b2 :: _ =>
        if secondLo b0 ≤ b1 ∧ b1 ≤ secondHi b0 ∧ isCont b2 then
          ((b0 % 16) * 4096 + (b1 % 64) * 64 + b2 % 64, 3)
        else (65533, 1)
      | _ => (65533, 1)
    else if 240 ≤ b0 ∧ b0 ≤ 244 then
      match tl with
      | b1 :: b2 :: b3 :: _ =>
        if secondLo b0 ≤ b1 ∧ b1 ≤ secondHi b0 ∧ isCont b2 ∧ isCont b3 then
          ((b0 % 8) * 262144 + (b1 % 64) * 4096 + (b2 % 64) * 64 + b3 % 64, 4)
        else (65533, 1)
      | _ => (65533, 1)
    else (65533, 1)

/-- The loop `for len(s) > 0 { r, size := utf8.DecodeRune(s); s = s[size:] }`, bounded
by the first argument. -/
def utf8RunesLoop : Nat → List Nat → List Nat
  | 0, _ => []
  | fuel + 1, s =>
    match s with
    | [] => []
    | _ :: _ => (decodeRune s).1 :: utf8RunesLoop fuel (s.drop (decodeRune s).2)

/-- The runes of a byte sequence as a reader decodes them: one `U+FFFD` for every byte
that starts no valid encoding. Every step takes at least one byte, so `len(s)` steps
are enough. -/
def utf8Runes (s : List Nat) : List Nat :=
  utf8RunesLoop s.length s

/-- The space test of `fmt`: the table `space` of `fmt/scan.go`. -/
def isSpace (r : Nat) : Bool :=
  decide ((9 ≤ r ∧ r ≤ 13) ∨ r = 32 ∨ r = 133 ∨ r = 160 ∨ r = 5760 ∨ (8192 ≤ r ∧ r ≤ 8202)
    ∨ r = 8232 ∨ r = 8233 ∨ r = 8239 ∨ r = 8287 ∨ r = 12288)

/-- The method `SkipSpace` of the scan state of `fmt` as `Scanln` uses it: blanks are
passed over; at the end of input or at a newline the scan stops with an error (`none`),
otherwise the input from the first non-blank rune on is left. -/
def skipSpace : List Nat → Option (List Nat)
  | [] => none
  | r :: rest =>
    if r = 10 then none
    else if isSpace r then skipSpace rest
    else some (r :: rest)

/-- What `fmt.Scanln(&response)` leaves in the string `response`, initially empty, for
the bytes `stdin` of standard input: the first blank-separated word of the first line.
The error `Scanln` returns (for an empty line, or for further words after the first) is
dropped by the caller and does not undo the assignment. -/
def Scanln (stdin : GoString) : GoString :=
  match skipSpace (utf8Runes stdin) with
  | none => []
  | some rest => ((rest.takeWhile fun r => !isSpace r).map encodeRune).flatten

/-! ## Library function embedded for the command layer: `json.Unmarshal` into `interface{}`

The scanner of `encoding/json` is a state machine that takes one byte at a time; the
phases below are its step functions, the frames its parse stack together with the
values read so far. -/

/-- The value of a hexadecimal digit. -/
def hexValue (c : Nat) : Nat :=
  if 48 ≤ c ∧ c ≤ 57 then c - 48
  else if 97 ≤ c ∧ c ≤ 102 then c - 87
  else if 65 ≤ c ∧ c ≤ 70 then c - 55
  else 0

/-- Whether a byte is a hexadecimal digit. -/
def isHexDigit (c : Nat) : Bool :=
  decide ((48 ≤ c ∧ c ≤ 57) ∨ (97 ≤ c ∧ c ≤ 102) ∨ (65 ≤ c ∧ c ≤ 70))

/-- The character a two-byte escape stands for. -/
def escapeChar (c : Nat) : Nat :=
  if c = 98 then 8 else if c = 102 then 12 else if c = 110 then 10
  else if c = 114 then 13 else if c = 116 then 9 else c

/-- The loop of `unquoteBytes` over the text between the quotes of a string the scanner
has accepted, bounded by the first argument: escapes are resolved, a surrogate pair of
two `\u` escapes becomes one rune, a surrogate without partner becomes `U+FFFD`, and
every byte that starts no valid UTF-8 encoding becomes `U+FFFD`. -/
def unquoteLoop : Nat → List Nat → List Nat
  | 0, _ => []
  | fuel + 1, s =>
    match s with
    | [] => []
    | 92 :: 117 :: a :: b :: c :: d :: rest =>
      let rr := hexValue a * 4096 + hexValue b * 256 + hexValue c * 16 + hexValue d
      if 55296 ≤ rr ∧ rr < 57344 then
        match rest with
        | 92 :: 117 :: a1 :: b1 :: c1 :: d1 :: rest1 =>
          let rr1 := hexValue a1 * 4096 + hexValue b1 * 256 + hexValue c1 * 16 + hexValue d1
          if rr < 56320 ∧ 56320 ≤ rr1 ∧ rr1 < 57344 then
            encodeRune ((rr - 55296) * 1024 + (rr1 - 56320) + 65536) ++ unquoteLoop fuel rest1
          else [239, 191, 189] ++ unquoteLoop fuel rest
        | _ => [239, 191, 189] ++ unquoteLoop fuel rest
      else encodeRune rr ++ unquoteLoop fuel rest
    | 92 :: c :: rest => escapeChar c :: unquoteLoop fuel rest
    | c :: rest =>
      if c < 128 then c :: unquoteLoop fuel rest
      else encodeRune (decodeRune s).1 ++ unquoteLoop fuel (s.drop (decodeRune s).2)

/-- The function `unquote` of `encoding/json` on the text between the quotes. Every
step takes at least one byte, so `len(s)` steps are enough. -/
def unquote (s : List Nat) : GoString :=
  unquoteLoop s.length s

/-- The digits of a decimal numeral as a number. -/
def digitsValue (ds : List Nat) : Nat :=
  ds.foldl (fun n d => n * 10 + (d - 48)) 0

/-- The exponent as `strconv` reads it: digits are taken in while the value is below
10000. -/
def clampedExponent (ds : List Nat) : Nat :=
  ds.foldl (fun e d => if e < 10000 then e * 10 + (d - 48) else e) 0

/-- Whether a byte is a decimal digit. -/
def isDigit (c : Nat) : Bool := decide (48 ≤ c ∧ c ≤ 57)

/-- The least value that rounds to infinity in float64: `2^1024 - 2^970`, half a step
above the greatest finite float64. -/
def float64Limit : Nat :=
  179769313486231580793728971405303415079934132710037826936173778980444968292764750946649017977587207096330286416692887910946555547851940402630657488671505820681908902000708383676273854845817711531764475730270069855571366959622842914819860834936475292719074168444365510704342711559699508093042880177904174497792

/-- Whether `strconv.ParseFloat(text, 64)` returns without a range error, for a number
the scanner has accepted: the value `mantissa * 10^exponent` rounds to a finite float64,
that is, it lies below `float64Limit`. -/
def fitsFloat64 (text : List Nat) : Bool :=
  let unsigned := if text.head? = some 45 then text.drop 1 else text
  let intDigits := unsigned.takeWhile isDigit
  let afterInt := unsigned.dropWhile isDigit
  let fracDigits := if afterInt.head? = some 46 then (afterInt.drop 1).takeWhile isDigit else []
  let afterFrac := if afterInt.head? = some 46 then (afterInt.drop 1).dropWhile isDigit
    else afterInt
  let expText := afterFrac.drop 1
  let expNegative := decide (expText.head? = some 45)
  let expDigits := if expText.head? = some 45 ∨ expText.head? = some 43 then expText.drop 1
    else expText
  let mantissa := digitsValue (intDigits ++ fracDigits)
  let e := clampedExponent expDigits
  let limit := float64Limit
  if expNegative then decide (mantissa < limit * 10 ^ (e + fracDigits.length))
  else if fracDigits.length ≤ e then decide (mantissa * 10 ^ (e - fracDigits.length) < limit)
  else decide (mantissa < limit * 10 ^ (fracDigits.length - e))

/-- An open array with the elements read so far, or an open object with the members
read so far and the key whose value is awaited. -/
inductive JFrame where
  | arr : List JValue → JFrame
  | obj : List (GoString × JValue) → Option GoString → JFrame

/-- The step functions of the scanner; a string, a number and a literal carry what has
been read of them. -/
inductive JPhase where
  | beginValue : JPhase
  | beginValueOrEmpty : JPhase
  | beginStringOrEmpty : JPhase
  | beginString : JPhase
  | inString : List Nat → JPhase
  | inStringEsc : List Nat → JPhase
  | inStringEscU : List Nat → Nat → JPhase
  | endValue : JPhase
  | neg : List Nat → JPhase
  | zero : List Nat → JPhase
  | digits : List Nat → JPhase
  | dot : List Nat → JPhase
  | dot0 : List Nat → JPhase
  | exp : List Nat → JPhase
  | expSign : List Nat → JPhase
  | exp0 : List Nat → JPhase
  | literal : List Nat → JValue → JPhase
  | endTop : JValue → JPhase

/-- The state of the decoder: the step function, the stack, and whether a number
outside float64 has been met (the saved error of the decoder). -/
structure JState where
  phase : JPhase
  stack : List JFrame
  rangeErr : Bool

/-- The white space of JSON. -/
def jsonSpace (c : Nat) : Bool := decide (c = 32 ∨ c = 9 ∨ c = 13 ∨ c = 10)

/-- The assignment `m[key] = value` on a map given as the list of its members. -/
def setMember (members : List (GoString × JValue)) (key : GoString) (value : JValue) :
    List (GoString × JValue) :=
  members.filter (fun kv => !decide (kv.1 = key)) ++ [(key, value)]

/-- A value is complete: it is the top-level value, the next element of the open array,
or the value of the awaited key of the open object. -/
def completeValue (st : JState) (v : JValue) : Option JState :=
  match st.stack with
  | [] => some { st with phase := .endTop v }
  | .arr items :: rest => some { st with phase := .endValue, stack := .arr (items ++ [v]) :: rest }
  | .obj members (some key) :: rest =>
    some { st with phase := .endValue, stack := .obj (setMember members key v) none :: rest }
  | .obj _ none :: _ => none

/-- A string is complete: it is the awaited key of the open object, or a value. -/
def completeString (st : JState) (raw : List Nat) : Option JState :=
  match st.stack with
  | .obj members none :: rest =>
    some { st with phase := .endValue, stack := .obj members (some (unquote raw)) :: rest }
  | _ => completeValue st (.str (unquote raw))

/-- A number is complete; a number outside float64 is recorded. -/
def completeNumber (st : JState) (text : List Nat) : Option JState :=
  completeValue { st with rangeErr := st.rangeErr || !fitsFloat64 text } (.number text)

/-- The step functions `stateEndValue` and `stateEndTop`. -/
def afterValue (st : JState) (c : Nat) : Option JState :=
  match st.phase with
  | .endTop _ => if jsonSpace c then some st else none
  | _ =>
    if jsonSpace c then some { st with phase := .endValue }
    else
      match st.stack with
      | [] => none
      | .obj _ (some _) :: _ => if c = 58 then some { st with phase := .beginValue } else none
      | .obj members none :: rest =>
        if c = 44 then some { st with phase := .beginString }
        else if c = 125 then completeValue { st with stack := rest } (.obj members)
        else none
      | .arr items :: rest =>
        if c = 44 then some { st with phase := .beginValue }
        else if c = 93 then completeValue { st with stack := rest } (.arr items)
        else none

/-- The step function `stateBeginValue`; opening an array or object beyond the nesting
depth 10000 is an error. -/
def beginValue (st : JState) (c : Nat) : Option JState :=
  if jsonSpace c then some st
  else if c = 123 then
    if st.stack.length + 1 ≤ 10000 then
      some { st with phase := .beginStringOrEmpty, stack := .obj [] none :: st.stack }
    else none
  else if c = 91 then
    if st.stack.length + 1 ≤ 10000 then
      some { st with phase := .beginValueOrEmpty, stack := .arr [] :: st.stack }
    else none
  else if c = 34 then some { st with phase := .inString [] }
  else if c = 45 then some { st with phase := .neg [c] }
  else if c = 48 then some { st with phase := .zero [c] }
  else if c = 116 then some { st with phase := .literal [114, 117, 101] (.bool true) }
  else if c = 102 then some { st with phase := .literal [97, 108, 115, 101] (.bool false) }
  else if c = 110 then some { st with phase := .literal [117, 108, 108] .null }
  else if 49 ≤ c ∧ c ≤ 57 then some { st with phase := .digits [c] }
  else none

/-- The step function `state0`, after the integer part of a number. -/
def afterInteger (st : JState) (text : List Nat) (c : Nat) : Option JState :=
  if c = 46 then some { st with phase := .dot (text ++ [c]) }
  else if c = 101 ∨ c = 69 then some { st with phase := .exp (text ++ [c]) }
  else (completeNumber st text).bind fun st1 => afterValue st1 c

/-- One step of the scanner and decoder on the byte `c`; `none` is a syntax error. -/
def jsonStep (st : JState) (c : Nat) : Option JState :=
  match st.phase with
  | .beginValue => beginValue { st with phase := .beginValue } c
  | .beginValueOrEmpty =>
    if jsonSpace c then some st
    else if c = 93 then afterValue { st with phase := .endValue } c
    else beginValue { st with phase := .beginValue } c
  | .beginStringOrEmpty =>
    if jsonSpace c then some st
    else if c = 125 then afterValue { st with phase := .endValue } c
    else if c = 34 then some { st with phase := .inString [] }
    else none
  | .beginString =>
    if jsonSpace c then some st
    else if c = 34 then some { st with phase := .inString [] }
    else none
  | .inString raw =>
    if c = 34 then completeString st raw
    else if c = 92 then some { st with phase := .inStringEsc (raw ++ [c]) }
    else if c < 32 then none
    else some { st with phase := .inString (raw ++ [c]) }
  | .inStringEsc raw =>
    if c = 98 ∨ c = 102 ∨ c = 110 ∨ c = 114 ∨ c = 116 ∨ c = 92 ∨ c = 47 ∨ c = 34 then
      some { st with phase := .inString (raw ++ [c]) }
    else if c = 117 then some { st with phase := .inStringEscU (raw ++ [c]) 0 }
    else none
  | .inStringEscU raw seen =>
    if isHexDigit c then
      if seen = 3 then some { st with phase := .inString (raw ++ [c]) }
      else some { st with phase := .inStringEscU (raw ++ [c]) (seen + 1) }
    else none
  | .endValue => afterValue st c
  | .endTop _ => afterValue st c
  | .neg text =>
    if c = 48 then some { st with phase := .zero (text ++ [c]) }
    else if 49 ≤ c ∧ c ≤ 57 then some { st with phase := .digits (text ++ [c]) }
    else none
  | .zero text => afterInteger st text c
  | .digits text =>
    if isDigit c then some { st with phase := .digits (text ++ [c]) }
    else afterInteger st text c
  | .dot text => if isDigit c then some { st with phase := .dot0 (text ++ [c]) } else none
  | .dot0 text =>
    if isDigit c then some { st with phase := .dot0 (text ++ [c]) }
    else if c = 101 ∨ c = 69 then some { st with phase := .exp (text ++ [c]) }
    else (completeNumber st text).bind fun st1 => afterValue st1 c
  | .exp text =>
    if c = 43 ∨ c = 45 then some { st with phase := .expSign (text ++ [c]) }
    else if isDigit c then some { st with phase := .exp0 (text ++ [c]) }
    else none
  | .expSign text => if isDigit c then some { st with phase := .exp0 (text ++ [c]) } else none
  | .exp0 text =>
    if isDigit c then some { st with phase := .exp0 (text ++ [c]) }
    else (completeNumber st text).bind fun st1 => afterValue st1 c
  | .literal rest v =>
    match rest with
    | [] => none
    | r :: rest1 =>
      if c = r then
        if rest1 = [] then completeValue st v else some { st with phase := .literal rest1 v }
      else none

/-- The scanner run over a text from a state. -/
def jsonRun : JState → List Nat → Option JState
  | st, [] => some st
  | st, c :: rest => (jsonStep st c).bind fun st1 => jsonRun st1 rest

/-- The end of input: the scanner is given one more blank and must then stand after the
top-level value. The result is that value and the saved range error. -/
def jsonScan (text : GoString) : Option (JValue × Bool) :=
  match (jsonRun { phase := .beginValue, stack := [], rangeErr := false } text).bind
      (fun st => jsonStep st 32) with
  | some { phase := .endTop v, rangeErr := flag, .. } => some (v, flag)
  | _ => none

/-- The function `json.Valid`: whether the text is valid JSON, as the scanner of
`encoding/json` decides it. -/
def jsonValid (text : GoString) : Bool :=
  (jsonScan text).isSome

/-- The function `json.Unmarshal` into an `interface{}`: a syntax error for a text that is
not valid JSON, a type error when a number is outside float64, the decoded value
otherwise. A number is represented by its text, which determines the float64. -/
def jsonUnmarshal (text : GoString) : Except GoString JValue :=
  match jsonScan text with
  | none => .error (lit "invalid JSON text")
  | some (_, true) => .error (lit "json: cannot unmarshal number into Go value of type float64")
  | some (v, false) => .ok v

/-! ## `cmd/msgraph`: the command layer -/

/-- What running a command yields: the error its `RunE` (or the argument check of cobra)
returns, what it printed on standard output, and the requests handed to the transport. -/
structure CmdRan where
  err : Option GoString
  out : GoString
  sent : List Request
  deriving DecidableEq

/-- The UTF-8 bytes of the check mark that starts the success lines. -/
def checkMark : GoString := [226, 156, 147]

/-- The UTF-8 bytes of the warning sign that starts the deletion warning. -/
def warningSign : GoString := [226, 154, 160]

/-- Source `licensesAddUserCmd`: `Args: cobra.MinimumNArgs(2)` and its `RunE`, with
`upn := args[0]` and `skuIDs := args[1:]`. `none` is a panic inside `contains`. -/
def licensesAddUserCmd (env : Env) (token : GoString) (args : List GoString) :
    Option CmdRan :=
  match args with
  | upn :: sku :: rest =>
    let skuIDs := sku :: rest
    (AssignLicense env token upn skuIDs []).map fun r =>
      match r.ret with
      | some err => ⟨some err, [], r.sent⟩
      | none =>
        ⟨none, checkMark ++ lit " Successfully added " ++ fmtD skuIDs.length
          ++ lit " license(s) to " ++ upn ++ lit "\n", r.sent⟩
  | _ =>
    some ⟨some (lit "requires at least 2 arg(s), only received " ++ fmtD args.length), [], []⟩

/-- Source `usersUpdateCmd`: `Args: cobra.ExactArgs(3)` and its `RunE`; `jsonUnmarshal`
is the call `json.Unmarshal([]byte(value), &parsedValue)`. -/
def usersUpdateCmd (env : Env) (token : GoString) (args : List GoString) : CmdRan :=
  match args with
  | [upn, property, value] =>
    let parsedValue : JValue :=
      match jsonUnmarshal value with
      | .error _ => .str value
      | .ok parsed => parsed
    let properties := [(property, parsedValue)]
    let r := UpdateUser env token upn properties
    match r.ret with
    | some err => ⟨some err, [], r.sent⟩
    | none =>
      ⟨none, checkMark ++ lit " Successfully updated " ++ property ++ lit " for " ++ upn
        ++ lit "\n", r.sent⟩
  | _ => ⟨some (lit "accepts 3 arg(s), received " ++ fmtD args.length), [], []⟩

/-- Source `usersDeleteCmd`: `Args: cobra.ExactArgs(1)` and its `RunE`. The argument
`stdin` holds the bytes of standard input; `Scanln stdin` is what the call
`fmt.Scanln(&response)`, whose error the source drops, leaves in `response`. -/
def usersDeleteCmd (env : Env) (token stdin : GoString) (args : List GoString) :
    CmdRan :=
  match args with
  | [upn] =>
    let prompt := warningSign ++ lit " Warning: This will delete user " ++ upn ++ lit "\n"
      ++ lit "Continue? (yes/no): "
    let response := Scanln stdin
    if response ≠ lit "yes" then ⟨none, prompt ++ lit "Cancelled.\n", []⟩
    else
      let r := DeleteUser env token upn
      match r.ret with
      | some err => ⟨some err, prompt, r.sent⟩
      | none =>
        ⟨none, prompt ++ checkMark ++ lit " Successfully deleted user " ++ upn ++ lit "\n",
          r.sent⟩
  | _ => ⟨some (lit "accepts 1 arg(s), received " ++ fmtD args.length), [], []⟩

/-! ## A marshaller for the command layer -/

/-- Whether a string consists of printable ASCII characters. -/
def plainString (s : GoString) : Bool :=
  s.all fun c => decide (32 ≤ c ∧ c ≤ 126)

/-- The bytes `json.Marshal` writes for a printable ASCII character inside a string:
the quote and the backslash get a backslash, and `<`, `>` and `&` are written as
`\u003c`, `\u003e` and `\u0026`. -/
def escapedChar (c : Nat) : GoString :=
  if c = 34 then [92, 34]
  else if c = 92 then [92, 92]
  else if c = 60 then lit "\\u003c"
  else if c = 62 then lit "\\u003e"
  else if c = 38 then lit "\\u0026"
  else [c]

/-- The JSON string literal `json.Marshal` writes for a string of printable ASCII. -/
def quoted (s : GoString) : GoString :=
  lit "\"" ++ (s.map escapedChar).flatten ++ lit "\""

/-- Whether a number text is a non-negative integer below `2^53` written without
leading zero; `json.Marshal` writes the float64 of such a text as the same digits. -/
def plainInteger (text : GoString) : Bool :=
  !text.isEmpty && text.all isDigit && (text.length == 1 || text.head? != some 48)
    && decide (digitsValue text < 2 ^ 53)

/-- The JSON text of a decoded value that is `null`, a boolean, a plain integer or a
string of printable ASCII; `none` for every other value. -/
def renderPlain : JValue → Option GoString
  | .null => some (lit "null")
  | .bool true => some (lit "true")
  | .bool false => some (lit "false")
  | .number text => if plainInteger text then some text else none
  | .str s => if plainString s then some (quoted s) else none
  | .arr _ => none
  | .obj _ => none

/-- A marshaller that stands for `json.Marshal` on two kinds of request body: a license
assignment whose strings are printable ASCII, and an update of one property whose key is
printable ASCII and whose value `renderPlain` covers. On these it returns what
`json.Marshal` returns (a list stands for a non-nil slice); every other payload it
refuses with an error, where `json.Marshal` would succeed. -/
def plainMarshal : Payload → Except GoString GoString
  | .assignLicense r =>
    if (r.AddLicenses.all fun a => plainString a.SkuID) && r.RemoveLicenses.all plainString
    then
      .ok (lit "\x7b\"addLicenses\":["
        ++ List.intercalate (lit ",")
            (r.AddLicenses.map fun a => lit "\x7b\"skuId\":" ++ quoted a.SkuID ++ lit "\x7d")
        ++ lit "],\"removeLicenses\":["
        ++ List.intercalate (lit ",") (r.RemoveLicenses.map quoted)
        ++ lit "]\x7d")
    else .error (lit "payload not covered")
  | .properties [(key, value)] =>
    match plainString key, renderPlain value with
    | true, some text => .ok (lit "\x7b" ++ quoted key ++ lit ":" ++ text ++ lit "\x7d")
    | _, _ => .error (lit "payload not covered")
  | _ => .error (lit "payload not covered")

/-- A server that answers every request with the given status and an empty body, with
`plainMarshal` as `json.Marshal`. -/
def cliEnv (status : Int) : Env :=
  { replyEnv status [] with marshal := plainMarshal }

/-! ## Facts about the substring helper -/

theorem toLower_eq_fold (c : Nat) :
    toLower c = if 65 ≤ c ∧ c ≤ 90 then c + 32 else c := by
  unfold toLower
  by_cases h : 65 ≤ c ∧ c ≤ 90
  · have h2 : c ≥ 65 ∧ c ≤ 90 := h
    rw [if_pos h2, if_pos h]
    omega
  · have h2 : ¬ (c ≥ 65 ∧ c ≤ 90) := h
    rw [if_neg h2, if_neg h]

theorem sameFold_iff_map_toLower (a b : GoString) :
    SameFold a b ↔ a.map toLower = b.map toLower := by
  have h : toLower = fun c => if 65 ≤ c ∧ c ≤ 90 then c + 32 else c :=
    funext toLower_eq_fold
  unfold SameFold
  rw [h]

theorem SameFold.length_eq {a b : GoString} (h : SameFold a b) : a.length = b.length := by
  have := congrArg List.length h
  simpa using this

theorem matchAtLoop_spec (s substr : GoString) (pos : Nat)
    (hpos : pos + substr.length ≤ s.length) :
    ∀ n i, i + n = substr.length →
      matchAtLoop s substr pos i n
        = some (decide (((s.drop (pos + i)).take n).map toLower = (substr.drop i).map toLower)) := by
  intro n
  induction n with
  | zero =>
    intro i hi
    have : substr.drop i = [] := List.drop_eq_nil_of_le (by omega)
    simp [matchAtLoop, this]
  | succ n ih =>
    intro i hi
    have h1 : pos + i < s.length := by omega
    have h2 : i < substr.length := by omega
    have e1 : s.drop (pos + i) = s[pos + i] :: s.drop (pos + i + 1) :=
      List.drop_eq_getElem_cons h1
    have e2 : substr.drop i = substr[i] :: substr.drop (i + 1) :=
      List.drop_eq_getElem_cons h2
    rw [matchAtLoop, List.getElem?_eq_getElem h1, List.getElem?_eq_getElem h2]
    simp only []
    rw [e1, e2, List.take_succ_cons, List.map_cons, List.map_cons]
    by_cases hc : toLower s[pos + i] = toLower substr[i]
    · rw [if_neg (by simpa using hc), ih (i + 1) (by omega)]
      simp [hc, Nat.add_assoc]
    · rw [if_pos hc]
      simp [hc]

theorem matchAt_spec (s substr : GoString) (pos : Nat)
    (hpos : pos + substr.length ≤ s.length) :
    matchAt s substr pos
      = some (decide (((s.drop pos).take substr.length).map toLower = substr.map toLower)) := by
  unfold matchAt
  rw [matchAtLoop_spec s substr pos hpos substr.length 0 (by omega)]
  simp

theorem findSubstringLoop_spec (s substr : GoString) (hlen : substr.length ≤ s.length) :
    ∀ n i, i + n = s.length + 1 - substr.length →
      ∃ b, findSubstringLoop s substr i n = some b ∧
        (b = true ↔ ∃ p, i ≤ p ∧ p < i + n ∧
          ((s.drop p).take substr.length).map toLower = substr.map toLower) := by
  intro n
  induction n with
  | zero =>
    intro i _
    refine ⟨false, rfl, ?_⟩
    constructor
    · intro h; cases h
    · rintro ⟨p, h1, h2, _⟩; omega
  | succ n ih =>
    intro i hi
    rw [findSubstringLoop, matchAt_spec s substr i (by omega)]
    by_cases hm : ((s.drop i).take substr.length).map toLower = substr.map toLower
    · refine ⟨true, by rw [decide_eq_true hm], ?_⟩
      constructor
      · intro _; exact ⟨i, le_refl _, by omega, hm⟩
      · intro _; rfl
    · obtain ⟨b, hb, hiff⟩ := ih (i + 1) (by omega)
      refine ⟨b, by rw [decide_eq_false hm]; exact hb, ?_⟩
      rw [hiff]
      constructor
      · rintro ⟨p, h1, h2, h3⟩; exact ⟨p, by omega, by omega, h3⟩
      · rintro ⟨p, h1, h2, h3⟩
        have hne : p ≠ i := by
          intro he; subst he; exact hm h3
        exact ⟨p, by omega, by omega, h3⟩

theorem containsFold_iff_at (s sub : GoString) :
    ContainsFold s sub ↔
      ∃ p, p + sub.length ≤ s.length ∧
        ((s.drop p).take sub.length).map toLower = sub.map toLower := by
  constructor
  · rintro ⟨pre, mid, post, rfl, hmid⟩
    have hl := hmid.length_eq
    refine ⟨pre.length, by simp; omega, ?_⟩
    rw [← sameFold_iff_map_toLower, List.append_assoc, List.drop_left, ← hl, List.take_left]
    exact hmid
  · rintro ⟨p, hp, h⟩
    refine ⟨s.take p, (s.drop p).take sub.length, (s.drop p).drop sub.length, ?_, ?_⟩
    · rw [List.append_assoc, List.take_append_drop, List.take_append_drop]
    · exact (sameFold_iff_map_toLower _ _).2 h

/-- The helper `contains` never panics and decides containment up to ASCII case. -/
theorem contains_spec (s sub : GoString) :
    ∃ b, contains s sub = some b ∧ (b = true ↔ ContainsFold s sub) := by
  unfold contains
  by_cases hlen : s.length ≥ sub.length
  · rw [if_pos hlen]
    by_cases heq : s = sub
    · rw [if_pos heq]
      refine ⟨true, rfl, ?_⟩
      constructor
      · intro _; exact ⟨[], s, [], by simp, by rw [heq]; rfl⟩
      · intro _; rfl
    · rw [if_neg heq]
      by_cases h0 : sub.length = 0
      · rw [if_pos h0]
        refine ⟨true, rfl, ?_⟩
        have : sub = [] := List.length_eq_zero.mp h0
        subst this
        constructor
        · intro _; exact ⟨[], [], s, by simp, rfl⟩
        · intro _; rfl
      · rw [if_neg h0]
        have hpos : s.length > 0 ∧ sub.length > 0 := by constructor <;> omega
        rw [if_pos hpos]
        unfold findSubstring
        obtain ⟨b, hb, hiff⟩ := findSubstringLoop_spec s sub hlen (s.length + 1 - sub.length) 0 (by omega)
        refine ⟨b, hb, ?_⟩
        rw [hiff, containsFold_iff_at]
        constructor
        · rintro ⟨p, _, h2, h3⟩; exact ⟨p, by omega, h3⟩
        · rintro ⟨p, h2, h3⟩; exact ⟨p, by omega, by omega, h3⟩
  · rw [if_neg hlen]
    refine ⟨false, rfl, ?_⟩
    constructor
    · intro h; cases h
    · rintro ⟨pre, mid, post, rfl, hmid⟩
      have := hmid.length_eq
      simp at hlen
      omega

theorem contains_of_containsFold {s sub : GoString} (h : ContainsFold s sub) :
    contains s sub = some true := by
  obtain ⟨b, hb, hiff⟩ := contains_spec s sub
  rw [hb, hiff.2 h]

theorem contains_of_not_containsFold {s sub : GoString} (h : ¬ ContainsFold s sub) :
    contains s sub = some false := by
  obtain ⟨b, hb, hiff⟩ := contains_spec s sub
  cases b with
  | false => exact hb
  | true => exact absurd (hiff.1 rfl) h

/-! ## Facts about the paginated loop -/

theorem pagedLoop_step {α : Type} (env : Env) (label : GoString)
    (unmarshal : GoString → Except GoString (List α × GoString)) (accessToken : GoString)
    (fuel : Nat) (url : GoString) (all : List α) (sent : List Request)
    (value : List α) (next : GoString) (hurl : url ≠ [])
    (h : ServesPage env unmarshal accessToken url value next) :
    pagedLoop env label unmarshal accessToken (fuel + 1) url all sent
      = pagedLoop env label unmarshal accessToken fuel next (all ++ value)
          (sent ++ [mkRequest (lit "GET") url accessToken none]) := by
  obtain ⟨resp, ⟨h1, h2, h3⟩, h4, h5⟩ := h
  rw [pagedLoop.eq_def, if_neg hurl]
  simp only [h1, h2, h3, h4, h5]
  simp

theorem pagedLoop_done {α : Type} (env : Env) (label : GoString)
    (unmarshal : GoString → Except GoString (List α × GoString)) (accessToken : GoString)
    (fuel : Nat) (all : List α) (sent : List Request) :
    pagedLoop env label unmarshal accessToken fuel [] all sent = some ⟨(all, none), sent⟩ := by
  rw [pagedLoop.eq_def, if_pos rfl]

theorem pagedLoop_fail {α : Type} (env : Env) (label : GoString)
    (unmarshal : GoString → Except GoString (List α × GoString)) (accessToken : GoString)
    (fuel : Nat) (url : GoString) (all : List α) (sent : List Request) (resp : Response)
    (hurl : url ≠ []) (h : Serves env accessToken url resp) (hs : resp.StatusCode ≠ 200) :
    pagedLoop env label unmarshal accessToken (fuel + 1) url all sent
      = some ⟨([], some (lit "failed to " ++ label ++ lit " (status "
          ++ fmtD resp.StatusCode ++ lit "): " ++ resp.Body)),
          sent ++ [mkRequest (lit "GET") url accessToken none]⟩ := by
  obtain ⟨h1, h2, h3⟩ := h
  rw [pagedLoop, if_neg hurl]
  simp only [h1, h2, h3]
  rw [if_pos hs]

theorem PagePrefix.stop_ne {α : Type} {env : Env}
    {unmarshal : GoString → Except GoString (List α × GoString)} {accessToken : GoString} :
    ∀ (pages : List (List α × GoString)) (url stop : GoString), url ≠ [] →
      PagePrefix env unmarshal accessToken url pages stop → stop ≠ [] := by
  intro pages
  induction pages with
  | nil =>
    intro url stop hurl h
    have h2 : stop = url := h
    rw [h2]; exact hurl
  | cons p rest ih =>
    intro url stop _ h
    obtain ⟨value, next⟩ := p
    obtain ⟨_, hn, hrest⟩ := h
    exact ih next stop hn hrest

theorem PagePrefix.getLast {α : Type} {env : Env}
    {unmarshal : GoString → Except GoString (List α × GoString)} {accessToken : GoString} :
    ∀ (pages : List (List α × GoString)) (url stop : GoString),
      PagePrefix env unmarshal accessToken url pages stop →
      (url :: pages.map Prod.snd).getLast? = some stop := by
  intro pages
  induction pages with
  | nil =>
    intro url stop h
    have h2 : stop = url := h
    simp [h2]
  | cons p rest ih =>
    intro url stop h
    obtain ⟨value, next⟩ := p
    obtain ⟨_, _, hrest⟩ := h
    have := ih next stop hrest
    simpa [List.getLast?_cons_cons] using this

theorem pagedLoop_through_earlier {α : Type} (env : Env) (label : GoString)
    (unmarshal : GoString → Except GoString (List α × GoString)) (accessToken : GoString) :
    ∀ (pages : List (List α × GoString)) (url stop : GoString) (fuel : Nat) (all : List α)
      (sent : List Request), url ≠ [] →
      PagePrefix env unmarshal accessToken url pages stop →
      pagedLoop env label unmarshal accessToken (fuel + pages.length) url all sent
        = pagedLoop env label unmarshal accessToken fuel stop (all ++ allItems pages)
            (sent ++ getRequests accessToken (url :: pages.map Prod.snd).dropLast) := by
  intro pages
  induction pages with
  | nil =>
    intro url stop fuel all sent _ h
    have h2 : stop = url := h
    simp [h2, allItems, getRequests]
  | cons p rest ih =>
    intro url stop fuel all sent hurl h
    obtain ⟨value, next⟩ := p
    obtain ⟨hp, hn, hrest⟩ := h
    have e : fuel + ((value, next) :: rest).length = (fuel + rest.length) + 1 := by
      simp [Nat.add_assoc]
    rw [e, pagedLoop_step env label unmarshal accessToken _ url all sent value next hurl hp,
      ih next stop fuel _ _ hn hrest]
    simp [allItems, getRequests, List.dropLast_cons₂]

theorem pagedLoop_chain {α : Type} (env : Env) (label : GoString)
    (unmarshal : GoString → Except GoString (List α × GoString)) (accessToken : GoString) :
    ∀ (pages : List (List α × GoString)) (url : GoString) (fuel : Nat) (all : List α)
      (sent : List Request), url ≠ [] →
      PageChain env unmarshal accessToken url pages → pages.length ≤ fuel →
      pagedLoop env label unmarshal accessToken fuel url all sent
        = some ⟨(all ++ allItems pages, none),
            sent ++ getRequests accessToken (url :: pages.dropLast.map Prod.snd)⟩ := by
  intro pages
  induction pages with
  | nil => intro url fuel all sent _ h; exact absurd h (by simp [PageChain])
  | cons p rest ih =>
    intro url fuel all sent hurl h hfuel
    obtain ⟨value, next⟩ := p
    obtain ⟨fuel, rfl⟩ : ∃ k, fuel = k + 1 := ⟨fuel - 1, by simp at hfuel; omega⟩
    cases rest with
    | nil =>
      obtain ⟨hp, hn⟩ := h
      rw [pagedLoop_step env label unmarshal accessToken _ url all sent value next hurl hp, hn,
        pagedLoop_done]
      simp [allItems, getRequests]
    | cons q rest =>
      obtain ⟨hp, hn, hrest⟩ := h
      rw [pagedLoop_step env label unmarshal accessToken _ url all sent value next hurl hp,
        ih next fuel _ _ hn hrest (by simp at hfuel ⊢; omega)]
      simp [allItems, getRequests]

theorem pagedLoop_abort {α : Type} (env : Env) (label : GoString)
    (unmarshal : GoString → Except GoString (List α × GoString)) (accessToken : GoString)
    (earlier : List (List α × GoString)) (url stop : GoString) (fuel : Nat)
    (resp : Response) (hurl : url ≠ [])
    (hpre : PagePrefix env unmarshal accessToken url earlier stop)
    (hresp : Serves env accessToken stop resp) (hs : resp.StatusCode ≠ 200)
    (hfuel : earlier.length < fuel) :
    pagedLoop env label unmarshal accessToken fuel url [] []
      = some ⟨([], some (lit "failed to " ++ label ++ lit " (status "
          ++ fmtD resp.StatusCode ++ lit "): " ++ resp.Body)),
          getRequests accessToken (url :: earlier.map Prod.snd)⟩ := by
  obtain ⟨k, rfl⟩ : ∃ k, fuel = (k + 1) + earlier.length := ⟨fuel - earlier.length - 1, by omega⟩
  rw [pagedLoop_through_earlier env label unmarshal accessToken earlier url stop (k + 1) [] [] hurl hpre,
    pagedLoop_fail env label unmarshal accessToken k stop _ _ resp
      (PagePrefix.stop_ne earlier url stop hurl hpre) hresp hs]
  have hl := PagePrefix.getLast earlier url stop hpre
  have hd : (url :: earlier.map Prod.snd).dropLast ++ [stop] = url :: earlier.map Prod.snd := by
    have := List.dropLast_append_getLast? stop hl
    exact this
  have : getRequests accessToken (url :: earlier.map Prod.snd).dropLast
      ++ [mkRequest (lit "GET") stop accessToken none]
      = getRequests accessToken (url :: earlier.map Prod.snd) := by
    conv_rhs => rw [← hd]
    simp [getRequests]
  simp only [List.nil_append]
  rw [this]

theorem status_body_within (pre : GoString) (code : Int) (body : GoString) :
    fmtD code <:+: pre ++ fmtD code ++ lit "): " ++ body ∧
    body <:+: pre ++ fmtD code ++ lit "): " ++ body := by
  constructor
  · exact ⟨pre, lit "): " ++ body, by simp [List.append_assoc]⟩
  · exact ⟨pre ++ fmtD code ++ lit "): ", [], by simp [List.append_assoc]⟩

theorem baseURL_append_ne_nil (rest : GoString) : baseURL ++ rest ≠ [] :=
  List.append_ne_nil_of_left_ne_nil (by decide) rest

theorem listUsersURL_ne_nil (filter : GoString) : listUsersURL filter ≠ [] := by
  unfold listUsersURL
  split
  · rw [List.append_assoc]; exact baseURL_append_ne_nil _
  · exact baseURL_append_ne_nil _

theorem userGroupsURL_ne_nil (upn : GoString) :
    baseURL ++ lit "/users/" ++ upn ++ lit "/memberOf" ≠ [] := by
  rw [List.append_assoc, List.append_assoc]; exact baseURL_append_ne_nil _

/-! ## The paginated list operations: claims C1, C2, C3 -/

/-- C1: for each of ListUsers, ListGroups, GetSubscribedSkus and GetUserGroups, if the
server answers the start URL and every successive continuation link with a chain of
`N >= 1` pages of status 200, each page but the last carrying a non-empty
`@odata.nextLink` and the last carrying none, then with room for `N` iterations
the operation returns no error and exactly the concatenation of the pages' item lists in
page order. -/
theorem C1_paginated_result_is_concatenation (env : Env) (accessToken : GoString)
    (fuel : Nat) :
    (∀ (filter : GoString) (pages : List (List User × GoString)),
      PageChain env (userPage env) accessToken (listUsersURL filter) pages →
      pages.length ≤ fuel →
      ∃ sent, ListUsers env fuel accessToken filter
        = some ⟨((pages.map Prod.fst).flatten, none), sent⟩) ∧
    (∀ (pages : List (List Group × GoString)),
      PageChain env (groupPage env) accessToken (baseURL ++ lit "/groups") pages →
      pages.length ≤ fuel →
      ∃ sent, ListGroups env fuel accessToken
        = some ⟨((pages.map Prod.fst).flatten, none), sent⟩) ∧
    (∀ (pages : List (List SubscribedSku × GoString)),
      PageChain env (skuPage env) accessToken (baseURL ++ lit "/subscribedSkus") pages →
      pages.length ≤ fuel →
      ∃ sent, GetSubscribedSkus env fuel accessToken
        = some ⟨((pages.map Prod.fst).flatten, none), sent⟩) ∧
    (∀ (userPrincipalName : GoString) (pages : List (List Group × GoString)),
      PageChain env (groupPage env) accessToken
        (baseURL ++ lit "/users/" ++ userPrincipalName ++ lit "/memberOf") pages →
      pages.length ≤ fuel →
      ∃ sent, GetUserGroups env fuel accessToken userPrincipalName
        = some ⟨((pages.map Prod.fst).flatten, none), sent⟩) := by
  refine ⟨?_, ?_, ?_, ?_⟩
  · intro filter pages h hf
    refine ⟨getRequests accessToken ((listUsersURL filter) :: pages.dropLast.map Prod.snd), ?_⟩
    unfold ListUsers
    rw [pagedLoop_chain env _ _ accessToken pages _ fuel [] [] (listUsersURL_ne_nil filter) h hf]
    simp [allItems]
  · intro pages h hf
    refine ⟨getRequests accessToken ((baseURL ++ lit "/groups") :: pages.dropLast.map Prod.snd), ?_⟩
    unfold ListGroups
    rw [pagedLoop_chain env _ _ accessToken pages _ fuel [] [] (baseURL_append_ne_nil _) h hf]
    simp [allItems]
  · intro pages h hf
    refine ⟨getRequests accessToken ((baseURL ++ lit "/subscribedSkus") :: pages.dropLast.map Prod.snd), ?_⟩
    unfold GetSubscribedSkus
    rw [pagedLoop_chain env _ _ accessToken pages _ fuel [] [] (baseURL_append_ne_nil _) h hf]
    simp [allItems]
  · intro upn pages h hf
    refine ⟨getRequests accessToken ((baseURL ++ lit "/users/" ++ upn ++ lit "/memberOf") :: pages.dropLast.map Prod.snd), ?_⟩
    unfold GetUserGroups
    rw [pagedLoop_chain env _ _ accessToken pages _ fuel [] [] (userGroupsURL_ne_nil upn) h hf]
    simp [allItems]

/-- C1 at the two-page server, for the four operations. -/
theorem C1_paginated_result_is_concatenation_witness :
    (∃ sent, ListUsers twoPageEnv 2 (lit "tok") []
      = some ⟨([userNamed (lit "alice"), userNamed (lit "bob")], none), sent⟩) ∧
    (∃ sent, ListGroups twoPageEnv 2 (lit "tok")
      = some ⟨([groupNamed (lit "admins"), groupNamed (lit "staff")], none), sent⟩) ∧
    (∃ sent, GetSubscribedSkus twoPageEnv 2 (lit "tok")
      = some ⟨([skuNamed (lit "E3"), skuNamed (lit "E5")], none), sent⟩) ∧
    (∃ sent, GetUserGroups twoPageEnv 2 (lit "tok") (lit "a@b.c")
      = some ⟨([groupNamed (lit "admins"), groupNamed (lit "staff")], none), sent⟩) :=
  have h := C1_paginated_result_is_concatenation twoPageEnv (lit "tok") 2
  ⟨h.1 [] [([userNamed (lit "alice")], lit "page2"), ([userNamed (lit "bob")], [])]
      ⟨⟨⟨200, lit "first", none⟩, ⟨rfl, rfl, rfl⟩, rfl, rfl⟩, by decide,
        ⟨⟨200, lit "last", none⟩, ⟨rfl, rfl, rfl⟩, rfl, rfl⟩, rfl⟩ (by decide),
   h.2.1 [([groupNamed (lit "admins")], lit "page2"), ([groupNamed (lit "staff")], [])]
      ⟨⟨⟨200, lit "first", none⟩, ⟨rfl, rfl, rfl⟩, rfl, rfl⟩, by decide,
        ⟨⟨200, lit "last", none⟩, ⟨rfl, rfl, rfl⟩, rfl, rfl⟩, rfl⟩ (by decide),
   h.2.2.1 [([skuNamed (lit "E3")], lit "page2"), ([skuNamed (lit "E5")], [])]
      ⟨⟨⟨200, lit "first", none⟩, ⟨rfl, rfl, rfl⟩, rfl, rfl⟩, by decide,
        ⟨⟨200, lit "last", none⟩, ⟨rfl, rfl, rfl⟩, rfl, rfl⟩, rfl⟩ (by decide),
   h.2.2.2 (lit "a@b.c")
      [([groupNamed (lit "admins")], lit "page2"), ([groupNamed (lit "staff")], [])]
      ⟨⟨⟨200, lit "first", none⟩, ⟨rfl, rfl, rfl⟩, rfl, rfl⟩, by decide,
        ⟨⟨200, lit "last", none⟩, ⟨rfl, rfl, rfl⟩, rfl, rfl⟩, rfl⟩ (by decide)⟩

theorem abortsAt_of_earlier {α : Type} (env : Env) (label : GoString)
    (unmarshal : GoString → Except GoString (List α × GoString)) (accessToken : GoString)
    (earlier : List (List α × GoString)) (url stop : GoString) (fuel : Nat)
    (resp : Response) (hurl : url ≠ [])
    (hpre : PagePrefix env unmarshal accessToken url earlier stop)
    (hresp : Serves env accessToken stop resp)
    (hs : ¬ (200 ≤ resp.StatusCode ∧ resp.StatusCode < 300))
    (hfuel : earlier.length < fuel) :
    AbortsAt (pagedLoop env label unmarshal accessToken fuel url [] []) (earlier.length + 1)
      (mkRequest (lit "GET") stop accessToken none) resp := by
  have hs2 : resp.StatusCode ≠ 200 := by
    intro h; apply hs; rw [h]; decide
  refine ⟨_, _, pagedLoop_abort env label unmarshal accessToken earlier url stop fuel resp hurl
    hpre hresp hs2 hfuel, ?_, ?_, ?_, ?_⟩
  · exact (status_body_within _ _ _).1
  · exact (status_body_within _ _ _).2
  · simp [getRequests]
  · have hl := PagePrefix.getLast earlier url stop hpre
    unfold getRequests
    rw [List.getLast?_map, hl]
    rfl

theorem PageChain.ne_nil {α : Type} {env : Env}
    {unmarshal : GoString → Except GoString (List α × GoString)} {accessToken url : GoString}
    {pages : List (List α × GoString)} (h : PageChain env unmarshal accessToken url pages) :
    pages ≠ [] := by
  intro hp
  subst hp
  exact absurd h (by simp [PageChain])

theorem fetchesChain_of_chain {α : Type} (env : Env) (label : GoString)
    (unmarshal : GoString → Except GoString (List α × GoString)) (accessToken : GoString)
    (pages : List (List α × GoString)) (url : GoString) (fuel : Nat) (hurl : url ≠ [])
    (h : PageChain env unmarshal accessToken url pages) (hfuel : pages.length ≤ fuel) :
    FetchesChain (pagedLoop env label unmarshal accessToken fuel url [] []) accessToken url
      pages := by
  have hne := h.ne_nil
  have hlen : 0 < pages.length := List.length_pos.mpr hne
  refine ⟨_, _, pagedLoop_chain env label unmarshal accessToken pages url fuel [] [] hurl h hfuel,
    by simp, ?_, ?_, ?_⟩
  · simp [getRequests]; omega
  · simp [getRequests]
  · intro k hk
    simp only [List.nil_append, getRequests, List.map_cons, List.getElem?_cons_succ,
      List.getElem?_map, Option.map_map]
    rw [List.dropLast_eq_take, List.getElem?_take_of_lt (by omega)]
    cases pages[k]? <;> simp [mkRequest]

/-- C2: for each of ListUsers, ListGroups, GetSubscribedSkus and GetUserGroups, if the
pages before the k-th are served (each with a continuation link) and the k-th request is
answered with a non-2xx status, the operation returns an error with an empty result, the
error text contains the decimal status code and the raw body of the failing response, and
the failing request is the last of the k requests issued. -/
theorem C2_failed_page_discards_partial_results (env : Env) (accessToken : GoString)
    (fuel : Nat) (stop : GoString) (resp : Response)
    (hresp : Serves env accessToken stop resp)
    (hstatus : ¬ (200 ≤ resp.StatusCode ∧ resp.StatusCode < 300)) :
    (∀ (filter : GoString) (earlier : List (List User × GoString)),
      PagePrefix env (userPage env) accessToken (listUsersURL filter) earlier stop →
      earlier.length < fuel →
      AbortsAt (ListUsers env fuel accessToken filter) (earlier.length + 1)
        (mkRequest (lit "GET") stop accessToken none) resp) ∧
    (∀ (earlier : List (List Group × GoString)),
      PagePrefix env (groupPage env) accessToken (baseURL ++ lit "/groups") earlier stop →
      earlier.length < fuel →
      AbortsAt (ListGroups env fuel accessToken) (earlier.length + 1)
        (mkRequest (lit "GET") stop accessToken none) resp) ∧
    (∀ (earlier : List (List SubscribedSku × GoString)),
      PagePrefix env (skuPage env) accessToken (baseURL ++ lit "/subscribedSkus") earlier stop →
      earlier.length < fuel →
      AbortsAt (GetSubscribedSkus env fuel accessToken) (earlier.length + 1)
        (mkRequest (lit "GET") stop accessToken none) resp) ∧
    (∀ (userPrincipalName : GoString) (earlier : List (List Group × GoString)),
      PagePrefix env (groupPage env) accessToken
        (baseURL ++ lit "/users/" ++ userPrincipalName ++ lit "/memberOf") earlier stop →
      earlier.length < fuel →
      AbortsAt (GetUserGroups env fuel accessToken userPrincipalName) (earlier.length + 1)
        (mkRequest (lit "GET") stop accessToken none) resp) :=
  ⟨fun filter earlier h hf =>
      abortsAt_of_earlier env _ _ accessToken earlier _ stop fuel resp
        (listUsersURL_ne_nil filter) h hresp hstatus hf,
   fun earlier h hf =>
      abortsAt_of_earlier env _ _ accessToken earlier _ stop fuel resp
        (baseURL_append_ne_nil _) h hresp hstatus hf,
   fun earlier h hf =>
      abortsAt_of_earlier env _ _ accessToken earlier _ stop fuel resp
        (baseURL_append_ne_nil _) h hresp hstatus hf,
   fun upn earlier h hf =>
      abortsAt_of_earlier env _ _ accessToken earlier _ stop fuel resp
        (userGroupsURL_ne_nil upn) h hresp hstatus hf⟩

/-- C2 at the server whose second page is answered with 503. -/
theorem C2_failed_page_discards_partial_results_witness :
    AbortsAt (ListUsers brokenSecondPageEnv 2 (lit "tok") []) 2
      (mkRequest (lit "GET") (lit "page2") (lit "tok") none) ⟨503, lit "busy", none⟩ ∧
    AbortsAt (ListGroups brokenSecondPageEnv 2 (lit "tok")) 2
      (mkRequest (lit "GET") (lit "page2") (lit "tok") none) ⟨503, lit "busy", none⟩ ∧
    AbortsAt (GetSubscribedSkus brokenSecondPageEnv 2 (lit "tok")) 2
      (mkRequest (lit "GET") (lit "page2") (lit "tok") none) ⟨503, lit "busy", none⟩ ∧
    AbortsAt (GetUserGroups brokenSecondPageEnv 2 (lit "tok") (lit "a@b.c")) 2
      (mkRequest (lit "GET") (lit "page2") (lit "tok") none) ⟨503, lit "busy", none⟩ :=
  have h := C2_failed_page_discards_partial_results brokenSecondPageEnv (lit "tok") 2
    (lit "page2") ⟨503, lit "busy", none⟩ ⟨rfl, rfl, rfl⟩ (by decide)
  ⟨h.1 [] [([userNamed (lit "alice")], lit "page2")]
      ⟨⟨⟨200, lit "first", none⟩, ⟨rfl, rfl, rfl⟩, rfl, rfl⟩, by decide, rfl⟩ (by decide),
   h.2.1 [([groupNamed (lit "admins")], lit "page2")]
      ⟨⟨⟨200, lit "first", none⟩, ⟨rfl, rfl, rfl⟩, rfl, rfl⟩, by decide, rfl⟩ (by decide),
   h.2.2.1 [([skuNamed (lit "E3")], lit "page2")]
      ⟨⟨⟨200, lit "first", none⟩, ⟨rfl, rfl, rfl⟩, rfl, rfl⟩, by decide, rfl⟩ (by decide),
   h.2.2.2 (lit "a@b.c") [([groupNamed (lit "admins")], lit "page2")]
      ⟨⟨⟨200, lit "first", none⟩, ⟨rfl, rfl, rfl⟩, rfl, rfl⟩, by decide, rfl⟩ (by decide)⟩

/-- C3: for each paginated list operation on a finite chain of N successful pages, with
room for N iterations the loop returns after exactly N GET requests: the first goes to
the start URL of the operation, and request k+1 goes to the URL that is the
`@odata.nextLink` string of response k, unchanged. -/
theorem C3_requests_follow_next_links (env : Env) (accessToken : GoString) (fuel : Nat) :
    (∀ (filter : GoString) (pages : List (List User × GoString)),
      PageChain env (userPage env) accessToken (listUsersURL filter) pages →
      pages.length ≤ fuel →
      FetchesChain (ListUsers env fuel accessToken filter) accessToken
        (listUsersURL filter) pages) ∧
    (∀ (pages : List (List Group × GoString)),
      PageChain env (groupPage env) accessToken (baseURL ++ lit "/groups") pages →
      pages.length ≤ fuel →
      FetchesChain (ListGroups env fuel accessToken) accessToken
        (baseURL ++ lit "/groups") pages) ∧
    (∀ (pages : List (List SubscribedSku × GoString)),
      PageChain env (skuPage env) accessToken (baseURL ++ lit "/subscribedSkus") pages →
      pages.length ≤ fuel →
      FetchesChain (GetSubscribedSkus env fuel accessToken) accessToken
        (baseURL ++ lit "/subscribedSkus") pages) ∧
    (∀ (userPrincipalName : GoString) (pages : List (List Group × GoString)),
      PageChain env (groupPage env) accessToken
        (baseURL ++ lit "/users/" ++ userPrincipalName ++ lit "/memberOf") pages →
      pages.length ≤ fuel →
      FetchesChain (GetUserGroups env fuel accessToken userPrincipalName) accessToken
        (baseURL ++ lit "/users/" ++ userPrincipalName ++ lit "/memberOf") pages) :=
  ⟨fun filter pages h hf =>
      fetchesChain_of_chain env _ _ accessToken pages _ fuel (listUsersURL_ne_nil filter) h hf,
   fun pages h hf =>
      fetchesChain_of_chain env _ _ accessToken pages _ fuel (baseURL_append_ne_nil _) h hf,
   fun pages h hf =>
      fetchesChain_of_chain env _ _ accessToken pages _ fuel (baseURL_append_ne_nil _) h hf,
   fun upn pages h hf =>
      fetchesChain_of_chain env _ _ accessToken pages _ fuel (userGroupsURL_ne_nil upn) h hf⟩

/-- C3 at the two-page server, for the four operations. -/
theorem C3_requests_follow_next_links_witness :
    FetchesChain (ListUsers twoPageEnv 2 (lit "tok") []) (lit "tok") (listUsersURL [])
      [([userNamed (lit "alice")], lit "page2"), ([userNamed (lit "bob")], [])] ∧
    FetchesChain (ListGroups twoPageEnv 2 (lit "tok")) (lit "tok") (baseURL ++ lit "/groups")
      [([groupNamed (lit "admins")], lit "page2"), ([groupNamed (lit "staff")], [])] ∧
    FetchesChain (GetSubscribedSkus twoPageEnv 2 (lit "tok")) (lit "tok")
      (baseURL ++ lit "/subscribedSkus")
      [([skuNamed (lit "E3")], lit "page2"), ([skuNamed (lit "E5")], [])] ∧
    FetchesChain (GetUserGroups twoPageEnv 2 (lit "tok") (lit "a@b.c")) (lit "tok")
      (baseURL ++ lit "/users/" ++ lit "a@b.c" ++ lit "/memberOf")
      [([groupNamed (lit "admins")], lit "page2"), ([groupNamed (lit "staff")], [])] :=
  have h := C3_requests_follow_next_links twoPageEnv (lit "tok") 2
  ⟨h.1 [] _
      ⟨⟨⟨200, lit "first", none⟩, ⟨rfl, rfl, rfl⟩, rfl, rfl⟩, by decide,
        ⟨⟨200, lit "last", none⟩, ⟨rfl, rfl, rfl⟩, rfl, rfl⟩, rfl⟩ (by decide),
   h.2.1 _
      ⟨⟨⟨200, lit "first", none⟩, ⟨rfl, rfl, rfl⟩, rfl, rfl⟩, by decide,
        ⟨⟨200, lit "last", none⟩, ⟨rfl, rfl, rfl⟩, rfl, rfl⟩, rfl⟩ (by decide),
   h.2.2.1 _
      ⟨⟨⟨200, lit "first", none⟩, ⟨rfl, rfl, rfl⟩, rfl, rfl⟩, by decide,
        ⟨⟨200, lit "last", none⟩, ⟨rfl, rfl, rfl⟩, rfl, rfl⟩, rfl⟩ (by decide),
   h.2.2.2 (lit "a@b.c") _
      ⟨⟨⟨200, lit "first", none⟩, ⟨rfl, rfl, rfl⟩, rfl, rfl⟩, by decide,
        ⟨⟨200, lit "last", none⟩, ⟨rfl, rfl, rfl⟩, rfl, rfl⟩, rfl⟩ (by decide)⟩

/-! ## Facts about the license-assignment errors -/

theorem containsFold_of_within (s a b c : GoString) (h : ContainsFold s (a ++ b ++ c)) :
    ContainsFold s b := by
  obtain ⟨pre, mid, post, hs, hmid⟩ := h
  unfold SameFold at hmid
  rw [List.map_append, List.map_append, List.map_eq_append_iff] at hmid
  obtain ⟨l₁, l₃, hl, h1, _⟩ := hmid
  rw [List.map_eq_append_iff] at h1
  obtain ⟨l₀, l₂, hl1, _, h3⟩ := h1
  refine ⟨pre ++ l₀, l₂, l₃ ++ post, ?_, h3⟩
  rw [hs, hl, hl1]
  simp [List.append_assoc]

theorem containsFold_license_of_no_available (message : GoString)
    (h : ContainsFold message (lit "No available licenses")) :
    ContainsFold message (lit "license") := by
  have e : lit "No available licenses" = lit "No available " ++ lit "license" ++ lit "s" := by
    decide
  rw [e] at h
  exact containsFold_of_within message _ _ _ h

theorem licenseTest_of_containsFold (message : GoString)
    (h : ContainsFold message (lit "license")) :
    ((contains message (lit "No available licenses")).bind fun c1 =>
      if c1 then some true else contains message (lit "license")) = some true := by
  obtain ⟨b, hb, _⟩ := contains_spec message (lit "No available licenses")
  rw [hb]
  cases b with
  | true => rfl
  | false => simpa using contains_of_containsFold h

theorem licenseTest_of_not_containsFold (message : GoString)
    (h : ¬ ContainsFold message (lit "license")) :
    ((contains message (lit "No available licenses")).bind fun c1 =>
      if c1 then some true else contains message (lit "license")) = some false := by
  have h1 : ¬ ContainsFold message (lit "No available licenses") :=
    fun hc => h (containsFold_license_of_no_available message hc)
  rw [contains_of_not_containsFold h1]
  simpa using contains_of_not_containsFold h

theorem assignLicenseFailure_envelope (env : Env) (resp : Response) (message : GoString)
    (h : ErrorEnvelope env resp.Body message) :
    assignLicenseFailure env resp =
      (((contains message (lit "No available licenses")).bind fun c1 =>
        if c1 then some true else contains message (lit "license")).bind fun c2 =>
        if c2 then
          some (lit "license assignment failed: " ++ message ++ userLicenseAdvice)
        else
          (contains message (lit "usageLocation")).bind fun c3 =>
          if c3 then
            some (lit "license assignment failed: " ++ message ++ userUsageLocationAdvice)
          else
            some (lit "license assignment failed: " ++ message)) := by
  obtain ⟨errorResponse, errorObj, h1, h2, h3⟩ := h
  unfold assignLicenseFailure
  simp only [h1, h2, h3, Option.bind_assoc]

theorem assignGroupLicenseFailure_envelope (env : Env) (resp : Response) (message : GoString)
    (h : ErrorEnvelope env resp.Body message) :
    assignGroupLicenseFailure env resp =
      (((contains message (lit "No available licenses")).bind fun c1 =>
        if c1 then some true else contains message (lit "license")).bind fun c2 =>
        if c2 then
          some (lit "group license assignment failed: " ++ message ++ groupLicenseAdvice)
        else
          some (lit "group license assignment failed: " ++ message)) := by
  obtain ⟨errorResponse, errorObj, h1, h2, h3⟩ := h
  unfold assignGroupLicenseFailure
  simp only [h1, h2, h3, Option.bind_assoc]

theorem assignLicenseFailure_noMessage (env : Env) (resp : Response)
    (h : NoMessage env resp.Body) :
    assignLicenseFailure env resp =
      some (lit "failed to assign license (status " ++ fmtD resp.StatusCode ++ lit "): "
        ++ resp.Body) := by
  unfold assignLicenseFailure
  rcases h with ⟨err, h1⟩ | ⟨m, h1, h2⟩ | ⟨m, o, h1, h2, h3⟩
  · simp only [h1]
  · simp only [h1]
  · simp only [h1, h2]

theorem assignGroupLicenseFailure_noMessage (env : Env) (resp : Response)
    (h : NoMessage env resp.Body) :
    assignGroupLicenseFailure env resp =
      some (lit "failed to assign group license (status " ++ fmtD resp.StatusCode ++ lit "): "
        ++ resp.Body) := by
  unfold assignGroupLicenseFailure
  rcases h with ⟨err, h1⟩ | ⟨m, h1, h2⟩ | ⟨m, o, h1, h2, h3⟩
  · simp only [h1]
  · simp only [h1]
  · simp only [h1, h2]

theorem AssignLicense_failed (env : Env) (accessToken userPrincipalName : GoString)
    (addLicenses removeLicenses : List GoString) (resp : Response)
    (h : AssignAnswered env accessToken
      (baseURL ++ lit "/users/" ++ userPrincipalName ++ lit "/assignLicense")
      addLicenses removeLicenses resp)
    (hs : resp.StatusCode ≠ 200) :
    ∃ sent, AssignLicense env accessToken userPrincipalName addLicenses removeLicenses
      = (assignLicenseFailure env resp).map fun text => ⟨some text, sent⟩ := by
  obtain ⟨jsonData, h1, h2, h3⟩ := h
  refine ⟨[mkRequest (lit "POST")
    (baseURL ++ lit "/users/" ++ userPrincipalName ++ lit "/assignLicense") accessToken
    (some jsonData)], ?_⟩
  unfold AssignLicense
  simp only [h1, h2, h3]
  rw [if_pos hs]

theorem AssignGroupLicense_failed (env : Env) (accessToken groupID : GoString)
    (addLicenses removeLicenses : List GoString) (resp : Response)
    (h : AssignAnswered env accessToken
      (baseURL ++ lit "/groups/" ++ groupID ++ lit "/assignLicense")
      addLicenses removeLicenses resp)
    (hs : resp.StatusCode ≠ 200) :
    ∃ sent, AssignGroupLicense env accessToken groupID addLicenses removeLicenses
      = (assignGroupLicenseFailure env resp).map fun text => ⟨some text, sent⟩ := by
  obtain ⟨jsonData, h1, h2, h3⟩ := h
  refine ⟨[mkRequest (lit "POST")
    (baseURL ++ lit "/groups/" ++ groupID ++ lit "/assignLicense") accessToken
    (some jsonData)], ?_⟩
  unfold AssignGroupLicense
  simp only [h1, h2, h3]
  rw [if_pos hs]

set_option maxRecDepth 8000 in
theorem guidance_within_userLicenseAdvice :
    lit "gua users update <UPN> usageLocation" <:+: userLicenseAdvice := by
  decide

set_option maxRecDepth 8000 in
theorem guidance_within_userUsageLocationAdvice :
    lit "gua users update <UPN> usageLocation" <:+: userUsageLocationAdvice := by
  decide

set_option maxRecDepth 8000 in
theorem counts_within_userLicenseAdvice :
    lit "Not enough available licenses (check with 'gua licenses list-skus')"
      <:+: userLicenseAdvice := by
  decide

set_option maxRecDepth 8000 in
theorem counts_within_groupLicenseAdvice :
    lit "Not enough available licenses (check with 'gua licenses list-skus')"
      <:+: groupLicenseAdvice := by
  decide

/-! ## License assignment errors: claims C4, C5, C6, C8, C9 -/

/-- C4, as stated, fails: the message `usage Location` (with a blank) contains the
substring `usage Location`, and the error `AssignLicense` returns for it carries no
remediation guidance. -/
theorem C4_usage_location_with_blank_not_rewritten :
    AssignAnswered (replyEnv 400 (envelopeOf (lit "usage Location"))) (lit "tok")
      (baseURL ++ lit "/users/" ++ lit "a@b.c" ++ lit "/assignLicense") [lit "SKU_A"] []
      ⟨400, envelopeOf (lit "usage Location"), none⟩ ∧
    ErrorEnvelope (replyEnv 400 (envelopeOf (lit "usage Location")))
      (envelopeOf (lit "usage Location")) (lit "usage Location") ∧
    ContainsFold (lit "usage Location") (lit "usage Location") ∧
    (∃ sent, AssignLicense (replyEnv 400 (envelopeOf (lit "usage Location"))) (lit "tok")
      (lit "a@b.c") [lit "SKU_A"] []
      = some ⟨some (lit "license assignment failed: usage Location"), sent⟩) ∧
    ¬ lit "gua users update <UPN> usageLocation"
        <:+: lit "license assignment failed: usage Location" :=
  ⟨⟨_, rfl, rfl, rfl⟩, ⟨_, _, rfl, rfl, rfl⟩, ⟨[], _, [], rfl, rfl⟩, ⟨_, rfl⟩, by decide⟩

/-- C4, amended: AssignLicense, for every non-200 response whose body is a JSON error
envelope with a string `error.message` that contains `usageLocation` (one word) in any
letter case, returns an error whose text contains the remediation guidance
`gua users update <UPN> usageLocation`. -/
theorem C4_usage_location_message_gets_guidance (env : Env)
    (accessToken userPrincipalName : GoString) (addLicenses removeLicenses : List GoString)
    (resp : Response) (message : GoString)
    (hanswer : AssignAnswered env accessToken
      (baseURL ++ lit "/users/" ++ userPrincipalName ++ lit "/assignLicense")
      addLicenses removeLicenses resp)
    (hstatus : resp.StatusCode ≠ 200)
    (henvelope : ErrorEnvelope env resp.Body message)
    (hmessage : ContainsFold message (lit "usageLocation")) :
    ∃ text sent,
      AssignLicense env accessToken userPrincipalName addLicenses removeLicenses
        = some ⟨some text, sent⟩ ∧
      lit "gua users update <UPN> usageLocation" <:+: text := by
  obtain ⟨sent, hrun⟩ := AssignLicense_failed env accessToken userPrincipalName addLicenses
    removeLicenses resp hanswer hstatus
  rw [hrun, assignLicenseFailure_envelope env resp message henvelope]
  by_cases hl : ContainsFold message (lit "license")
  · rw [licenseTest_of_containsFold message hl]
    refine ⟨_, sent, rfl, ?_⟩
    exact guidance_within_userLicenseAdvice.trans (List.suffix_append _ _).isInfix
  · rw [licenseTest_of_not_containsFold message hl]
    simp only [Option.some_bind, Bool.false_eq_true, if_false]
    rw [contains_of_containsFold hmessage]
    refine ⟨_, sent, rfl, ?_⟩
    exact guidance_within_userUsageLocationAdvice.trans (List.suffix_append _ _).isInfix

/-- C4, amended, at a 400 response with the message `Invalid usagelocation`. -/
theorem C4_usage_location_message_gets_guidance_witness :
    ∃ text sent,
      AssignLicense (replyEnv 400 (envelopeOf (lit "Invalid usagelocation"))) (lit "tok")
        (lit "a@b.c") [lit "SKU_A"] [] = some ⟨some text, sent⟩ ∧
      lit "gua users update <UPN> usageLocation" <:+: text :=
  C4_usage_location_message_gets_guidance
    (replyEnv 400 (envelopeOf (lit "Invalid usagelocation"))) (lit "tok") (lit "a@b.c")
    [lit "SKU_A"] [] ⟨400, envelopeOf (lit "Invalid usagelocation"), none⟩
    (lit "Invalid usagelocation") ⟨[], rfl, rfl, rfl⟩ (by decide) ⟨_, _, rfl, rfl, rfl⟩
    ⟨lit "Invalid ", lit "usagelocation", [], rfl, rfl⟩

/-- C5: AssignLicense and AssignGroupLicense, for every non-200 response whose body is a
JSON error envelope with a string `error.message` that contains `license` in any letter
case, return an error whose text contains the original message and the remediation text
about available license counts. -/
theorem C5_license_message_gets_license_advice (env : Env)
    (accessToken target : GoString) (addLicenses removeLicenses : List GoString)
    (resp : Response) (message : GoString)
    (hstatus : resp.StatusCode ≠ 200)
    (henvelope : ErrorEnvelope env resp.Body message)
    (hmessage : ContainsFold message (lit "license")) :
    (AssignAnswered env accessToken
        (baseURL ++ lit "/users/" ++ target ++ lit "/assignLicense")
        addLicenses removeLicenses resp →
      ∃ text sent,
        AssignLicense env accessToken target addLicenses removeLicenses
          = some ⟨some text, sent⟩ ∧
        message <:+: text ∧
        lit "Not enough available licenses (check with 'gua licenses list-skus')"
          <:+: text) ∧
    (AssignAnswered env accessToken
        (baseURL ++ lit "/groups/" ++ target ++ lit "/assignLicense")
        addLicenses removeLicenses resp →
      ∃ text sent,
        AssignGroupLicense env accessToken target addLicenses removeLicenses
          = some ⟨some text, sent⟩ ∧
        message <:+: text ∧
        lit "Not enough available licenses (check with 'gua licenses list-skus')"
          <:+: text) := by
  constructor
  · intro hanswer
    obtain ⟨sent, hrun⟩ := AssignLicense_failed env accessToken target addLicenses
      removeLicenses resp hanswer hstatus
    rw [hrun, assignLicenseFailure_envelope env resp message henvelope,
      licenseTest_of_containsFold message hmessage]
    exact ⟨_, sent, rfl, List.infix_append _ _ _,
      counts_within_userLicenseAdvice.trans (List.suffix_append _ _).isInfix⟩
  · intro hanswer
    obtain ⟨sent, hrun⟩ := AssignGroupLicense_failed env accessToken target addLicenses
      removeLicenses resp hanswer hstatus
    rw [hrun, assignGroupLicenseFailure_envelope env resp message henvelope,
      licenseTest_of_containsFold message hmessage]
    exact ⟨_, sent, rfl, List.infix_append _ _ _,
      counts_within_groupLicenseAdvice.trans (List.suffix_append _ _).isInfix⟩

/-- C5 at a 403 response with the message `No available LICENSES`, for the user and the
group operation. -/
theorem C5_license_message_gets_license_advice_witness :
    (∃ text sent,
      AssignLicense (replyEnv 403 (envelopeOf (lit "No available LICENSES"))) (lit "tok")
        (lit "x") [lit "SKU_A"] [] = some ⟨some text, sent⟩ ∧
      lit "No available LICENSES" <:+: text ∧
      lit "Not enough available licenses (check with 'gua licenses list-skus')"
        <:+: text) ∧
    (∃ text sent,
      AssignGroupLicense (replyEnv 403 (envelopeOf (lit "No available LICENSES"))) (lit "tok")
        (lit "x") [lit "SKU_A"] [] = some ⟨some text, sent⟩ ∧
      lit "No available LICENSES" <:+: text ∧
      lit "Not enough available licenses (check with 'gua licenses list-skus')"
        <:+: text) :=
  have h := C5_license_message_gets_license_advice
    (replyEnv 403 (envelopeOf (lit "No available LICENSES"))) (lit "tok") (lit "x")
    [lit "SKU_A"] [] ⟨403, envelopeOf (lit "No available LICENSES"), none⟩
    (lit "No available LICENSES") (by decide) ⟨_, _, rfl, rfl, rfl⟩
    ⟨lit "No available ", lit "LICENSE", lit "S", rfl, rfl⟩
  ⟨h.1 ⟨[], rfl, rfl, rfl⟩, h.2 ⟨[], rfl, rfl, rfl⟩⟩

/-- C6, evaluated: for a 400 response whose message is `usageLocation is not set`,
AssignGroupLicense returns the bare message, while AssignLicense on the same response
appends the usage-location guidance. -/
theorem C6_group_usage_location_not_rewritten :
    (∃ sent, AssignGroupLicense (replyEnv 400 (envelopeOf (lit "usageLocation is not set")))
      (lit "tok") (lit "g1") [lit "SKU_A"] []
      = some ⟨some (lit "group license assignment failed: "
            ++ lit "usageLocation is not set"), sent⟩) ∧
    (∃ sent, AssignLicense (replyEnv 400 (envelopeOf (lit "usageLocation is not set")))
      (lit "tok") (lit "u1") [lit "SKU_A"] []
      = some ⟨some (lit "license assignment failed: " ++ lit "usageLocation is not set"
            ++ userUsageLocationAdvice), sent⟩) :=
  ⟨⟨_, rfl⟩, ⟨_, rfl⟩⟩

theorem not_containsFold_of_contains {s sub : GoString} (h : contains s sub = some false) :
    ¬ ContainsFold s sub := by
  intro hc
  rw [contains_of_containsFold hc] at h
  cases h

theorem assignLicenseFailure_starts_with_message (env : Env) (resp : Response)
    (message : GoString) (h : ErrorEnvelope env resp.Body message) :
    ∃ text, assignLicenseFailure env resp = some text ∧
      lit "license assignment failed: " ++ message <+: text := by
  rw [assignLicenseFailure_envelope env resp message h]
  by_cases hl : ContainsFold message (lit "license")
  · rw [licenseTest_of_containsFold message hl]
    exact ⟨_, rfl, List.prefix_append _ _⟩
  · rw [licenseTest_of_not_containsFold message hl]
    simp only [Option.some_bind, Bool.false_eq_true, if_false]
    by_cases hu : ContainsFold message (lit "usageLocation")
    · rw [contains_of_containsFold hu]
      exact ⟨_, rfl, List.prefix_append _ _⟩
    · rw [contains_of_not_containsFold hu]
      exact ⟨_, rfl, List.prefix_refl _⟩

theorem assignGroupLicenseFailure_starts_with_message (env : Env) (resp : Response)
    (message : GoString) (h : ErrorEnvelope env resp.Body message) :
    ∃ text, assignGroupLicenseFailure env resp = some text ∧
      lit "group license assignment failed: " ++ message <+: text := by
  rw [assignGroupLicenseFailure_envelope env resp message h]
  by_cases hl : ContainsFold message (lit "license")
  · rw [licenseTest_of_containsFold message hl]
    exact ⟨_, rfl, List.prefix_append _ _⟩
  · rw [licenseTest_of_not_containsFold message hl]
    exact ⟨_, rfl, List.prefix_refl _⟩

/-- C8, as stated, fails: for a 400 response whose body is an error envelope with the
message `boom`, the error text of AssignLicense and of AssignGroupLicense contains
neither the status code nor the response body. -/
theorem C8_enveloped_error_drops_status_and_body :
    ((∃ sent, AssignLicense (replyEnv 400 (envelopeOf (lit "boom"))) (lit "tok") (lit "x")
        [lit "SKU_A"] []
      = some ⟨some (lit "license assignment failed: boom"), sent⟩) ∧
      ¬ fmtD 400 <:+: lit "license assignment failed: boom" ∧
      ¬ envelopeOf (lit "boom") <:+: lit "license assignment failed: boom") ∧
    ((∃ sent, AssignGroupLicense (replyEnv 400 (envelopeOf (lit "boom"))) (lit "tok")
        (lit "x") [lit "SKU_A"] []
      = some ⟨some (lit "group license assignment failed: boom"), sent⟩) ∧
      ¬ fmtD 400 <:+: lit "group license assignment failed: boom" ∧
      ¬ envelopeOf (lit "boom") <:+: lit "group license assignment failed: boom") :=
  ⟨⟨⟨_, rfl⟩, by decide, by decide⟩, ⟨⟨_, rfl⟩, by decide, by decide⟩⟩

/-- C8, amended: AssignLicense and AssignGroupLicense, for every non-200 response whose
body yields no string `error.message` (not a JSON object, no object member `error`, or
no string member `message` in it), return an error whose text contains both the decimal
status code and the response body; for a body that is an error envelope with a message,
the error text starts with `license assignment failed: ` (for a group,
`group license assignment failed: `) followed by that message. -/
theorem C8_status_and_body_only_without_message (env : Env)
    (accessToken target : GoString) (addLicenses removeLicenses : List GoString)
    (resp : Response) (hstatus : resp.StatusCode ≠ 200) :
    (AssignAnswered env accessToken
        (baseURL ++ lit "/users/" ++ target ++ lit "/assignLicense")
        addLicenses removeLicenses resp →
      (NoMessage env resp.Body →
        ∃ text sent,
          AssignLicense env accessToken target addLicenses removeLicenses
            = some ⟨some text, sent⟩ ∧
          fmtD resp.StatusCode <:+: text ∧ resp.Body <:+: text) ∧
      (∀ message, ErrorEnvelope env resp.Body message →
        ∃ text sent,
          AssignLicense env accessToken target addLicenses removeLicenses
            = some ⟨some text, sent⟩ ∧
          lit "license assignment failed: " ++ message <+: text)) ∧
    (AssignAnswered env accessToken
        (baseURL ++ lit "/groups/" ++ target ++ lit "/assignLicense")
        addLicenses removeLicenses resp →
      (NoMessage env resp.Body →
        ∃ text sent,
          AssignGroupLicense env accessToken target addLicenses removeLicenses
            = some ⟨some text, sent⟩ ∧
          fmtD resp.StatusCode <:+: text ∧ resp.Body <:+: text) ∧
      (∀ message, ErrorEnvelope env resp.Body message →
        ∃ text sent,
          AssignGroupLicense env accessToken target addLicenses removeLicenses
            = some ⟨some text, sent⟩ ∧
          lit "group license assignment failed: " ++ message <+: text)) := by
  constructor
  · intro hanswer
    obtain ⟨sent, hrun⟩ := AssignLicense_failed env accessToken target addLicenses
      removeLicenses resp hanswer hstatus
    constructor
    · intro hno
      rw [hrun, assignLicenseFailure_noMessage env resp hno]
      exact ⟨_, sent, rfl, (status_body_within _ _ _).1, (status_body_within _ _ _).2⟩
    · intro message henvelope
      obtain ⟨text, ht, hpre⟩ := assignLicenseFailure_starts_with_message env resp message
        henvelope
      rw [hrun, ht]
      exact ⟨text, sent, rfl, hpre⟩
  · intro hanswer
    obtain ⟨sent, hrun⟩ := AssignGroupLicense_failed env accessToken target addLicenses
      removeLicenses resp hanswer hstatus
    constructor
    · intro hno
      rw [hrun, assignGroupLicenseFailure_noMessage env resp hno]
      exact ⟨_, sent, rfl, (status_body_within _ _ _).1, (status_body_within _ _ _).2⟩
    · intro message henvelope
      obtain ⟨text, ht, hpre⟩ := assignGroupLicenseFailure_starts_with_message env resp
        message henvelope
      rw [hrun, ht]
      exact ⟨text, sent, rfl, hpre⟩

/-- C8, amended, at a 500 response with the body `Internal Server Error` (no message)
and at a 400 response with the message `boom`. -/
theorem C8_status_and_body_only_without_message_witness :
    ((∃ text sent,
        AssignLicense (replyEnv 500 (lit "Internal Server Error")) (lit "tok") (lit "x")
          [lit "SKU_A"] [] = some ⟨some text, sent⟩ ∧
        fmtD 500 <:+: text ∧ lit "Internal Server Error" <:+: text) ∧
      (∃ text sent,
        AssignGroupLicense (replyEnv 500 (lit "Internal Server Error")) (lit "tok") (lit "x")
          [lit "SKU_A"] [] = some ⟨some text, sent⟩ ∧
        fmtD 500 <:+: text ∧ lit "Internal Server Error" <:+: text)) ∧
    ((∃ text sent,
        AssignLicense (replyEnv 400 (envelopeOf (lit "boom"))) (lit "tok") (lit "x")
          [lit "SKU_A"] [] = some ⟨some text, sent⟩ ∧
        lit "license assignment failed: " ++ lit "boom" <+: text) ∧
      (∃ text sent,
        AssignGroupLicense (replyEnv 400 (envelopeOf (lit "boom"))) (lit "tok") (lit "x")
          [lit "SKU_A"] [] = some ⟨some text, sent⟩ ∧
        lit "group license assignment failed: " ++ lit "boom" <+: text)) :=
  have h500 := C8_status_and_body_only_without_message
    (replyEnv 500 (lit "Internal Server Error")) (lit "tok") (lit "x") [lit "SKU_A"] []
    ⟨500, lit "Internal Server Error", none⟩ (by decide)
  have h400 := C8_status_and_body_only_without_message
    (replyEnv 400 (envelopeOf (lit "boom"))) (lit "tok") (lit "x") [lit "SKU_A"] []
    ⟨400, envelopeOf (lit "boom"), none⟩ (by decide)
  ⟨⟨(h500.1 ⟨[], rfl, rfl, rfl⟩).1 (Or.inl ⟨_, rfl⟩),
    (h500.2 ⟨[], rfl, rfl, rfl⟩).1 (Or.inl ⟨_, rfl⟩)⟩,
   ⟨(h400.1 ⟨[], rfl, rfl, rfl⟩).2 (lit "boom") ⟨_, _, rfl, rfl, rfl⟩,
    (h400.2 ⟨[], rfl, rfl, rfl⟩).2 (lit "boom") ⟨_, _, rfl, rfl, rfl⟩⟩⟩

/-- C9: AssignLicense, on a non-200 response of neither known failure class: if the body
is an error envelope whose message contains neither `license` nor `usageLocation` up to
letter case, the error text is exactly `license assignment failed: ` followed by the
message; if the body yields no message, the error text is exactly
`failed to assign license (status <code>): <body>`. -/
theorem C9_unclassified_failure_text (env : Env)
    (accessToken userPrincipalName : GoString) (addLicenses removeLicenses : List GoString)
    (resp : Response)
    (hanswer : AssignAnswered env accessToken
      (baseURL ++ lit "/users/" ++ userPrincipalName ++ lit "/assignLicense")
      addLicenses removeLicenses resp)
    (hstatus : resp.StatusCode ≠ 200) :
    (∀ message, ErrorEnvelope env resp.Body message →
      ¬ ContainsFold message (lit "license") →
      ¬ ContainsFold message (lit "usageLocation") →
      ∃ sent, AssignLicense env accessToken userPrincipalName addLicenses removeLicenses
        = some ⟨some (lit "license assignment failed: " ++ message), sent⟩) ∧
    (NoMessage env resp.Body →
      ∃ sent, AssignLicense env accessToken userPrincipalName addLicenses removeLicenses
        = some ⟨some (lit "failed to assign license (status " ++ fmtD resp.StatusCode
            ++ lit "): " ++ resp.Body), sent⟩) := by
  obtain ⟨sent, hrun⟩ := AssignLicense_failed env accessToken userPrincipalName addLicenses
    removeLicenses resp hanswer hstatus
  constructor
  · intro message henvelope hl hu
    rw [hrun, assignLicenseFailure_envelope env resp message henvelope,
      licenseTest_of_not_containsFold message hl]
    simp only [Option.some_bind, Bool.false_eq_true, if_false]
    rw [contains_of_not_containsFold hu]
    exact ⟨sent, rfl⟩
  · intro hno
    rw [hrun, assignLicenseFailure_noMessage env resp hno]
    exact ⟨sent, rfl⟩

/-- C9 at a 400 response with the message `boom` and at a 502 response with the body
`Bad Gateway`. -/
theorem C9_unclassified_failure_text_witness :
    (∃ sent, AssignLicense (replyEnv 400 (envelopeOf (lit "boom"))) (lit "tok") (lit "x")
      [lit "SKU_A"] []
      = some ⟨some (lit "license assignment failed: " ++ lit "boom"), sent⟩) ∧
    (∃ sent, AssignLicense (replyEnv 502 (lit "Bad Gateway")) (lit "tok") (lit "x")
      [lit "SKU_A"] []
      = some ⟨some (lit "failed to assign license (status " ++ fmtD 502 ++ lit "): "
          ++ lit "Bad Gateway"), sent⟩) :=
  ⟨(C9_unclassified_failure_text (replyEnv 400 (envelopeOf (lit "boom"))) (lit "tok")
      (lit "x") [lit "SKU_A"] [] ⟨400, envelopeOf (lit "boom"), none⟩ ⟨[], rfl, rfl, rfl⟩
      (by decide)).1 (lit "boom") ⟨_, _, rfl, rfl, rfl⟩
      (not_containsFold_of_contains (by decide))
      (not_containsFold_of_contains (by decide)),
   (C9_unclassified_failure_text (replyEnv 502 (lit "Bad Gateway")) (lit "tok")
      (lit "x") [lit "SKU_A"] [] ⟨502, lit "Bad Gateway", none⟩ ⟨[], rfl, rfl, rfl⟩
      (by decide)).2 (Or.inl ⟨_, rfl⟩)⟩

/-! ## Single-resource operations: claim C7 -/

/-- C7: for GetUser, CreateUser, UpdateUser, DeleteUser, GetUserLicenses,
GetGroupLicenses, AddMemberToGroup and RemoveMemberFromGroup, whenever the transport
answers with a response whose status is not the success code of the operation (and whose
body was read), the operation returns an error whose text contains both the decimal
status code and the complete response body. -/
theorem C7_unexpected_status_reports_code_and_body (env : Env) (accessToken : GoString)
    (resp : Response) :
    (∀ upn, Answered env (lit "GET") (baseURL ++ lit "/users/" ++ upn) accessToken none resp →
      resp.ReadErr = none → resp.StatusCode ≠ 200 →
      FailsWith (GetUser env accessToken upn).ret.2 resp) ∧
    (∀ displayName upn mailNickname password forceChange jsonData,
      env.marshal (.createUser
        { AccountEnabled := true, DisplayName := displayName, MailNickname := mailNickname,
          UserPrincipalName := upn,
          PasswordProfile :=
            { ForceChangePasswordNextSignIn := forceChange, Password := password } })
        = .ok jsonData →
      Answered env (lit "POST") (baseURL ++ lit "/users") accessToken (some jsonData) resp →
      resp.ReadErr = none → resp.StatusCode ≠ 201 →
      FailsWith (CreateUser env accessToken displayName upn mailNickname password
        forceChange).ret.2 resp) ∧
    (∀ upn properties jsonData, env.marshal (.properties properties) = .ok jsonData →
      Answered env (lit "PATCH") (baseURL ++ lit "/users/" ++ upn) accessToken
        (some jsonData) resp →
      resp.StatusCode ≠ 204 →
      FailsWith (UpdateUser env accessToken upn properties).ret resp) ∧
    (∀ upn, Answered env (lit "DELETE") (baseURL ++ lit "/users/" ++ upn) accessToken none
        resp →
      resp.StatusCode ≠ 204 →
      FailsWith (DeleteUser env accessToken upn).ret resp) ∧
    (∀ upn, Answered env (lit "GET") (baseURL ++ lit "/users/" ++ upn ++ lit "/licenseDetails")
        accessToken none resp →
      resp.ReadErr = none → resp.StatusCode ≠ 200 →
      FailsWith (GetUserLicenses env accessToken upn).ret.2 resp) ∧
    (∀ groupID, Answered env (lit "GET")
        (baseURL ++ lit "/groups/" ++ groupID ++ lit "/assignedLicenses") accessToken none
        resp →
      resp.ReadErr = none → resp.StatusCode ≠ 200 →
      FailsWith (GetGroupLicenses env accessToken groupID).ret.2 resp) ∧
    (∀ groupID userID jsonData,
      env.marshal (.memberRef
        [(lit "@odata.id",
          lit "https://graph.microsoft.com/v1.0/directoryObjects/" ++ userID)])
        = .ok jsonData →
      Answered env (lit "POST") (baseURL ++ lit "/groups/" ++ groupID ++ lit "/members/$ref")
        accessToken (some jsonData) resp →
      resp.StatusCode ≠ 204 →
      FailsWith (AddMemberToGroup env accessToken groupID userID).ret resp) ∧
    (∀ groupID userID, Answered env (lit "DELETE")
        (baseURL ++ lit "/groups/" ++ groupID ++ lit "/members/" ++ userID ++ lit "/$ref")
        accessToken none resp →
      resp.StatusCode ≠ 204 →
      FailsWith (RemoveMemberFromGroup env accessToken groupID userID).ret resp) := by
  refine ⟨?_, ?_, ?_, ?_, ?_, ?_, ?_, ?_⟩
  · rintro upn ⟨h1, h2⟩ hr hs
    unfold GetUser
    simp only [h1, h2, hr]
    rw [if_pos hs]
    exact ⟨_, rfl, status_body_within _ _ _⟩
  · rintro displayName upn mailNickname password forceChange jsonData hm ⟨h1, h2⟩ hr hs
    unfold CreateUser
    simp only [hm, h1, h2, hr]
    rw [if_pos hs]
    exact ⟨_, rfl, status_body_within _ _ _⟩
  · rintro upn properties jsonData hm ⟨h1, h2⟩ hs
    unfold UpdateUser
    simp only [hm, h1, h2]
    rw [if_pos hs]
    exact ⟨_, rfl, status_body_within _ _ _⟩
  · rintro upn ⟨h1, h2⟩ hs
    unfold DeleteUser
    simp only [h1, h2]
    rw [if_pos hs]
    exact ⟨_, rfl, status_body_within _ _ _⟩
  · rintro upn ⟨h1, h2⟩ hr hs
    unfold GetUserLicenses
    simp only [h1, h2, hr]
    rw [if_pos hs]
    exact ⟨_, rfl, status_body_within _ _ _⟩
  · rintro groupID ⟨h1, h2⟩ hr hs
    unfold GetGroupLicenses
    simp only [h1, h2, hr]
    rw [if_pos hs]
    exact ⟨_, rfl, status_body_within _ _ _⟩
  · rintro groupID userID jsonData hm ⟨h1, h2⟩ hs
    unfold AddMemberToGroup
    simp only [hm, h1, h2]
    rw [if_pos hs]
    exact ⟨_, rfl, status_body_within _ _ _⟩
  · rintro groupID userID ⟨h1, h2⟩ hs
    unfold RemoveMemberFromGroup
    simp only [h1, h2]
    rw [if_pos hs]
    exact ⟨_, rfl, status_body_within _ _ _⟩

/-- C7 at a server that answers every request with status 404 and the body
`not found`. -/
theorem C7_unexpected_status_reports_code_and_body_witness :
    FailsWith (GetUser (replyEnv 404 (lit "not found")) (lit "tok") (lit "x")).ret.2
      ⟨404, lit "not found", none⟩ ∧
    FailsWith (CreateUser (replyEnv 404 (lit "not found")) (lit "tok") (lit "X") (lit "x")
      (lit "x") (lit "pw") true).ret.2 ⟨404, lit "not found", none⟩ ∧
    FailsWith (UpdateUser (replyEnv 404 (lit "not found")) (lit "tok") (lit "x") []).ret
      ⟨404, lit "not found", none⟩ ∧
    FailsWith (DeleteUser (replyEnv 404 (lit "not found")) (lit "tok") (lit "x")).ret
      ⟨404, lit "not found", none⟩ ∧
    FailsWith (GetUserLicenses (replyEnv 404 (lit "not found")) (lit "tok") (lit "x")).ret.2
      ⟨404, lit "not found", none⟩ ∧
    FailsWith (GetGroupLicenses (replyEnv 404 (lit "not found")) (lit "tok") (lit "g")).ret.2
      ⟨404, lit "not found", none⟩ ∧
    FailsWith (AddMemberToGroup (replyEnv 404 (lit "not found")) (lit "tok") (lit "g")
      (lit "u")).ret ⟨404, lit "not found", none⟩ ∧
    FailsWith (RemoveMemberFromGroup (replyEnv 404 (lit "not found")) (lit "tok") (lit "g")
      (lit "u")).ret ⟨404, lit "not found", none⟩ :=
  have h := C7_unexpected_status_reports_code_and_body (replyEnv 404 (lit "not found"))
    (lit "tok") ⟨404, lit "not found", none⟩
  ⟨h.1 (lit "x") ⟨rfl, rfl⟩ rfl (by decide),
   h.2.1 (lit "X") (lit "x") (lit "x") (lit "pw") true [] rfl ⟨rfl, rfl⟩ rfl (by decide),
   h.2.2.1 (lit "x") [] [] rfl ⟨rfl, rfl⟩ (by decide),
   h.2.2.2.1 (lit "x") ⟨rfl, rfl⟩ (by decide),
   h.2.2.2.2.1 (lit "x") ⟨rfl, rfl⟩ rfl (by decide),
   h.2.2.2.2.2.1 (lit "g") ⟨rfl, rfl⟩ rfl (by decide),
   h.2.2.2.2.2.2.1 (lit "g") (lit "u") [] rfl ⟨rfl, rfl⟩ (by decide),
   h.2.2.2.2.2.2.2 (lit "g") (lit "u") ⟨rfl, rfl⟩ (by decide)⟩

/-! ## Config validation: claim C10 -/

theorem missingFields_eq_filter (cfg : Config) :
    missingFields cfg
      = ([(lit "tenantId", cfg.TenantID), (lit "clientId", cfg.ClientID),
          (lit "clientSecret", cfg.ClientSecret)].filter
            (fun field => decide (field.2 = []))).map Prod.fst := by
  unfold missingFields
  by_cases h1 : cfg.TenantID = [] <;> by_cases h2 : cfg.ClientID = [] <;>
    by_cases h3 : cfg.ClientSecret = [] <;> simp [h1, h2, h3, List.filter]

set_option maxRecDepth 8000 in
theorem populated_names_absent :
    ∀ b1 b2 b3 : Bool,
      let text := lit "config file is missing required fields: "
        ++ fmtV ((if b1 then [lit "tenantId"] else [])
            ++ (if b2 then [lit "clientId"] else [])
            ++ (if b3 then [lit "clientSecret"] else []))
        ++ lit "\n\nSee config.json.example for the required format"
      (b1 = false → ¬ lit "tenantId" <:+: text) ∧
      (b2 = false → ¬ lit "clientId" <:+: text) ∧
      (b3 = false → ¬ lit "clientSecret" <:+: text) := by
  decide

theorem missingFields_eq_flags (cfg : Config) :
    missingFields cfg
      = (if decide (cfg.TenantID = []) then [lit "tenantId"] else [])
        ++ (if decide (cfg.ClientID = []) then [lit "clientId"] else [])
        ++ (if decide (cfg.ClientSecret = []) then [lit "clientSecret"] else []) := by
  unfold missingFields
  by_cases h1 : cfg.TenantID = [] <;> by_cases h2 : cfg.ClientID = [] <;>
    by_cases h3 : cfg.ClientSecret = [] <;> simp [h1, h2, h3]

/-- C10: for every decoded configuration, LoadConfig returns the configuration without
error iff the three strings are non-empty; otherwise it returns an error whose field
list holds exactly the names of the empty fields, in the order tenantId, clientId,
clientSecret, each once, and whose text contains the name of no populated field. -/
theorem C10_config_validation (env : Env) (path data : GoString) (cfg : Config)
    (hstat : env.statIsNotExist path = false)
    (hread : env.readFile path = .ok data)
    (hdecode : env.unmarshalConfig data = .ok cfg) :
    ((LoadConfig env path).2 = none ↔
      (cfg.TenantID ≠ [] ∧ cfg.ClientID ≠ [] ∧ cfg.ClientSecret ≠ [])) ∧
    ((cfg.TenantID ≠ [] ∧ cfg.ClientID ≠ [] ∧ cfg.ClientSecret ≠ []) →
      LoadConfig env path = (some cfg, none)) ∧
    (¬ (cfg.TenantID ≠ [] ∧ cfg.ClientID ≠ [] ∧ cfg.ClientSecret ≠ []) →
      ∃ names text,
        LoadConfig env path = (none, some text) ∧
        text = lit "config file is missing required fields: " ++ fmtV names
          ++ lit "\n\nSee config.json.example for the required format" ∧
        names = ([(lit "tenantId", cfg.TenantID), (lit "clientId", cfg.ClientID),
          (lit "clientSecret", cfg.ClientSecret)].filter
            (fun field => decide (field.2 = []))).map Prod.fst ∧
        (cfg.TenantID ≠ [] → ¬ lit "tenantId" <:+: text) ∧
        (cfg.ClientID ≠ [] → ¬ lit "clientId" <:+: text) ∧
        (cfg.ClientSecret ≠ [] → ¬ lit "clientSecret" <:+: text)) := by
  have hrun : LoadConfig env path =
      if (missingFields cfg).length > 0 then
        (none, some (lit "config file is missing required fields: "
          ++ fmtV (missingFields cfg)
          ++ lit "\n\nSee config.json.example for the required format"))
      else (some cfg, none) := by
    unfold LoadConfig
    simp only [hstat, hread, hdecode]
    rfl
  have hlen : (missingFields cfg).length > 0 ↔
      ¬ (cfg.TenantID ≠ [] ∧ cfg.ClientID ≠ [] ∧ cfg.ClientSecret ≠ []) := by
    rw [missingFields_eq_flags]
    by_cases h1 : cfg.TenantID = [] <;> by_cases h2 : cfg.ClientID = [] <;>
      by_cases h3 : cfg.ClientSecret = [] <;> simp [h1, h2, h3]
  refine ⟨?_, ?_, ?_⟩
  · rw [hrun]
    by_cases hall : cfg.TenantID ≠ [] ∧ cfg.ClientID ≠ [] ∧ cfg.ClientSecret ≠ []
    · rw [if_neg (fun h => (hlen.1 h) hall)]
      exact ⟨fun _ => hall, fun _ => rfl⟩
    · rw [if_pos (hlen.2 hall)]
      exact ⟨fun h => (by cases h), fun h => absurd h hall⟩
  · intro hall
    rw [hrun, if_neg (fun h => (hlen.1 h) hall)]
  · intro hall
    refine ⟨missingFields cfg, _, ?_, rfl, missingFields_eq_filter cfg, ?_⟩
    · rw [hrun, if_pos (hlen.2 hall)]
    · have h := populated_names_absent (decide (cfg.TenantID = [])) (decide (cfg.ClientID = []))
        (decide (cfg.ClientSecret = []))
      simp only [← missingFields_eq_flags cfg] at h
      refine ⟨fun h1 => h.1 (by simpa using h1), fun h2 => h.2.1 (by simpa using h2),
        fun h3 => h.2.2 (by simpa using h3)⟩

/-- C10 at a configuration whose `clientId` is empty, and at a complete one. -/
theorem C10_config_validation_witness :
    (∃ names text,
      LoadConfig (configEnv ⟨lit "t-1", [], lit "s3cret"⟩) (lit "config.json")
        = (none, some text) ∧
      text = lit "config file is missing required fields: " ++ fmtV names
        ++ lit "\n\nSee config.json.example for the required format" ∧
      names = [lit "clientId"] ∧
      ¬ lit "tenantId" <:+: text ∧ ¬ lit "clientSecret" <:+: text) ∧
    LoadConfig (configEnv ⟨lit "t-1", lit "c-1", lit "s3cret"⟩) (lit "config.json")
      = (some ⟨lit "t-1", lit "c-1", lit "s3cret"⟩, none) :=
  ⟨by
    obtain ⟨names, text, h1, h2, h3, h4, _, h6⟩ :=
      (C10_config_validation (configEnv ⟨lit "t-1", [], lit "s3cret"⟩) (lit "config.json")
        (lit "config") ⟨lit "t-1", [], lit "s3cret"⟩ rfl rfl rfl).2.2 (by decide)
    exact ⟨names, text, h1, h2, h3, h4 (by decide), h6 (by decide)⟩,
   (C10_config_validation (configEnv ⟨lit "t-1", lit "c-1", lit "s3cret"⟩)
      (lit "config.json") (lit "config") ⟨lit "t-1", lit "c-1", lit "s3cret"⟩
      rfl rfl rfl).2.1 (by decide)⟩

/-! ## The substring helper: claims C15, C19, C20 -/

theorem toLower_eq_asciiLower : toLower = asciiLower :=
  funext toLower_eq_fold

theorem window_eq_iff_matchesAt (s substr : GoString) (i : Nat) :
    ((s.drop i).take substr.length).map toLower = substr.map toLower ↔
      MatchesAt s substr i := by
  rw [toLower_eq_asciiLower]
  constructor
  · intro h j hj
    have h2 := congrArg (fun l => l[j]?) h
    simp only [List.getElem?_map, List.getElem?_take_of_lt hj, List.getElem?_drop] at h2
    exact h2
  · intro h
    apply List.ext_getElem?
    intro j
    by_cases hj : j < substr.length
    · simp only [List.getElem?_map, List.getElem?_take_of_lt hj, List.getElem?_drop]
      exact h j hj
    · have h1 : (List.map asciiLower (List.take substr.length (List.drop i s))).length ≤ j := by
        simp; omega
      have h2 : (List.map asciiLower substr).length ≤ j := by simp; omega
      rw [List.getElem?_eq_none h1, List.getElem?_eq_none h2]

/-- C15: `contains(s, substr)` returns, and returns true iff there is an offset `i` with
`0 <= i <= len(s) - len(substr)` such that for every `j < len(substr)` the
ASCII-lowercased byte `s[i+j]` equals the ASCII-lowercased byte `substr[j]`; it is true
for every `s` when `substr` is empty and false whenever `substr` is longer than `s`. -/
theorem C15_contains_is_case_insensitive_search (s substr : GoString) :
    ∃ b, contains s substr = some b ∧
      (b = true ↔ ∃ i, i + substr.length ≤ s.length ∧ MatchesAt s substr i) ∧
      (substr = [] → b = true) ∧
      (s.length < substr.length → b = false) := by
  obtain ⟨b, hb, hiff⟩ := contains_spec s substr
  have hpos : b = true ↔ ∃ i, i + substr.length ≤ s.length ∧ MatchesAt s substr i := by
    rw [hiff, containsFold_iff_at]
    constructor
    · rintro ⟨p, hp, h⟩; exact ⟨p, hp, (window_eq_iff_matchesAt s substr p).1 h⟩
    · rintro ⟨p, hp, h⟩; exact ⟨p, hp, (window_eq_iff_matchesAt s substr p).2 h⟩
  refine ⟨b, hb, hpos, ?_, ?_⟩
  · intro he
    subst he
    exact hpos.2 ⟨0, by simp, fun j hj => absurd hj (by simp)⟩
  · intro hlt
    cases b with
    | false => rfl
    | true =>
      obtain ⟨i, hi, _⟩ := hpos.1 rfl
      omega

/-- C15 at `s = "No LICENSE left"` and `substr = "license"`, which matches at offset 3. -/
theorem C15_contains_is_case_insensitive_search_witness :
    contains (lit "No LICENSE left") (lit "license") = some true ∧
    (∃ i, i + (lit "license").length ≤ (lit "No LICENSE left").length ∧
      MatchesAt (lit "No LICENSE left") (lit "license") i) := by
  obtain ⟨b, hb, hiff, _, _⟩ :=
    C15_contains_is_case_insensitive_search (lit "No LICENSE left") (lit "license")
  have hrun : contains (lit "No LICENSE left") (lit "license") = some true := by decide
  have hbt : b = true := by
    rw [hrun] at hb
    exact (Option.some.inj hb).symm
  exact ⟨hrun, hiff.1 hbt⟩

theorem findSubstring_total (s substr : GoString) : ∃ b, findSubstring s substr = some b := by
  by_cases hlen : substr.length ≤ s.length
  · obtain ⟨b, hb, _⟩ :=
      findSubstringLoop_spec s substr hlen (s.length + 1 - substr.length) 0 (by omega)
    exact ⟨b, hb⟩
  · have h0 : s.length + 1 - substr.length = 0 := by omega
    exact ⟨false, by unfold findSubstring; rw [h0]; rfl⟩

/-- C19: the substring helper never indexes out of bounds. For all `s` and `substr`,
`findSubstring` and `contains` return a value (an access out of range would be a panic),
`matchAt` returns at every position `pos` with `pos + len(substr) <= len(s)`, the loop
of `findSubstring` does not run when `substr` is longer than `s`, and `toLower` adds 32
only to bytes in `A`..`Z`, where the sum stays below 256. -/
theorem C19_substring_helper_stays_in_bounds (s substr : GoString) :
    (∃ b, findSubstring s substr = some b) ∧
    (∃ b, contains s substr = some b) ∧
    (∀ pos, pos + substr.length ≤ s.length → ∃ b, matchAt s substr pos = some b) ∧
    (s.length < substr.length →
      s.length + 1 - substr.length = 0 ∧ findSubstring s substr = some false) ∧
    (∀ c, toLower c ≠ c → (65 ≤ c ∧ c ≤ 90) ∧ c + 32 ≤ 255 ∧ toLower c = c + 32) := by
  refine ⟨findSubstring_total s substr, ?_, ?_, ?_, ?_⟩
  · obtain ⟨b, hb, _⟩ := contains_spec s substr
    exact ⟨b, hb⟩
  · intro pos hpos
    exact ⟨_, matchAt_spec s substr pos hpos⟩
  · intro hlt
    have h0 : s.length + 1 - substr.length = 0 := by omega
    exact ⟨h0, by unfold findSubstring; rw [h0]; rfl⟩
  · intro c hc
    rw [toLower_eq_fold] at hc ⊢
    by_cases h : 65 ≤ c ∧ c ≤ 90
    · rw [if_pos h]
      exact ⟨h, by omega, rfl⟩
    · rw [if_neg h] at hc
      exact absurd rfl hc

/-- C19 at `s = "Zebra"` and `substr = "zebra crossing"` (the longer one), and at the
byte `Z`. -/
theorem C19_substring_helper_stays_in_bounds_witness :
    findSubstring (lit "Zebra") (lit "zebra crossing") = some false ∧
    (90 + 32 ≤ 255 ∧ toLower 90 = 90 + 32) :=
  have h := C19_substring_helper_stays_in_bounds (lit "Zebra") (lit "zebra crossing")
  ⟨(h.2.2.2.1 (by decide)).2, (h.2.2.2.2 90 (by decide)).2⟩

theorem assignLicenseFailure_cases (env : Env) (resp : Response) (message : GoString)
    (h : ErrorEnvelope env resp.Body message) :
    (ContainsFold message (lit "license") →
      assignLicenseFailure env resp
        = some (lit "license assignment failed: " ++ message ++ userLicenseAdvice)) ∧
    (¬ ContainsFold message (lit "license") → ContainsFold message (lit "usageLocation") →
      assignLicenseFailure env resp
        = some (lit "license assignment failed: " ++ message ++ userUsageLocationAdvice)) ∧
    (¬ ContainsFold message (lit "license") → ¬ ContainsFold message (lit "usageLocation") →
      assignLicenseFailure env resp = some (lit "license assignment failed: " ++ message)) := by
  rw [assignLicenseFailure_envelope env resp message h]
  refine ⟨?_, ?_, ?_⟩
  · intro hl
    rw [licenseTest_of_containsFold message hl]
    rfl
  · intro hl hu
    rw [licenseTest_of_not_containsFold message hl]
    simp only [Option.some_bind, Bool.false_eq_true, if_false]
    rw [contains_of_containsFold hu]
    rfl
  · intro hl hu
    rw [licenseTest_of_not_containsFold message hl]
    simp only [Option.some_bind, Bool.false_eq_true, if_false]
    rw [contains_of_not_containsFold hu]
    rfl

/-- C20: the first disjunct of the license test is redundant. For every message,
`contains(m, "No available licenses")` implies `contains(m, "license")`, so the
disjunction evaluates to `contains(m, "license")`; and in AssignLicense, for a non-200
response with message `m`, the error with the usage-location advice is returned iff
`m` contains `usageLocation` and does not contain `license`, as `contains` sees it. -/
theorem C20_license_test_first_disjunct_redundant (message : GoString) :
    (contains message (lit "No available licenses") = some true →
      contains message (lit "license") = some true) ∧
    ((contains message (lit "No available licenses")).bind (fun c1 =>
        if c1 then some true else contains message (lit "license"))
      = contains message (lit "license")) ∧
    (∀ (env : Env) (accessToken userPrincipalName : GoString)
      (addLicenses removeLicenses : List GoString) (resp : Response),
      AssignAnswered env accessToken
        (baseURL ++ lit "/users/" ++ userPrincipalName ++ lit "/assignLicense")
        addLicenses removeLicenses resp →
      resp.StatusCode ≠ 200 →
      ErrorEnvelope env resp.Body message →
      ((∃ sent, AssignLicense env accessToken userPrincipalName addLicenses removeLicenses
          = some ⟨some (lit "license assignment failed: " ++ message
              ++ userUsageLocationAdvice), sent⟩) ↔
        (contains message (lit "usageLocation") = some true ∧
          contains message (lit "license") = some false))) := by
  have himp : contains message (lit "No available licenses") = some true →
      contains message (lit "license") = some true := by
    intro h
    obtain ⟨b, hb, hiff⟩ := contains_spec message (lit "No available licenses")
    rw [h] at hb
    have hbt : b = true := (Option.some.inj hb).symm
    exact contains_of_containsFold
      (containsFold_license_of_no_available message (hiff.1 hbt))
  have hdisj : (contains message (lit "No available licenses")).bind (fun c1 =>
        if c1 then some true else contains message (lit "license"))
      = contains message (lit "license") := by
    by_cases hl : ContainsFold message (lit "license")
    · rw [licenseTest_of_containsFold message hl, contains_of_containsFold hl]
    · rw [licenseTest_of_not_containsFold message hl, contains_of_not_containsFold hl]
  refine ⟨himp, hdisj, ?_⟩
  intro env accessToken upn addLicenses removeLicenses resp hanswer hstatus henvelope
  obtain ⟨sent, hrun⟩ := AssignLicense_failed env accessToken upn addLicenses
    removeLicenses resp hanswer hstatus
  obtain ⟨h1, h2, h3⟩ := assignLicenseFailure_cases env resp message henvelope
  have hadv1 : userLicenseAdvice ≠ userUsageLocationAdvice := by decide
  have hadv2 : userUsageLocationAdvice ≠ [] := by decide
  rw [hrun]
  by_cases hl : ContainsFold message (lit "license")
  · rw [h1 hl]
    constructor
    · rintro ⟨sent2, h⟩
      have e := congrArg (fun r => r.map Ran.ret) h
      simp only [Option.map_some', Option.some.injEq, List.append_cancel_left_eq] at e
      exact absurd e hadv1
    · rintro ⟨_, h⟩
      rw [contains_of_containsFold hl] at h
      cases h
  · by_cases hu : ContainsFold message (lit "usageLocation")
    · rw [h2 hl hu]
      exact ⟨fun _ => ⟨contains_of_containsFold hu, contains_of_not_containsFold hl⟩,
        fun _ => ⟨sent, rfl⟩⟩
    · rw [h3 hl hu]
      constructor
      · rintro ⟨sent2, h⟩
        have e := congrArg (fun r => r.map Ran.ret) h
        simp only [Option.map_some', Option.some.injEq] at e
        have e2 := congrArg List.length e
        simp only [List.length_append] at e2
        have e3 : userUsageLocationAdvice.length ≠ 0 := by
          intro h0; exact hadv2 (List.length_eq_zero.mp h0)
        omega
      · rintro ⟨h, _⟩
        rw [contains_of_not_containsFold hu] at h
        cases h

/-- C20 at a 400 response with the message `No available licenses for usageLocation`,
which takes the license branch. -/
theorem C20_license_test_first_disjunct_redundant_witness :
    contains (lit "No available licenses for usageLocation") (lit "license") = some true ∧
    ¬ ∃ sent,
      AssignLicense (replyEnv 400 (envelopeOf (lit "No available licenses for usageLocation")))
        (lit "tok") (lit "x") [lit "SKU_A"] []
      = some ⟨some (lit "license assignment failed: "
          ++ lit "No available licenses for usageLocation" ++ userUsageLocationAdvice),
          sent⟩ :=
  have h := C20_license_test_first_disjunct_redundant
    (lit "No available licenses for usageLocation")
  ⟨h.1 (by decide),
   fun hex =>
    absurd ((h.2.2 (replyEnv 400 (envelopeOf (lit "No available licenses for usageLocation")))
      (lit "tok") (lit "x") [lit "SKU_A"] []
      ⟨400, envelopeOf (lit "No available licenses for usageLocation"), none⟩
      ⟨[], rfl, rfl, rfl⟩ (by decide) ⟨_, _, rfl, rfl, rfl⟩).1 hex).2 (by decide)⟩

/-! ## Single-resource operations: claims C12, C13, C16 -/

/-- C12: each single-resource operation accepts exactly one status code as success.
Given the response of the transport, UpdateUser, DeleteUser, AddMemberToGroup and
RemoveMemberFromGroup return no error iff the status is 204; GetUser returns the entity
decoded from the body iff the status is 200 and the body decodes, CreateUser iff the
status is 201 and the body decodes; in every other case they return an error and no
entity. -/
theorem C12_one_success_code_per_operation (env : Env) (accessToken : GoString)
    (resp : Response) :
    (∀ upn properties jsonData, env.marshal (.properties properties) = .ok jsonData →
      Answered env (lit "PATCH") (baseURL ++ lit "/users/" ++ upn) accessToken
        (some jsonData) resp →
      ((UpdateUser env accessToken upn properties).ret = none ↔ resp.StatusCode = 204)) ∧
    (∀ upn, Answered env (lit "DELETE") (baseURL ++ lit "/users/" ++ upn) accessToken none
        resp →
      ((DeleteUser env accessToken upn).ret = none ↔ resp.StatusCode = 204)) ∧
    (∀ groupID userID jsonData,
      env.marshal (.memberRef
        [(lit "@odata.id",
          lit "https://graph.microsoft.com/v1.0/directoryObjects/" ++ userID)])
        = .ok jsonData →
      Answered env (lit "POST") (baseURL ++ lit "/groups/" ++ groupID ++ lit "/members/$ref")
        accessToken (some jsonData) resp →
      ((AddMemberToGroup env accessToken groupID userID).ret = none ↔
        resp.StatusCode = 204)) ∧
    (∀ groupID userID, Answered env (lit "DELETE")
        (baseURL ++ lit "/groups/" ++ groupID ++ lit "/members/" ++ userID ++ lit "/$ref")
        accessToken none resp →
      ((RemoveMemberFromGroup env accessToken groupID userID).ret = none ↔
        resp.StatusCode = 204)) ∧
    (∀ upn, Answered env (lit "GET") (baseURL ++ lit "/users/" ++ upn) accessToken none resp →
      resp.ReadErr = none →
      (∀ user, (GetUser env accessToken upn).ret = (some user, none) ↔
        (resp.StatusCode = 200 ∧ env.unmarshalUser resp.Body = .ok user)) ∧
      (¬ (resp.StatusCode = 200 ∧ ∃ user, env.unmarshalUser resp.Body = .ok user) →
        ∃ text, (GetUser env accessToken upn).ret = (none, some text))) ∧
    (∀ displayName upn mailNickname password forceChange jsonData,
      env.marshal (.createUser
        { AccountEnabled := true, DisplayName := displayName, MailNickname := mailNickname,
          UserPrincipalName := upn,
          PasswordProfile :=
            { ForceChangePasswordNextSignIn := forceChange, Password := password } })
        = .ok jsonData →
      Answered env (lit "POST") (baseURL ++ lit "/users") accessToken (some jsonData) resp →
      resp.ReadErr = none →
      (∀ user, (CreateUser env accessToken displayName upn mailNickname password
          forceChange).ret = (some user, none) ↔
        (resp.StatusCode = 201 ∧ env.unmarshalUser resp.Body = .ok user)) ∧
      (¬ (resp.StatusCode = 201 ∧ ∃ user, env.unmarshalUser resp.Body = .ok user) →
        ∃ text, (CreateUser env accessToken displayName upn mailNickname password
          forceChange).ret = (none, some text))) := by
  refine ⟨?_, ?_, ?_, ?_, ?_, ?_⟩
  · rintro upn properties jsonData hm ⟨h1, h2⟩
    unfold UpdateUser
    simp only [hm, h1, h2]
    by_cases hs : resp.StatusCode = 204
    · simp [hs]
    · rw [if_pos hs]; simp [hs]
  · rintro upn ⟨h1, h2⟩
    unfold DeleteUser
    simp only [h1, h2]
    by_cases hs : resp.StatusCode = 204
    · simp [hs]
    · rw [if_pos hs]; simp [hs]
  · rintro groupID userID jsonData hm ⟨h1, h2⟩
    unfold AddMemberToGroup
    simp only [hm, h1, h2]
    by_cases hs : resp.StatusCode = 204
    · simp [hs]
    · rw [if_pos hs]; simp [hs]
  · rintro groupID userID ⟨h1, h2⟩
    unfold RemoveMemberFromGroup
    simp only [h1, h2]
    by_cases hs : resp.StatusCode = 204
    · simp [hs]
    · rw [if_pos hs]; simp [hs]
  · rintro upn ⟨h1, h2⟩ hr
    unfold GetUser
    simp only [h1, h2, hr]
    by_cases hs : resp.StatusCode = 200
    · rw [if_neg (by simpa using hs)]
      cases hd : env.unmarshalUser resp.Body with
      | error e => simp [hs]
      | ok u => simp [hs]
    · rw [if_pos hs]; simp [hs]
  · rintro displayName upn mailNickname password forceChange jsonData hm ⟨h1, h2⟩ hr
    unfold CreateUser
    simp only [hm, h1, h2, hr]
    by_cases hs : resp.StatusCode = 201
    · rw [if_neg (by simpa using hs)]
      cases hd : env.unmarshalUser resp.Body with
      | error e => simp [hs]
      | ok u => simp [hs]
    · rw [if_pos hs]; simp [hs]

/-- C12 at servers that answer every request with 204, 200 and 201. -/
theorem C12_one_success_code_per_operation_witness :
    (UpdateUser (aliceEnv 204) (lit "tok") (lit "x") []).ret = none ∧
    (UpdateUser (aliceEnv 200) (lit "tok") (lit "x") []).ret ≠ none ∧
    (DeleteUser (aliceEnv 204) (lit "tok") (lit "x")).ret = none ∧
    (DeleteUser (aliceEnv 200) (lit "tok") (lit "x")).ret ≠ none ∧
    (AddMemberToGroup (aliceEnv 204) (lit "tok") (lit "g") (lit "u")).ret = none ∧
    (AddMemberToGroup (aliceEnv 201) (lit "tok") (lit "g") (lit "u")).ret ≠ none ∧
    (RemoveMemberFromGroup (aliceEnv 204) (lit "tok") (lit "g") (lit "u")).ret = none ∧
    (RemoveMemberFromGroup (aliceEnv 200) (lit "tok") (lit "g") (lit "u")).ret ≠ none ∧
    (GetUser (aliceEnv 200) (lit "tok") (lit "x")).ret
      = (some (userNamed (lit "alice")), none) ∧
    (∃ text, (GetUser (aliceEnv 201) (lit "tok") (lit "x")).ret = (none, some text)) ∧
    (CreateUser (aliceEnv 201) (lit "tok") (lit "A") (lit "x") (lit "a") (lit "pw") true).ret
      = (some (userNamed (lit "alice")), none) ∧
    (∃ text, (CreateUser (aliceEnv 200) (lit "tok") (lit "A") (lit "x") (lit "a") (lit "pw")
      true).ret = (none, some text)) :=
  have h204 := C12_one_success_code_per_operation (aliceEnv 204) (lit "tok")
    ⟨204, lit "alice", none⟩
  have h200 := C12_one_success_code_per_operation (aliceEnv 200) (lit "tok")
    ⟨200, lit "alice", none⟩
  have h201 := C12_one_success_code_per_operation (aliceEnv 201) (lit "tok")
    ⟨201, lit "alice", none⟩
  ⟨(h204.1 (lit "x") [] [] rfl ⟨rfl, rfl⟩).2 rfl,
   fun h => absurd ((h200.1 (lit "x") [] [] rfl ⟨rfl, rfl⟩).1 h) (by decide),
   (h204.2.1 (lit "x") ⟨rfl, rfl⟩).2 rfl,
   fun h => absurd ((h200.2.1 (lit "x") ⟨rfl, rfl⟩).1 h) (by decide),
   (h204.2.2.1 (lit "g") (lit "u") [] rfl ⟨rfl, rfl⟩).2 rfl,
   fun h => absurd ((h201.2.2.1 (lit "g") (lit "u") [] rfl ⟨rfl, rfl⟩).1 h) (by decide),
   (h204.2.2.2.1 (lit "g") (lit "u") ⟨rfl, rfl⟩).2 rfl,
   fun h => absurd ((h200.2.2.2.1 (lit "g") (lit "u") ⟨rfl, rfl⟩).1 h) (by decide),
   ((h200.2.2.2.2.1 (lit "x") ⟨rfl, rfl⟩ rfl).1 (userNamed (lit "alice"))).2 ⟨rfl, rfl⟩,
   (h201.2.2.2.2.1 (lit "x") ⟨rfl, rfl⟩ rfl).2 (fun h => absurd h.1 (by decide)),
   ((h201.2.2.2.2.2 (lit "A") (lit "x") (lit "a") (lit "pw") true [] rfl ⟨rfl, rfl⟩ rfl).1
      (userNamed (lit "alice"))).2 ⟨rfl, rfl⟩,
   (h200.2.2.2.2.2 (lit "A") (lit "x") (lit "a") (lit "pw") true [] rfl ⟨rfl, rfl⟩ rfl).2
      (fun h => absurd h.1 (by decide))⟩

theorem noMessage_or_envelope (env : Env) (body : GoString) :
    NoMessage env body ∨ ∃ message, ErrorEnvelope env body message := by
  cases h1 : env.unmarshalMap body with
  | error e => exact Or.inl (Or.inl ⟨e, h1⟩)
  | ok m =>
    cases h2 : mapIndex m (lit "error") with
    | none =>
      exact Or.inl (Or.inr (Or.inl ⟨m, h1, fun o ho => by rw [h2] at ho; cases ho⟩))
    | some v =>
      cases v with
      | obj o =>
        cases h3 : mapIndex o (lit "message") with
        | none =>
          exact Or.inl (Or.inr (Or.inr ⟨m, o, h1, h2, fun s hs => by rw [h3] at hs; cases hs⟩))
        | some w =>
          cases w with
          | str s => exact Or.inr ⟨s, m, o, h1, h2, h3⟩
          | null =>
            exact Or.inl (Or.inr (Or.inr ⟨m, o, h1, h2, fun s hs => by rw [h3] at hs; cases hs⟩))
          | bool b =>
            exact Or.inl (Or.inr (Or.inr ⟨m, o, h1, h2, fun s hs => by rw [h3] at hs; cases hs⟩))
          | number n =>
            exact Or.inl (Or.inr (Or.inr ⟨m, o, h1, h2, fun s hs => by rw [h3] at hs; cases hs⟩))
          | arr l =>
            exact Or.inl (Or.inr (Or.inr ⟨m, o, h1, h2, fun s hs => by rw [h3] at hs; cases hs⟩))
          | obj l =>
            exact Or.inl (Or.inr (Or.inr ⟨m, o, h1, h2, fun s hs => by rw [h3] at hs; cases hs⟩))
      | null =>
        exact Or.inl (Or.inr (Or.inl ⟨m, h1, fun o ho => by rw [h2] at ho; cases ho⟩))
      | bool b =>
        exact Or.inl (Or.inr (Or.inl ⟨m, h1, fun o ho => by rw [h2] at ho; cases ho⟩))
      | number n =>
        exact Or.inl (Or.inr (Or.inl ⟨m, h1, fun o ho => by rw [h2] at ho; cases ho⟩))
      | str s =>
        exact Or.inl (Or.inr (Or.inl ⟨m, h1, fun o ho => by rw [h2] at ho; cases ho⟩))
      | arr l =>
        exact Or.inl (Or.inr (Or.inl ⟨m, h1, fun o ho => by rw [h2] at ho; cases ho⟩))

theorem assignLicenseFailure_total (env : Env) (resp : Response) :
    ∃ text, assignLicenseFailure env resp = some text := by
  rcases noMessage_or_envelope env resp.Body with hno | ⟨message, henv⟩
  · exact ⟨_, assignLicenseFailure_noMessage env resp hno⟩
  · obtain ⟨text, ht, _⟩ := assignLicenseFailure_starts_with_message env resp message henv
    exact ⟨text, ht⟩

theorem assignGroupLicenseFailure_total (env : Env) (resp : Response) :
    ∃ text, assignGroupLicenseFailure env resp = some text := by
  rcases noMessage_or_envelope env resp.Body with hno | ⟨message, henv⟩
  · exact ⟨_, assignGroupLicenseFailure_noMessage env resp hno⟩
  · obtain ⟨text, ht, _⟩ := assignGroupLicenseFailure_starts_with_message env resp message henv
    exact ⟨text, ht⟩

theorem AssignLicense_sent (env : Env) (accessToken userPrincipalName : GoString)
    (addLicenses removeLicenses : List GoString) (jsonData : GoString)
    (hm : env.marshal (.assignLicense
      { AddLicenses := addLicenses.map fun skuID => { SkuID := skuID },
        RemoveLicenses := removeLicenses }) = .ok jsonData)
    (hn : env.newRequestErr (lit "POST")
      (baseURL ++ lit "/users/" ++ userPrincipalName ++ lit "/assignLicense") = none) :
    ∃ r, AssignLicense env accessToken userPrincipalName addLicenses removeLicenses = some r ∧
      r.sent = [mkRequest (lit "POST")
        (baseURL ++ lit "/users/" ++ userPrincipalName ++ lit "/assignLicense") accessToken
        (some jsonData)] ∧
      (∀ resp, env.roundTrip (mkRequest (lit "POST")
          (baseURL ++ lit "/users/" ++ userPrincipalName ++ lit "/assignLicense") accessToken
          (some jsonData)) = .ok resp → resp.StatusCode = 200 → r.ret = none) := by
  unfold AssignLicense
  simp only [hm, hn]
  cases hr : env.roundTrip (mkRequest (lit "POST")
      (baseURL ++ lit "/users/" ++ userPrincipalName ++ lit "/assignLicense") accessToken
      (some jsonData)) with
  | error e => exact ⟨_, rfl, rfl, fun resp h => by cases h⟩
  | ok resp =>
    by_cases hs : resp.StatusCode = 200
    · simp only [hs, ne_eq, not_true_eq_false, if_false]
      exact ⟨_, rfl, rfl, fun _ _ _ => rfl⟩
    · obtain ⟨text, ht⟩ := assignLicenseFailure_total env resp
      simp only [ne_eq, hs, not_false_eq_true, if_true, ht, Option.map_some']
      refine ⟨_, rfl, rfl, fun resp2 h h2 => ?_⟩
      cases h
      exact absurd h2 hs

theorem AssignGroupLicense_sent (env : Env) (accessToken groupID : GoString)
    (addLicenses removeLicenses : List GoString) (jsonData : GoString)
    (hm : env.marshal (.assignLicense
      { AddLicenses := addLicenses.map fun skuID => { SkuID := skuID },
        RemoveLicenses := removeLicenses }) = .ok jsonData)
    (hn : env.newRequestErr (lit "POST")
      (baseURL ++ lit "/groups/" ++ groupID ++ lit "/assignLicense") = none) :
    ∃ r, AssignGroupLicense env accessToken groupID addLicenses removeLicenses = some r ∧
      r.sent = [mkRequest (lit "POST")
        (baseURL ++ lit "/groups/" ++ groupID ++ lit "/assignLicense") accessToken
        (some jsonData)] := by
  unfold AssignGroupLicense
  simp only [hm, hn]
  cases hr : env.roundTrip (mkRequest (lit "POST")
      (baseURL ++ lit "/groups/" ++ groupID ++ lit "/assignLicense") accessToken
      (some jsonData)) with
  | error e => exact ⟨_, rfl, rfl⟩
  | ok resp =>
    by_cases hs : resp.StatusCode = 200
    · simp only [hs, ne_eq, not_true_eq_false, if_false]
      exact ⟨_, rfl, rfl⟩
    · obtain ⟨text, ht⟩ := assignGroupLicenseFailure_total env resp
      simp only [ne_eq, hs, not_false_eq_true, if_true, ht, Option.map_some']
      exact ⟨_, rfl, rfl⟩

/-- C13: no operation retries. Once its request is built, each of GetUser, CreateUser,
UpdateUser, DeleteUser, GetUserLicenses, GetGroupLicenses, AssignLicense,
AssignGroupLicense, AddMemberToGroup and RemoveMemberFromGroup hands exactly that one
request to the transport and returns, whatever the transport answers (status 429 and
5xx, or a transport error, included). -/
theorem C13_one_request_per_operation (env : Env) (accessToken : GoString) :
    (∀ upn, env.newRequestErr (lit "GET") (baseURL ++ lit "/users/" ++ upn) = none →
      (GetUser env accessToken upn).sent
        = [mkRequest (lit "GET") (baseURL ++ lit "/users/" ++ upn) accessToken none]) ∧
    (∀ displayName upn mailNickname password forceChange jsonData,
      env.marshal (.createUser
        { AccountEnabled := true, DisplayName := displayName, MailNickname := mailNickname,
          UserPrincipalName := upn,
          PasswordProfile :=
            { ForceChangePasswordNextSignIn := forceChange, Password := password } })
        = .ok jsonData →
      env.newRequestErr (lit "POST") (baseURL ++ lit "/users") = none →
      (CreateUser env accessToken displayName upn mailNickname password forceChange).sent
        = [mkRequest (lit "POST") (baseURL ++ lit "/users") accessToken (some jsonData)]) ∧
    (∀ upn properties jsonData, env.marshal (.properties properties) = .ok jsonData →
      env.newRequestErr (lit "PATCH") (baseURL ++ lit "/users/" ++ upn) = none →
      (UpdateUser env accessToken upn properties).sent
        = [mkRequest (lit "PATCH") (baseURL ++ lit "/users/" ++ upn) accessToken
            (some jsonData)]) ∧
    (∀ upn, env.newRequestErr (lit "DELETE") (baseURL ++ lit "/users/" ++ upn) = none →
      (DeleteUser env accessToken upn).sent
        = [mkRequest (lit "DELETE") (baseURL ++ lit "/users/" ++ upn) accessToken none]) ∧
    (∀ upn, env.newRequestErr (lit "GET")
        (baseURL ++ lit "/users/" ++ upn ++ lit "/licenseDetails") = none →
      (GetUserLicenses env accessToken upn).sent
        = [mkRequest (lit "GET") (baseURL ++ lit "/users/" ++ upn ++ lit "/licenseDetails")
            accessToken none]) ∧
    (∀ groupID, env.newRequestErr (lit "GET")
        (baseURL ++ lit "/groups/" ++ groupID ++ lit "/assignedLicenses") = none →
      (GetGroupLicenses env accessToken groupID).sent
        = [mkRequest (lit "GET")
            (baseURL ++ lit "/groups/" ++ groupID ++ lit "/assignedLicenses") accessToken
            none]) ∧
    (∀ upn addLicenses removeLicenses jsonData,
      env.marshal (.assignLicense
        { AddLicenses := addLicenses.map fun skuID => { SkuID := skuID },
          RemoveLicenses := removeLicenses }) = .ok jsonData →
      env.newRequestErr (lit "POST")
        (baseURL ++ lit "/users/" ++ upn ++ lit "/assignLicense") = none →
      ∃ r, AssignLicense env accessToken upn addLicenses removeLicenses = some r ∧
        r.sent = [mkRequest (lit "POST")
          (baseURL ++ lit "/users/" ++ upn ++ lit "/assignLicense") accessToken
          (some jsonData)]) ∧
    (∀ groupID addLicenses removeLicenses jsonData,
      env.marshal (.assignLicense
        { AddLicenses := addLicenses.map fun skuID => { SkuID := skuID },
          RemoveLicenses := removeLicenses }) = .ok jsonData →
      env.newRequestErr (lit "POST")
        (baseURL ++ lit "/groups/" ++ groupID ++ lit "/assignLicense") = none →
      ∃ r, AssignGroupLicense env accessToken groupID addLicenses removeLicenses = some r ∧
        r.sent = [mkRequest (lit "POST")
          (baseURL ++ lit "/groups/" ++ groupID ++ lit "/assignLicense") accessToken
          (some jsonData)]) ∧
    (∀ groupID userID jsonData,
      env.marshal (.memberRef
        [(lit "@odata.id",
          lit "https://graph.microsoft.com/v1.0/directoryObjects/" ++ userID)])
        = .ok jsonData →
      env.newRequestErr (lit "POST")
        (baseURL ++ lit "/groups/" ++ groupID ++ lit "/members/$ref") = none →
      (AddMemberToGroup env accessToken groupID userID).sent
        = [mkRequest (lit "POST") (baseURL ++ lit "/groups/" ++ groupID ++ lit "/members/$ref")
            accessToken (some jsonData)]) ∧
    (∀ groupID userID, env.newRequestErr (lit "DELETE")
        (baseURL ++ lit "/groups/" ++ groupID ++ lit "/members/" ++ userID ++ lit "/$ref")
        = none →
      (RemoveMemberFromGroup env accessToken groupID userID).sent
        = [mkRequest (lit "DELETE")
            (baseURL ++ lit "/groups/" ++ groupID ++ lit "/members/" ++ userID ++ lit "/$ref")
            accessToken none]) := by
  refine ⟨?_, ?_, ?_, ?_, ?_, ?_, ?_, ?_, ?_, ?_⟩
  · intro upn hn
    unfold GetUser
    simp only [hn]
    repeat' split
    all_goals rfl
  · intro displayName upn mailNickname password forceChange jsonData hm hn
    unfold CreateUser
    simp only [hm, hn]
    repeat' split
    all_goals rfl
  · intro upn properties jsonData hm hn
    unfold UpdateUser
    simp only [hm, hn]
    repeat' split
    all_goals rfl
  · intro upn hn
    unfold DeleteUser
    simp only [hn]
    repeat' split
    all_goals rfl
  · intro upn hn
    unfold GetUserLicenses
    simp only [hn]
    repeat' split
    all_goals rfl
  · intro groupID hn
    unfold GetGroupLicenses
    simp only [hn]
    repeat' split
    all_goals rfl
  · intro upn addLicenses removeLicenses jsonData hm hn
    obtain ⟨r, hr, hs, _⟩ := AssignLicense_sent env accessToken upn addLicenses
      removeLicenses jsonData hm hn
    exact ⟨r, hr, hs⟩
  · intro groupID addLicenses removeLicenses jsonData hm hn
    exact AssignGroupLicense_sent env accessToken groupID addLicenses removeLicenses
      jsonData hm hn
  · intro groupID userID jsonData hm hn
    unfold AddMemberToGroup
    simp only [hm, hn]
    repeat' split
    all_goals rfl
  · intro groupID userID hn
    unfold RemoveMemberFromGroup
    simp only [hn]
    repeat' split
    all_goals rfl

/-- C13 at a server that answers every request with status 429 and the body
`slow down`. -/
theorem C13_one_request_per_operation_witness :
    (GetUser (replyEnv 429 (lit "slow down")) (lit "tok") (lit "x")).sent.length = 1 ∧
    (CreateUser (replyEnv 429 (lit "slow down")) (lit "tok") (lit "A") (lit "x") (lit "a")
      (lit "pw") true).sent.length = 1 ∧
    (UpdateUser (replyEnv 429 (lit "slow down")) (lit "tok") (lit "x") []).sent.length = 1 ∧
    (DeleteUser (replyEnv 429 (lit "slow down")) (lit "tok") (lit "x")).sent.length = 1 ∧
    (GetUserLicenses (replyEnv 429 (lit "slow down")) (lit "tok") (lit "x")).sent.length = 1 ∧
    (GetGroupLicenses (replyEnv 429 (lit "slow down")) (lit "tok") (lit "g")).sent.length = 1 ∧
    (∃ r, AssignLicense (replyEnv 429 (lit "slow down")) (lit "tok") (lit "x") [lit "SKU_A"] []
      = some r ∧ r.sent.length = 1) ∧
    (∃ r, AssignGroupLicense (replyEnv 429 (lit "slow down")) (lit "tok") (lit "g")
      [lit "SKU_A"] [] = some r ∧ r.sent.length = 1) ∧
    (AddMemberToGroup (replyEnv 429 (lit "slow down")) (lit "tok") (lit "g")
      (lit "u")).sent.length = 1 ∧
    (RemoveMemberFromGroup (replyEnv 429 (lit "slow down")) (lit "tok") (lit "g")
      (lit "u")).sent.length = 1 := by
  have h := C13_one_request_per_operation (replyEnv 429 (lit "slow down")) (lit "tok")
  refine ⟨?_, ?_, ?_, ?_, ?_, ?_, ?_, ?_, ?_, ?_⟩
  · rw [h.1 (lit "x") rfl]; rfl
  · rw [h.2.1 (lit "A") (lit "x") (lit "a") (lit "pw") true [] rfl rfl]; rfl
  · rw [h.2.2.1 (lit "x") [] [] rfl rfl]; rfl
  · rw [h.2.2.2.1 (lit "x") rfl]; rfl
  · rw [h.2.2.2.2.1 (lit "x") rfl]; rfl
  · rw [h.2.2.2.2.2.1 (lit "g") rfl]; rfl
  · obtain ⟨r, hr, hs⟩ := h.2.2.2.2.2.2.1 (lit "x") [lit "SKU_A"] [] [] rfl rfl
    exact ⟨r, hr, by rw [hs]; rfl⟩
  · obtain ⟨r, hr, hs⟩ := h.2.2.2.2.2.2.2.1 (lit "g") [lit "SKU_A"] [] [] rfl rfl
    exact ⟨r, hr, by rw [hs]; rfl⟩
  · rw [h.2.2.2.2.2.2.2.2.1 (lit "g") (lit "u") [] rfl rfl]; rfl
  · rw [h.2.2.2.2.2.2.2.2.2 (lit "g") (lit "u") rfl]; rfl

/-- C16: GetUserLicenses and GetGroupLicenses are not paginated. For every 200 response
whose body decodes, they hand exactly one GET to the transport and return exactly the
items decoded from that response; the decoded shape has no continuation link, so no
further page is fetched. -/
theorem C16_license_details_single_page (env : Env) (accessToken : GoString)
    (resp : Response) (page : LicenseDetailResponse)
    (hread : resp.ReadErr = none) (hstatus : resp.StatusCode = 200)
    (hdecode : env.unmarshalLicenseDetailResponse resp.Body = .ok page) :
    (∀ upn, Answered env (lit "GET") (baseURL ++ lit "/users/" ++ upn ++ lit "/licenseDetails")
        accessToken none resp →
      GetUserLicenses env accessToken upn
        = ⟨(page.Value, none),
            [mkRequest (lit "GET") (baseURL ++ lit "/users/" ++ upn ++ lit "/licenseDetails")
              accessToken none]⟩) ∧
    (∀ groupID, Answered env (lit "GET")
        (baseURL ++ lit "/groups/" ++ groupID ++ lit "/assignedLicenses") accessToken none
        resp →
      GetGroupLicenses env accessToken groupID
        = ⟨(page.Value, none),
            [mkRequest (lit "GET")
              (baseURL ++ lit "/groups/" ++ groupID ++ lit "/assignedLicenses") accessToken
              none]⟩) := by
  constructor
  · rintro upn ⟨h1, h2⟩
    unfold GetUserLicenses
    simp only [h1, h2, hread, hstatus, hdecode]
    rfl
  · rintro groupID ⟨h1, h2⟩
    unfold GetGroupLicenses
    simp only [h1, h2, hread, hstatus, hdecode]
    rfl

/-- C16 at the two-page server: the first response, which a paginated operation would
follow to `page2`, is the only one fetched. -/
theorem C16_license_details_single_page_witness :
    (userPage licensePagesEnv (lit "first")
      = .ok ([userNamed (lit "alice")], lit "page2")) ∧
    GetUserLicenses licensePagesEnv (lit "tok") (lit "x")
      = ⟨([licenseNamed (lit "E3")], none),
          [mkRequest (lit "GET") (baseURL ++ lit "/users/" ++ lit "x" ++ lit "/licenseDetails")
            (lit "tok") none]⟩ ∧
    GetGroupLicenses licensePagesEnv (lit "tok") (lit "g")
      = ⟨([licenseNamed (lit "E3")], none),
          [mkRequest (lit "GET")
            (baseURL ++ lit "/groups/" ++ lit "g" ++ lit "/assignedLicenses") (lit "tok")
            none]⟩ :=
  have h := C16_license_details_single_page licensePagesEnv (lit "tok")
    ⟨200, lit "first", none⟩ ⟨[licenseNamed (lit "E3")]⟩ rfl rfl rfl
  ⟨rfl, h.1 (lit "x") ⟨rfl, rfl⟩, h.2 (lit "g") ⟨rfl, rfl⟩⟩

/-! ## The paginated list operations: claim C17 -/

theorem abortsAt_of_status_ne {α : Type} (env : Env) (label : GoString)
    (unmarshal : GoString → Except GoString (List α × GoString)) (accessToken : GoString)
    (earlier : List (List α × GoString)) (url stop : GoString) (fuel : Nat)
    (resp : Response) (hurl : url ≠ [])
    (hpre : PagePrefix env unmarshal accessToken url earlier stop)
    (hresp : Serves env accessToken stop resp) (hs : resp.StatusCode ≠ 200)
    (hfuel : earlier.length < fuel) :
    AbortsAt (pagedLoop env label unmarshal accessToken fuel url [] []) (earlier.length + 1)
      (mkRequest (lit "GET") stop accessToken none) resp := by
  refine ⟨_, _, pagedLoop_abort env label unmarshal accessToken earlier url stop fuel resp hurl
    hpre hresp hs hfuel, ?_, ?_, ?_, ?_⟩
  · exact (status_body_within _ _ _).1
  · exact (status_body_within _ _ _).2
  · simp [getRequests]
  · have hl := PagePrefix.getLast earlier url stop hpre
    unfold getRequests
    rw [List.getLast?_map, hl]
    rfl

/-- C17: in ListUsers, ListGroups, GetSubscribedSkus and GetUserGroups a page answered
with a 2xx status other than 200 aborts the operation like a failure: an error is
returned with an empty result, so the items accumulated so far are discarded, and this
holds whatever the body of the page is, a well-formed page included. -/
theorem C17_other_2xx_status_aborts (env : Env) (accessToken : GoString)
    (fuel : Nat) (stop : GoString) (resp : Response)
    (hresp : Serves env accessToken stop resp)
    (hstatus : 200 < resp.StatusCode ∧ resp.StatusCode < 300) :
    (∀ (filter : GoString) (earlier : List (List User × GoString)),
      PagePrefix env (userPage env) accessToken (listUsersURL filter) earlier stop →
      earlier.length < fuel →
      AbortsAt (ListUsers env fuel accessToken filter) (earlier.length + 1)
        (mkRequest (lit "GET") stop accessToken none) resp) ∧
    (∀ (earlier : List (List Group × GoString)),
      PagePrefix env (groupPage env) accessToken (baseURL ++ lit "/groups") earlier stop →
      earlier.length < fuel →
      AbortsAt (ListGroups env fuel accessToken) (earlier.length + 1)
        (mkRequest (lit "GET") stop accessToken none) resp) ∧
    (∀ (earlier : List (List SubscribedSku × GoString)),
      PagePrefix env (skuPage env) accessToken (baseURL ++ lit "/subscribedSkus") earlier stop →
      earlier.length < fuel →
      AbortsAt (GetSubscribedSkus env fuel accessToken) (earlier.length + 1)
        (mkRequest (lit "GET") stop accessToken none) resp) ∧
    (∀ (userPrincipalName : GoString) (earlier : List (List Group × GoString)),
      PagePrefix env (groupPage env) accessToken
        (baseURL ++ lit "/users/" ++ userPrincipalName ++ lit "/memberOf") earlier stop →
      earlier.length < fuel →
      AbortsAt (GetUserGroups env fuel accessToken userPrincipalName) (earlier.length + 1)
        (mkRequest (lit "GET") stop accessToken none) resp) := by
  have hs : resp.StatusCode ≠ 200 := by omega
  exact
    ⟨fun filter earlier h hf =>
        abortsAt_of_status_ne env _ _ accessToken earlier _ stop fuel resp
          (listUsersURL_ne_nil filter) h hresp hs hf,
     fun earlier h hf =>
        abortsAt_of_status_ne env _ _ accessToken earlier _ stop fuel resp
          (baseURL_append_ne_nil _) h hresp hs hf,
     fun earlier h hf =>
        abortsAt_of_status_ne env _ _ accessToken earlier _ stop fuel resp
          (baseURL_append_ne_nil _) h hresp hs hf,
     fun upn earlier h hf =>
        abortsAt_of_status_ne env _ _ accessToken earlier _ stop fuel resp
          (userGroupsURL_ne_nil upn) h hresp hs hf⟩

/-- C17 at the server whose second page is answered with status 206 and a body that
decodes to a page. -/
theorem C17_other_2xx_status_aborts_witness :
    (userPage partialContentEnv (lit "last") = .ok ([userNamed (lit "bob")], [])) ∧
    AbortsAt (ListUsers partialContentEnv 2 (lit "tok") []) 2
      (mkRequest (lit "GET") (lit "page2") (lit "tok") none) ⟨206, lit "last", none⟩ ∧
    AbortsAt (ListGroups partialContentEnv 2 (lit "tok")) 2
      (mkRequest (lit "GET") (lit "page2") (lit "tok") none) ⟨206, lit "last", none⟩ ∧
    AbortsAt (GetSubscribedSkus partialContentEnv 2 (lit "tok")) 2
      (mkRequest (lit "GET") (lit "page2") (lit "tok") none) ⟨206, lit "last", none⟩ ∧
    AbortsAt (GetUserGroups partialContentEnv 2 (lit "tok") (lit "a@b.c")) 2
      (mkRequest (lit "GET") (lit "page2") (lit "tok") none) ⟨206, lit "last", none⟩ :=
  have h := C17_other_2xx_status_aborts partialContentEnv (lit "tok") 2
    (lit "page2") ⟨206, lit "last", none⟩ ⟨rfl, rfl, rfl⟩ (by decide)
  ⟨rfl,
   h.1 [] [([userNamed (lit "alice")], lit "page2")]
      ⟨⟨⟨200, lit "first", none⟩, ⟨rfl, rfl, rfl⟩, rfl, rfl⟩, by decide, rfl⟩ (by decide),
   h.2.1 [([groupNamed (lit "admins")], lit "page2")]
      ⟨⟨⟨200, lit "first", none⟩, ⟨rfl, rfl, rfl⟩, rfl, rfl⟩, by decide, rfl⟩ (by decide),
   h.2.2.1 [([skuNamed (lit "E3")], lit "page2")]
      ⟨⟨⟨200, lit "first", none⟩, ⟨rfl, rfl, rfl⟩, rfl, rfl⟩, by decide, rfl⟩ (by decide),
   h.2.2.2 (lit "a@b.c") [([groupNamed (lit "admins")], lit "page2")]
      ⟨⟨⟨200, lit "first", none⟩, ⟨rfl, rfl, rfl⟩, rfl, rfl⟩, by decide, rfl⟩ (by decide)⟩

/-! ## The command layer: claims C11, C14, C18 -/

/-- C11: `licenses add-user UPN SKU_1 ... SKU_n` with `n >= 1`, once its request is
built, hands exactly one request to the transport: a POST to
`<base>/users/UPN/assignLicense` whose body is the marshalled assignment with
`addLicenses` the list `[skuId: SKU_1, ..., skuId: SKU_n]` in argument order and
`removeLicenses` empty; on a 200 response it returns no error and prints the success
line with the count `n`. -/
theorem C11_add_user_posts_skus_in_order (env : Env) (token upn : GoString)
    (skuIDs : List GoString) (jsonData : GoString)
    (hn : skuIDs ≠ [])
    (hmarshal : env.marshal (.assignLicense
      { AddLicenses := skuIDs.map fun skuID => { SkuID := skuID },
        RemoveLicenses := [] }) = .ok jsonData)
    (hbuilt : env.newRequestErr (lit "POST")
      (baseURL ++ lit "/users/" ++ upn ++ lit "/assignLicense") = none) :
    ∃ r, licensesAddUserCmd env token (upn :: skuIDs) = some r ∧
      r.sent = [mkRequest (lit "POST")
        (baseURL ++ lit "/users/" ++ upn ++ lit "/assignLicense") token (some jsonData)] ∧
      (skuIDs.map fun skuID => ({ SkuID := skuID } : AddLicense)).length = skuIDs.length ∧
      (skuIDs.map fun skuID => ({ SkuID := skuID } : AddLicense)).map AddLicense.SkuID
        = skuIDs ∧
      (∀ resp, env.roundTrip (mkRequest (lit "POST")
          (baseURL ++ lit "/users/" ++ upn ++ lit "/assignLicense") token (some jsonData))
          = .ok resp →
        resp.StatusCode = 200 →
        r.err = none ∧
        r.out = checkMark ++ lit " Successfully added " ++ fmtD skuIDs.length
          ++ lit " license(s) to " ++ upn ++ lit "\n") := by
  obtain ⟨sku, rest, rfl⟩ : ∃ sku rest, skuIDs = sku :: rest := by
    cases skuIDs with
    | nil => exact absurd rfl hn
    | cons a l => exact ⟨a, l, rfl⟩
  obtain ⟨r, hr, hsent, hok⟩ := AssignLicense_sent env token upn (sku :: rest) [] jsonData
    hmarshal hbuilt
  obtain ⟨ret, sent⟩ := r
  unfold licensesAddUserCmd
  simp only [hr, Option.map_some']
  refine ⟨_, rfl, ?_, by simp, by simp [Function.comp_def], ?_⟩
  · cases ret <;> exact hsent
  · intro resp hresp hstatus
    have hnone : ret = none := hok resp hresp hstatus
    subst hnone
    exact ⟨rfl, rfl⟩

/-- C11 at `licenses add-user alice@example.com SKU_A SKU_B` answered with 200: one
POST, and the count 2. -/
theorem C11_add_user_posts_skus_in_order_witness :
    ∃ r, licensesAddUserCmd (cliEnv 200) (lit "tok")
        [lit "alice@example.com", lit "SKU_A", lit "SKU_B"] = some r ∧
      r.sent = [mkRequest (lit "POST")
        (baseURL ++ lit "/users/" ++ lit "alice@example.com" ++ lit "/assignLicense")
        (lit "tok")
        (some (lit "\x7b\"addLicenses\":[\x7b\"skuId\":\"SKU_A\"\x7d,\x7b\"skuId\":\"SKU_B\"\x7d],\"removeLicenses\":[]\x7d"))] ∧
      r.err = none ∧
      r.out = checkMark ++ lit " Successfully added 2 license(s) to alice@example.com\n" := by
  obtain ⟨r, hr, hsent, _, _, hok⟩ := C11_add_user_posts_skus_in_order (cliEnv 200)
    (lit "tok") (lit "alice@example.com") [lit "SKU_A", lit "SKU_B"]
    (lit "\x7b\"addLicenses\":[\x7b\"skuId\":\"SKU_A\"\x7d,\x7b\"skuId\":\"SKU_B\"\x7d],\"removeLicenses\":[]\x7d")
    (by decide) rfl rfl
  obtain ⟨herr, hout⟩ := hok ⟨200, [], none⟩ rfl rfl
  refine ⟨r, hr, hsent, herr, ?_⟩
  rw [hout]
  decide

theorem usersUpdateCmd_sent (env : Env) (token upn property value jsonData : GoString)
    (hbuilt : env.newRequestErr (lit "PATCH") (baseURL ++ lit "/users/" ++ upn) = none) :
    (∀ parsed, jsonUnmarshal value = .ok parsed →
      env.marshal (.properties [(property, parsed)]) = .ok jsonData →
      (usersUpdateCmd env token [upn, property, value]).sent
        = [mkRequest (lit "PATCH") (baseURL ++ lit "/users/" ++ upn) token
            (some jsonData)]) ∧
    (∀ err, jsonUnmarshal value = .error err →
      env.marshal (.properties [(property, .str value)]) = .ok jsonData →
      (usersUpdateCmd env token [upn, property, value]).sent
        = [mkRequest (lit "PATCH") (baseURL ++ lit "/users/" ++ upn) token
            (some jsonData)]) := by
  have hC := fun properties (hm : env.marshal (.properties properties) = .ok jsonData) =>
    show (UpdateUser env token upn properties).sent
        = [mkRequest (lit "PATCH") (baseURL ++ lit "/users/" ++ upn) token (some jsonData)] by
      unfold UpdateUser
      simp only [hm, hbuilt]
      repeat' split
      all_goals rfl
  constructor
  · intro parsed hparsed hm
    unfold usersUpdateCmd
    simp only [hparsed]
    have := hC _ hm
    split <;> exact this
  · intro err herr hm
    unfold usersUpdateCmd
    simp only [herr]
    have := hC _ hm
    split <;> exact this

theorem jsonUnmarshal_of_not_valid (value : GoString) (h : jsonValid value = false) :
    ∃ err, jsonUnmarshal value = .error err := by
  unfold jsonValid at h
  unfold jsonUnmarshal
  cases hs : jsonScan value with
  | none => exact ⟨_, rfl⟩
  | some r => rw [hs] at h; cases h

set_option exponentiation.threshold 2000 in
theorem float64Limit_eq : float64Limit = 2 ^ 1024 - 2 ^ 970 := by
  unfold float64Limit
  norm_num

set_option exponentiation.threshold 2000 in
set_option maxRecDepth 100000 in
theorem jsonValid_1e400 : jsonValid (lit "1e400") = true := rfl

set_option exponentiation.threshold 2000 in
set_option maxRecDepth 100000 in
theorem jsonUnmarshal_1e400 :
    jsonUnmarshal (lit "1e400")
      = .error (lit "json: cannot unmarshal number into Go value of type float64") := rfl

theorem usersUpdateCmd_1e400 :
    (usersUpdateCmd (cliEnv 204) (lit "tok") [lit "a@b.c", lit "employeeId", lit "1e400"]).sent
      = [mkRequest (lit "PATCH") (baseURL ++ lit "/users/" ++ lit "a@b.c") (lit "tok")
          (some (lit "\x7b\"employeeId\":\"1e400\"\x7d"))] :=
  (usersUpdateCmd_sent (cliEnv 204) (lit "tok") (lit "a@b.c") (lit "employeeId")
    (lit "1e400") (lit "\x7b\"employeeId\":\"1e400\"\x7d") rfl).2 _ jsonUnmarshal_1e400 rfl

/-- C14, evaluated: `users update a@b.c employeeId 1e400`. The text `1e400` is valid
JSON, `json.Unmarshal` rejects it because the number is outside float64, and the body
sent carries the string `1e400`; the values `123`, `true` and `null` are sent as a
number, a boolean and null, and `US`, which is not valid JSON, as a string. -/
theorem C14_valid_json_number_sent_as_string :
    jsonValid (lit "1e400") = true ∧
    (usersUpdateCmd (cliEnv 204) (lit "tok") [lit "a@b.c", lit "employeeId", lit "1e400"]).sent
      = [mkRequest (lit "PATCH") (baseURL ++ lit "/users/" ++ lit "a@b.c") (lit "tok")
          (some (lit "\x7b\"employeeId\":\"1e400\"\x7d"))] ∧
    (usersUpdateCmd (cliEnv 204) (lit "tok") [lit "a@b.c", lit "employeeId", lit "123"]).sent
      = [mkRequest (lit "PATCH") (baseURL ++ lit "/users/" ++ lit "a@b.c") (lit "tok")
          (some (lit "\x7b\"employeeId\":123\x7d"))] ∧
    (usersUpdateCmd (cliEnv 204) (lit "tok")
        [lit "a@b.c", lit "accountEnabled", lit "true"]).sent
      = [mkRequest (lit "PATCH") (baseURL ++ lit "/users/" ++ lit "a@b.c") (lit "tok")
          (some (lit "\x7b\"accountEnabled\":true\x7d"))] ∧
    (usersUpdateCmd (cliEnv 204) (lit "tok") [lit "a@b.c", lit "mobilePhone", lit "null"]).sent
      = [mkRequest (lit "PATCH") (baseURL ++ lit "/users/" ++ lit "a@b.c") (lit "tok")
          (some (lit "\x7b\"mobilePhone\":null\x7d"))] ∧
    jsonValid (lit "US") = false ∧
    (usersUpdateCmd (cliEnv 204) (lit "tok") [lit "a@b.c", lit "usageLocation", lit "US"]).sent
      = [mkRequest (lit "PATCH") (baseURL ++ lit "/users/" ++ lit "a@b.c") (lit "tok")
          (some (lit "\x7b\"usageLocation\":\"US\"\x7d"))] :=
  ⟨jsonValid_1e400, usersUpdateCmd_1e400, rfl, rfl, rfl, rfl, rfl⟩

/-- C18, as stated, fails: the confirmation inputs `yes please` and ` yes` are not the
string `yes`, and for each of them the command issues the DELETE. -/
theorem C18_other_inputs_also_delete :
    lit "yes please" ≠ lit "yes" ∧
    (usersDeleteCmd (cliEnv 204) (lit "tok") (lit "yes please\n") [lit "a@b.c"]).sent
      = [mkRequest (lit "DELETE") (baseURL ++ lit "/users/" ++ lit "a@b.c") (lit "tok")
          none] ∧
    lit " yes" ≠ lit "yes" ∧
    (usersDeleteCmd (cliEnv 204) (lit "tok") (lit " yes\n") [lit "a@b.c"]).sent
      = [mkRequest (lit "DELETE") (baseURL ++ lit "/users/" ++ lit "a@b.c") (lit "tok")
          none] :=
  ⟨by decide, rfl, by decide, rfl⟩

/-- C18, amended: `users delete UPN` deletes iff the first blank-separated word of the
confirmation line, which is what `fmt.Scanln` leaves in `response`, is `yes`. For every
standard input whose scan leaves another string, no request is issued and the command
returns without error; for every standard input whose scan leaves `yes`, once the
request is built, exactly one request is issued, a DELETE for `<base>/users/UPN`. -/
theorem C18_delete_needs_first_word_yes (env : Env) (token upn stdin : GoString) :
    (Scanln stdin ≠ lit "yes" →
      (usersDeleteCmd env token stdin [upn]).sent = [] ∧
      (usersDeleteCmd env token stdin [upn]).err = none) ∧
    (Scanln stdin = lit "yes" →
      env.newRequestErr (lit "DELETE") (baseURL ++ lit "/users/" ++ upn) = none →
      (usersDeleteCmd env token stdin [upn]).sent
        = [mkRequest (lit "DELETE") (baseURL ++ lit "/users/" ++ upn) token none]) := by
  constructor
  · intro hne
    have hrun : usersDeleteCmd env token stdin [upn]
        = ⟨none, warningSign ++ lit " Warning: This will delete user " ++ upn ++ lit "\n"
            ++ lit "Continue? (yes/no): " ++ lit "Cancelled.\n", []⟩ := by
      unfold usersDeleteCmd
      simp only [if_pos hne]
    rw [hrun]
    exact ⟨rfl, rfl⟩
  · intro hyes hbuilt
    have hsent : (DeleteUser env token upn).sent
        = [mkRequest (lit "DELETE") (baseURL ++ lit "/users/" ++ upn) token none] := by
      unfold DeleteUser
      simp only [hbuilt]
      repeat' split
      all_goals rfl
    unfold usersDeleteCmd
    simp only [hyes, ne_eq, not_true_eq_false, if_false]
    split <;> exact hsent

/-- C18, amended, at the lines `y`, `Yes`, `YES`, the empty line and the end of input,
which cancel, and at `yes`, ` yes` and `yes please`, which delete. -/
theorem C18_delete_needs_first_word_yes_witness :
    (usersDeleteCmd (cliEnv 204) (lit "tok") (lit "y\n") [lit "a@b.c"]).sent = [] ∧
    (usersDeleteCmd (cliEnv 204) (lit "tok") (lit "Yes\n") [lit "a@b.c"]).sent = [] ∧
    (usersDeleteCmd (cliEnv 204) (lit "tok") (lit "YES\n") [lit "a@b.c"]).sent = [] ∧
    (usersDeleteCmd (cliEnv 204) (lit "tok") (lit "\n") [lit "a@b.c"]).sent = [] ∧
    (usersDeleteCmd (cliEnv 204) (lit "tok") [] [lit "a@b.c"]).sent = [] ∧
    (usersDeleteCmd (cliEnv 204) (lit "tok") (lit "yes\n") [lit "a@b.c"]).sent
      = [mkRequest (lit "DELETE") (baseURL ++ lit "/users/" ++ lit "a@b.c") (lit "tok")
          none] ∧
    (usersDeleteCmd (cliEnv 204) (lit "tok") (lit " yes\n") [lit "a@b.c"]).sent
      = [mkRequest (lit "DELETE") (baseURL ++ lit "/users/" ++ lit "a@b.c") (lit "tok")
          none] ∧
    (usersDeleteCmd (cliEnv 204) (lit "tok") (lit "yes please\n") [lit "a@b.c"]).sent
      = [mkRequest (lit "DELETE") (baseURL ++ lit "/users/" ++ lit "a@b.c") (lit "tok")
          none] :=
  ⟨((C18_delete_needs_first_word_yes (cliEnv 204) (lit "tok") (lit "a@b.c") (lit "y\n")).1
      (by decide)).1,
   ((C18_delete_needs_first_word_yes (cliEnv 204) (lit "tok") (lit "a@b.c") (lit "Yes\n")).1
      (by decide)).1,
   ((C18_delete_needs_first_word_yes (cliEnv 204) (lit "tok") (lit "a@b.c") (lit "YES\n")).1
      (by decide)).1,
   ((C18_delete_needs_first_word_yes (cliEnv 204) (lit "tok") (lit "a@b.c") (lit "\n")).1
      (by decide)).1,
   ((C18_delete_needs_first_word_yes (cliEnv 204) (lit "tok") (lit "a@b.c") []).1
      (by decide)).1,
   (C18_delete_needs_first_word_yes (cliEnv 204) (lit "tok") (lit "a@b.c") (lit "yes\n")).2
      (by decide) rfl,
   (C18_delete_needs_first_word_yes (cliEnv 204) (lit "tok") (lit "a@b.c") (lit " yes\n")).2
      (by decide) rfl,
   (C18_delete_needs_first_word_yes (cliEnv 204) (lit "tok") (lit "a@b.c")
      (lit "yes please\n")).2 (by decide) rfl⟩

/-! ## The bounded loops of the embedded library functions use no more than their bound -/

theorem decodeRune_size_pos (b : Nat) (tl : List Nat) : 1 ≤ (decodeRune (b :: tl)).2 := by
  unfold decodeRune
  split
  · rename_i h; cases h
  · rename_i b0 tl0 h
    repeat' split
    all_goals simp

theorem utf8RunesLoop_enough :
    ∀ (fuel : Nat) (s : List Nat), s.length ≤ fuel →
      utf8RunesLoop fuel s = utf8RunesLoop s.length s := by
  intro fuel
  induction fuel using Nat.strong_induction_on with
  | _ fuel ih =>
    intro s hs
    cases s with
    | nil => cases fuel <;> rfl
    | cons b tl =>
      obtain ⟨k, rfl⟩ : ∃ k, fuel = k + 1 := ⟨fuel - 1, by simp at hs; omega⟩
      have hpos := decodeRune_size_pos b tl
      have hlen : ((b :: tl).drop (decodeRune (b :: tl)).2).length ≤ tl.length := by
        simp only [List.length_drop, List.length_cons]; omega
      show (decodeRune (b :: tl)).1 :: utf8RunesLoop k ((b :: tl).drop (decodeRune (b :: tl)).2)
        = (decodeRune (b :: tl)).1
            :: utf8RunesLoop tl.length ((b :: tl).drop (decodeRune (b :: tl)).2)
      rw [ih k (by omega) _ (by simp at hs; omega),
        ih tl.length (by simp at hs; omega) _ hlen]

theorem unquoteLoop_succ :
    ∀ (fuel : Nat) (s : List Nat), s.length ≤ fuel →
      unquoteLoop (fuel + 1) s = unquoteLoop fuel s := by
  intro fuel
  induction fuel with
  | zero =>
    intro s hs
    have : s = [] := List.length_eq_zero.mp (by omega)
    subst this
    rfl
  | succ k ih =>
    intro s hs
    rw [unquoteLoop.eq_def (k + 1 + 1), unquoteLoop.eq_def (k + 1)]
    simp only
    split
    · rfl
    · rename_i a b c d rest
      have h1 : rest.length ≤ k := by simp at hs; omega
      split
      · split
        · rename_i a1 b1 c1 d1 rest1
          have h2 : rest1.length ≤ k := by simp at h1; omega
          rw [ih _ h2, ih _ h1]
        · rw [ih _ h1]
      · rw [ih _ h1]
    · rename_i c rest hne
      have h1 : rest.length ≤ k := by simp at hs; omega
      rw [ih _ h1]
    · rename_i c rest hne1 hne2
      have h1 : rest.length ≤ k := by simp at hs; omega
      have hpos := decodeRune_size_pos c rest
      have h2 : ((c :: rest).drop (decodeRune (c :: rest)).2).length ≤ k := by
        simp only [List.length_drop, List.length_cons]; omega
      rw [ih _ h1, ih _ h2]

theorem unquoteLoop_enough (fuel : Nat) (s : List Nat) (h : s.length ≤ fuel) :
    unquoteLoop fuel s = unquote s := by
  unfold unquote
  induction fuel with
  | zero =>
    have : s.length = 0 := by omega
    rw [this]
  | succ k ih =>
    by_cases hk : s.length ≤ k
    · rw [unquoteLoop_succ k s hk]; exact ih hk
    · have : s.length = k + 1 := by omega
      rw [this]

theorem utf8RunesLoop_eq_utf8Runes (fuel : Nat) (s : List Nat) (h : s.length ≤ fuel) :
    utf8RunesLoop fuel s = utf8Runes s :=
  utf8RunesLoop_enough fuel s h

end GraphUserAdmin
